import Mathlib

/-!
# Deployment workflow state machine: deploy stages, supersession, stage tracker

A shallow embedding of three pieces of the orchestrator:

* `PerformDeployStage` / `performDeployStageOnAcd`
  (`pkg/appStore/chartGroup/ChartGroupService.go`),
* `SupersedePreviousDeployments` (`pkg/workflow/cd/CdWorkflowCommonService.go`),
* `updatePodStages` / `updateWorkflowStagesToDevtronStatus`
  (`pkg/pipeline/workflowStatus/WorkflowStageStatusService.go`).

Collaborators (repositories, Git and ArgoCD clients) are passed in as records of
answers; every call made by the code is written to a trace, so that statements
about what was invoked, and in which order, are statements about that trace.
-/

namespace Devtron

/-- A Go `error` value that is not nil; `Option GoError` is a Go `error`. -/
abbrev GoError := String

/-- Rendering of an `error` by the `%v` verb of `fmt.Sprintf`: a nil error prints as `<nil>`. -/
def fmtV : Option GoError → String
  | none => "<nil>"
  | some e => e

/-! ## Deploy stage orchestrator: data model -/

/-- Modelled from the spec: the `appStoreBean` deployment status constants, declared in another
package; the spec lists Init, Enqueued, QueueError, GitError,
GitSuccess, AcdError, AcdSuccess, DeploySuccess, HelmError. -/
inductive AppstoreDeploymentStatus
  | DEPLOY_INIT
  | ENQUEUED
  | QUE_ERROR
  | GIT_ERROR
  | GIT_SUCCESS
  | ACD_ERROR
  | ACD_SUCCESS
  | DEPLOY_SUCCESS
  | HELM_ERROR
  deriving DecidableEq, Repr

/-- Modelled from the spec: the `timelineStatus.TIMELINE_STATUS_*` constants used by this
code (their string values are declared elsewhere). -/
inductive TimelineStatus
  | DEPLOYMENT_INITIATED
  | GIT_COMMIT
  | GIT_COMMIT_FAILED
  | ARGOCD_SYNC_INITIATED
  | DEPLOYMENT_SUPERSEDED
  deriving DecidableEq, Repr

/-- The `StatusDetail` of a timeline row: a literal text built by the code, or one of the
`timelineStatus.TIMELINE_DESCRIPTION_*` constants whose text is declared elsewhere. -/
inductive TimelineDetail
  | text (s : String)
  | TIMELINE_DESCRIPTION_ARGOCD_GIT_COMMIT
  | TIMELINE_DESCRIPTION_ARGOCD_SYNC_INITIATED
  | TIMELINE_DESCRIPTION_DEPLOYMENT_SUPERSEDED
  deriving DecidableEq, Repr

/-- The `commonBean.ChartGitAttribute` fields written by `performDeployStageOnAcd`. -/
structure ChartGitAttribute where
  RepoUrl : String
  TargetRevision : String
  ChartLocation : String
  deriving DecidableEq, Repr

/-- The answer of `GenerateManifestAndPerformGitOperations`. -/
structure AppStoreGitOpsResponse where
  ChartGitAttribute : ChartGitAttribute
  GitHash : String
  deriving DecidableEq, Repr

/-- The part of the environment bean that `UpdateAdditionalEnvDetails` copies into the
fields modelled here. -/
structure EnvironmentBean where
  Environment : String
  deriving DecidableEq, Repr

/-- The fields of `appStoreBean.InstallAppVersionDTO` read or written by the deploy stage. -/
structure InstallAppVersionDTO where
  InstalledAppId : Int
  InstalledAppVersionId : Int
  InstalledAppVersionHistoryId : Int
  AppStoreVersion : Int
  DeploymentAppType : String
  Status : AppstoreDeploymentStatus
  GitHash : String
  GitOpsRepoURL : String
  AppName : String
  EnvironmentId : Int
  EnvironmentName : String
  Environment : Option EnvironmentBean
  UserId : Int
  AppId : Int := 0
  deriving DecidableEq, Repr

/-- Modelled from the spec: `util.IsAcdApp` (declared in another package) tells the
GitOps-managed deployment type; the type is the string `argo_cd`. -/
def IsAcdApp (deploymentAppType : String) : Bool :=
  deploymentAppType == "argo_cd"

/-- Modelled from the spec: `util.IsHelmApp` (declared in another package) tells the
direct Helm deployment type; the type is the string `helm`. -/
def IsHelmApp (deploymentAppType : String) : Bool :=
  deploymentAppType == "helm"

/-- One call made by the deploy stage to a collaborator, with the arguments of interest.
A status update carries whether it succeeded, that is whether the status was persisted. -/
inductive Event
  | GetInstalledAppVersion (installedAppVersionId : Int) (userId : Int)
  | SaveTimeline (historyId : Int) (status : TimelineStatus) (detail : TimelineDetail)
  | FindById (appStoreVersion : Int)
  | CreateArgoRepoSecretIfNeeded
  | GenerateManifestAndPerformGitOperations
  | AppStoreDeployOperationStatusUpdate (installedAppId : Int)
      (status : AppstoreDeploymentStatus) (ok : Bool)
  | Begin
  | SaveMultipleTimelinesIfNotAlreadyPresent (historyId : Int) (statuses : List TimelineStatus)
  | Commit
  | UpdateInstalledAppVersionHistoryWithGitHash (historyId : Int) (gitHash : String)
      (userId : Int)
  | GetExtendedEnvBeanById (environmentId : Int)
  | InstallApp (chartGitAttr : ChartGitAttribute)
  | InstallAppByHelm
  deriving DecidableEq, Repr

/-- The collaborators of `ChartGroupServiceImpl` used by the deploy stage, as the answers
they give. Within one call each of them is asked at most once per argument, so a
function of the arguments covers every behaviour. They receive the DTO by pointer; the
fields modelled here are taken to be left as they are by them. -/
structure Services where
  GetInstalledAppVersion : Int → Int → Except GoError InstallAppVersionDTO
  SaveTimeline : TimelineStatus → Option GoError
  FindById : Int → Option GoError
  CreateArgoRepoSecretIfNeeded : Option GoError
  GenerateManifestAndPerformGitOperations :
    InstallAppVersionDTO → Except GoError AppStoreGitOpsResponse
  AppStoreDeployOperationStatusUpdate : Int → AppstoreDeploymentStatus → Option GoError
  IsManualSyncEnabled : Bool
  Begin : Option GoError
  SaveMultipleTimelinesIfNotAlreadyPresent : Option GoError
  UpdateInstalledAppVersionHistoryWithGitHash : Int → String → Option GoError
  GetExtendedEnvBeanById : Int → Except GoError EnvironmentBean
  InstallApp : InstallAppVersionDTO → ChartGitAttribute → Option GoError
  InstallAppByHelm : InstallAppVersionDTO → Option GoError

/-- The trace entry of a status update answered with `r`. -/
def statusUpdateEvent (installedAppId : Int) (s : AppstoreDeploymentStatus)
    (r : Option GoError) : Event :=
  Event.AppStoreDeployOperationStatusUpdate installedAppId s r.isNone

/-- The first `if` of `performDeployStageOnAcd`: the statuses for which the Git stage runs. -/
def gitStageStatus (s : AppstoreDeploymentStatus) : Bool :=
  s == .DEPLOY_INIT || s == .ENQUEUED || s == .QUE_ERROR || s == .GIT_ERROR

/-- The second `if` of `performDeployStageOnAcd`: the statuses for which the sync runs. -/
def syncStageStatus (s : AppstoreDeploymentStatus) : Bool :=
  s == .DEPLOY_INIT || s == .ENQUEUED || s == .QUE_ERROR || s == .GIT_ERROR ||
    s == .GIT_SUCCESS || s == .ACD_ERROR

/-- How the first half of `performDeployStageOnAcd` ends: with a `return nil, err`, or by
falling through to the sync stage with the chart git attributes. `dto` is the DTO behind
the pointer at that moment. -/
inductive GitStageEnd
  | abort (dto : InstallAppVersionDTO) (err : Option GoError) (trace : List Event)
  | proceed (dto : InstallAppVersionDTO) (chartGitAttr : ChartGitAttribute)
      (trace : List Event)
  deriving DecidableEq, Repr

/-- What a call of `performDeployStageOnAcd` leaves: the DTO behind the pointer, whether the
returned pointer is non-nil, the returned error and the calls made. -/
structure AcdResult where
  dto : InstallAppVersionDTO
  returned : Bool
  err : Option GoError
  trace : List Event
  deriving DecidableEq, Repr

/-- What a call of `PerformDeployStage` returns, and the calls it made. -/
structure DeployResult where
  result : Option InstallAppVersionDTO
  err : Option GoError
  trace : List Event
  deriving DecidableEq, Repr

/-! ## Deploy stage orchestrator: code -/

/-- The Git stage of `performDeployStageOnAcd` (step 2) and its `else` branch. -/
def gitStage (svc : Services) (v : InstallAppVersionDTO) : GitStageEnd :=
  if gitStageStatus v.Status then
    match svc.FindById v.AppStoreVersion with
    | some e => .abort v (some e) [.FindById v.AppStoreVersion]
    | none =>
      match svc.CreateArgoRepoSecretIfNeeded with
      | some e => .abort v (some e) [.FindById v.AppStoreVersion, .CreateArgoRepoSecretIfNeeded]
      | none =>
        match svc.GenerateManifestAndPerformGitOperations v with
        | .error _ =>
          -- `_, err = ...StatusUpdate(GIT_ERROR)` overwrites the Git error
          let err := svc.AppStoreDeployOperationStatusUpdate v.InstalledAppId .GIT_ERROR
          let t := [.FindById v.AppStoreVersion, .CreateArgoRepoSecretIfNeeded,
            .GenerateManifestAndPerformGitOperations,
            statusUpdateEvent v.InstalledAppId .GIT_ERROR err]
          match err with
          | some e => .abort v (some e) t
          | none =>
            .abort v err (t ++ [.SaveTimeline v.InstalledAppVersionHistoryId .GIT_COMMIT_FAILED
              (.text ("Git commit failed - " ++ fmtV err))])
        | .ok resp =>
          let err := svc.AppStoreDeployOperationStatusUpdate v.InstalledAppId .GIT_SUCCESS
          let t := [.FindById v.AppStoreVersion, .CreateArgoRepoSecretIfNeeded,
            .GenerateManifestAndPerformGitOperations,
            .SaveTimeline v.InstalledAppVersionHistoryId .GIT_COMMIT
              .TIMELINE_DESCRIPTION_ARGOCD_GIT_COMMIT,
            statusUpdateEvent v.InstalledAppId .GIT_SUCCESS err]
          match err with
          | some e => .abort v (some e) t
          | none =>
            let timelines := [TimelineStatus.GIT_COMMIT] ++
              (if svc.IsManualSyncEnabled then [TimelineStatus.ARGOCD_SYNC_INITIATED] else [])
            match svc.Begin with
            | some e => .abort v (some e) (t ++ [.Begin])
            | none =>
              let t2 := t ++ [.Begin,
                .SaveMultipleTimelinesIfNotAlreadyPresent v.InstalledAppVersionHistoryId timelines,
                .Commit,
                .UpdateInstalledAppVersionHistoryWithGitHash v.InstalledAppVersionHistoryId
                  v.GitHash v.UserId]
              match svc.UpdateInstalledAppVersionHistoryWithGitHash
                  v.InstalledAppVersionHistoryId v.GitHash with
              | some e => .abort v (some e) t2
              | none =>
                .proceed { v with GitHash := resp.GitHash }
                  { RepoUrl := resp.ChartGitAttribute.RepoUrl,
                    TargetRevision := resp.ChartGitAttribute.TargetRevision,
                    ChartLocation := resp.ChartGitAttribute.ChartLocation } t2
  else
    let attrOf (d : InstallAppVersionDTO) : ChartGitAttribute :=
      { RepoUrl := d.GitOpsRepoURL,
        TargetRevision := d.GitOpsRepoURL,
        ChartLocation := d.AppName ++ "-" ++ d.EnvironmentName }
    match v.Environment with
    | none =>
      match svc.GetExtendedEnvBeanById v.EnvironmentId with
      | .error e => .abort v (some e) [.GetExtendedEnvBeanById v.EnvironmentId]
      | .ok env =>
        -- adapter.UpdateAdditionalEnvDetails
        let d := { v with Environment := some env, EnvironmentName := env.Environment }
        .proceed d (attrOf d) [.GetExtendedEnvBeanById v.EnvironmentId]
    | some env =>
      let d := { v with EnvironmentName := env.Environment }
      .proceed d (attrOf d) []

/-- The sync stage of `performDeployStageOnAcd` (step 3) and its `else` branch. -/
def syncStage (svc : Services) (v : InstallAppVersionDTO) (chartGitAttr : ChartGitAttribute) :
    AcdResult :=
  if syncStageStatus v.Status then
    match svc.InstallApp v chartGitAttr with
    | some _ =>
      -- `_, err = ...StatusUpdate(ACD_ERROR)` overwrites the sync error
      let err := svc.AppStoreDeployOperationStatusUpdate v.InstalledAppId .ACD_ERROR
      { dto := v, returned := false, err := err,
        trace := [.InstallApp chartGitAttr, statusUpdateEvent v.InstalledAppId .ACD_ERROR err] }
    | none =>
      let err := svc.AppStoreDeployOperationStatusUpdate v.InstalledAppId .ACD_SUCCESS
      let t := [.InstallApp chartGitAttr, statusUpdateEvent v.InstalledAppId .ACD_SUCCESS err]
      match err with
      | some e => { dto := v, returned := false, err := some e, trace := t }
      | none => { dto := v, returned := true, err := none, trace := t }
  else
    { dto := v, returned := true, err := none, trace := [] }

/-- The method `performDeployStageOnAcd`. `UpdateACDAppName` writes a field that is not
modelled here. -/
def performDeployStageOnAcd (svc : Services) (v : InstallAppVersionDTO) : AcdResult :=
  match gitStage svc v with
  | .abort d err t => { dto := d, returned := false, err := err, trace := t }
  | .proceed d chartGitAttr t =>
    let r := syncStage svc d chartGitAttr
    { r with trace := t ++ r.trace }

/-- Step 4 of `PerformDeployStage`: the status update to DEPLOY_SUCCESS and the return. -/
def deploySuccessStep (svc : Services) (v : InstallAppVersionDTO) (t : List Event) :
    DeployResult :=
  let err := svc.AppStoreDeployOperationStatusUpdate v.InstalledAppId .DEPLOY_SUCCESS
  let t2 := t ++ [statusUpdateEvent v.InstalledAppId .DEPLOY_SUCCESS err]
  match err with
  | some e => { result := none, err := some e, trace := t2 }
  | none => { result := some v, err := none, trace := t2 }

/-- The method `PerformDeployStage`. -/
def PerformDeployStage (svc : Services) (installedAppVersionId : Int)
    (installedAppVersionHistoryId : Int) (userId : Int) : DeployResult :=
  let t0 := [Event.GetInstalledAppVersion installedAppVersionId userId]
  match svc.GetInstalledAppVersion installedAppVersionId userId with
  | .error e => { result := none, err := some e, trace := t0 }
  | .ok loaded =>
    let v := { loaded with InstalledAppVersionHistoryId := installedAppVersionHistoryId }
    if IsAcdApp v.DeploymentAppType then
      let t1 := t0 ++ [.SaveTimeline v.InstalledAppVersionHistoryId .DEPLOYMENT_INITIATED
        (.text "Deployment initiated successfully.")]
      let r := performDeployStageOnAcd svc v
      match r.err with
      | some e => { result := none, err := some e, trace := t1 ++ r.trace }
      | none => deploySuccessStep svc r.dto (t1 ++ r.trace)
    else if IsHelmApp v.DeploymentAppType then
      match svc.InstallAppByHelm v with
      | some _ =>
        -- `_, err = ...StatusUpdate(HELM_ERROR)` overwrites the install error
        let err := svc.AppStoreDeployOperationStatusUpdate v.InstalledAppId .HELM_ERROR
        { result := none, err := err,
          trace := t0 ++ [.InstallAppByHelm, statusUpdateEvent v.InstalledAppId .HELM_ERROR err] }
      | none => deploySuccessStep svc v (t0 ++ [.InstallAppByHelm])
    else
      deploySuccessStep svc v t0

/-! ## Deploy stage orchestrator: reading a trace -/

/-- The calls made by the first half of `performDeployStageOnAcd`, however it ends. -/
def GitStageEnd.trace : GitStageEnd → List Event
  | .abort _ _ t => t
  | .proceed _ _ t => t

/-- The calls made by the second half of `performDeployStageOnAcd`, when it is reached. -/
def syncTrace (svc : Services) : GitStageEnd → List Event
  | .abort _ _ _ => []
  | .proceed d a _ => (syncStage svc d a).trace


/-- The statuses persisted by a call, in order: the status updates that succeeded. -/
def persistedStatuses : List Event → List AppstoreDeploymentStatus
  | [] => []
  | .AppStoreDeployOperationStatusUpdate _ s true :: t => s :: persistedStatuses t
  | _ :: t => persistedStatuses t

/-- The timeline statuses handed to `SaveTimeline`, in order. -/
def savedTimelines : List Event → List TimelineStatus
  | [] => []
  | .SaveTimeline _ s _ :: t => s :: savedTimelines t
  | _ :: t => savedTimelines t

/-- Whether the event is a call of the sync operation `InstallApp`. -/
def isInstallApp : Event → Bool
  | .InstallApp _ => true
  | _ => false

/-- Whether the event is one of the Git stage operations: repository secret creation, or
manifest generation with the Git commit. -/
def isGitOperation : Event → Bool
  | .CreateArgoRepoSecretIfNeeded => true
  | .GenerateManifestAndPerformGitOperations => true
  | _ => false

/-- Whether the event writes a Git timeline entry (commit done, commit failed, or the batch
saved after the commit). -/
def isGitTimeline : Event → Bool
  | .SaveTimeline _ .GIT_COMMIT _ => true
  | .SaveTimeline _ .GIT_COMMIT_FAILED _ => true
  | .SaveMultipleTimelinesIfNotAlreadyPresent _ _ => true
  | _ => false

/-! ## Supersession manager: data model -/

/-- Modelled from the spec: `health.HealthStatusHealthy`, declared in another package. -/
def HealthStatusHealthy : String := "Healthy"

/-- Modelled from the spec: `cdWorkflow.WorkflowAborted`, declared in another package. -/
def WorkflowAborted : String := "Aborted"

/-- Modelled from the spec: `cdWorkflow.WorkflowFailed`, declared in another package. -/
def WorkflowFailed : String := "Failed"

/-- Modelled from the spec: `cdWorkflow.WorkflowSucceeded`, declared in another package. -/
def WorkflowSucceeded : String := "Succeeded"

/-- Modelled from the spec: the text of the sentinel `cdWorkflow.ErrorDeploymentSuperseded`,
declared in another package; the spec gives the message `deployment superseded`. -/
def ErrorDeploymentSuperseded : String := "deployment superseded"

/-- Modelled from the spec: the workflow type of a runner (pre, deploy, post), declared in
another package. -/
inductive WorkflowType
  | PRE
  | DEPLOY
  | POST
  deriving DecidableEq, Repr

/-- Modelled from the spec: `WorkflowType.IsStageTypeDeploy`, declared in another package. -/
def WorkflowType.IsStageTypeDeploy : WorkflowType → Bool
  | .DEPLOY => true
  | _ => false

/-- The fields read through `runner.CdWorkflow.Pipeline`: the app and the environment of the
pipeline. A `CdWorkflow` that is attached is taken to carry its pipeline. -/
structure PipelineRef where
  AppId : Int
  EnvironmentId : Int
  deriving DecidableEq, Repr

/-- The fields of `pipelineConfig.CdWorkflowRunner` read or written by the supersession and
by the runner status updates. `CdWorkflow` is `none` for a nil pointer. -/
structure CdWorkflowRunner where
  Id : Int
  Status : String
  Message : String
  FinishedOn : Nat
  UpdatedOn : Nat
  UpdatedBy : Int
  WorkflowType : WorkflowType := .DEPLOY
  CdWorkflow : Option PipelineRef := none
  deriving DecidableEq, Repr

/-- The fields of `pipelineConfig.PipelineStatusTimeline` written by the supersession;
`AuditUser` is the user id given to `CreateAuditLog`. -/
structure PipelineStatusTimeline where
  CdWorkflowRunnerId : Int
  Status : TimelineStatus
  StatusDetail : TimelineDetail
  StatusTime : Nat
  AuditUser : Int
  deriving DecidableEq, Repr

/-- The persisted rows: what a reader of the database sees outside any open transaction. -/
structure CdDb where
  runners : List CdWorkflowRunner
  timelines : List PipelineStatusTimeline
  deriving DecidableEq, Repr

/-- The answers of the persistence gateway during one call of `SupersedePreviousDeployments`.
`FindPreviousCdWfRunnerByStatus` is given the pipeline id, the current runner id and the
list of terminal statuses. -/
structure CdRepositories where
  Begin : Option GoError
  FindPreviousCdWfRunnerByStatus :
    Int → Int → List String → Except GoError (List CdWorkflowRunner)
  UpdateWorkFlowRunners : List CdWorkflowRunner → Option GoError
  SaveTimelinesWithTxn : List PipelineStatusTimeline → Option GoError
  Commit : Option GoError

/-- One call made by `SupersedePreviousDeployments` to the persistence gateway. -/
inductive CdEvent
  | Begin
  | FindPreviousCdWfRunnerByStatus (pipelineId : Int) (cdWfrId : Int)
      (terminalStatus : List String)
  | UpdateWorkFlowRunners (runners : List CdWorkflowRunner)
  | SaveTimelinesWithTxn (timelines : List PipelineStatusTimeline)
  | Commit
  | Rollback
  deriving DecidableEq, Repr

/-- What a call of `SupersedePreviousDeployments` returns and leaves behind. -/
structure SupersedeResult where
  err : Option GoError
  db : CdDb
  trace : List CdEvent
  deriving DecidableEq, Repr

/-- Modelled from the spec: the effect of `UpdateWorkFlowRunners(batch)` of the persistence
gateway (declared in another package) on the persisted rows. It is given no
transaction, so a successful call rewrites, at once, each row whose id is in the batch. -/
def updateRows (rows batch : List CdWorkflowRunner) : List CdWorkflowRunner :=
  rows.map fun row =>
    match batch.find? (fun r => r.Id == row.Id) with
    | some r => r
    | none => row

/-! ## Supersession manager: code -/

/-- The test at the head of the loop body of `SupersedePreviousDeployments`. -/
def isSupersedeTerminal (status : String) : Bool :=
  status == HealthStatusHealthy || status == WorkflowSucceeded ||
    status == WorkflowAborted || status == WorkflowFailed

/-- The runner as the loop body leaves it when its status is not terminal. -/
def supersedeRunner (triggeredAt now : Nat) (triggeredBy : Int) (r : CdWorkflowRunner) :
    CdWorkflowRunner :=
  { r with
    FinishedOn := triggeredAt,
    Message := ErrorDeploymentSuperseded,
    Status := WorkflowFailed,
    UpdatedOn := now,
    UpdatedBy := triggeredBy }

/-- The timeline entry built by the loop body for a runner. -/
def supersededTimeline (now : Nat) (r : CdWorkflowRunner) : PipelineStatusTimeline :=
  { CdWorkflowRunnerId := r.Id,
    Status := .DEPLOYMENT_SUPERSEDED,
    StatusDetail := .TIMELINE_DESCRIPTION_DEPLOYMENT_SUPERSEDED,
    StatusTime := now,
    AuditUser := 1 }

/-- The `for` loop of `SupersedePreviousDeployments`: the runners as they are after the loop
(they are updated in place through their pointers) and the timelines appended. `now` is
the reading of `time.Now()`. -/
def supersedeLoop (triggeredAt now : Nat) (triggeredBy : Int) :
    List CdWorkflowRunner → List CdWorkflowRunner × List PipelineStatusTimeline
  | [] => ([], [])
  | r :: rest =>
    let out := supersedeLoop triggeredAt now triggeredBy rest
    if isSupersedeTerminal r.Status then
      (r :: out.1, out.2)
    else
      (supersedeRunner triggeredAt now triggeredBy r :: out.1,
        supersededTimeline now (supersedeRunner triggeredAt now triggeredBy r) :: out.2)

/-- The method `SupersedePreviousDeployments`, run on the persisted rows `db`. The deferred
`tx.Rollback()` discards what was written through `tx` and not committed; of the two
writes only `SaveTimelinesWithTxn` is given `tx`. -/
def SupersedePreviousDeployments (repo : CdRepositories) (db : CdDb) (now : Nat)
    (cdWfrId pipelineId : Int) (triggeredAt : Nat) (triggeredBy : Int) : SupersedeResult :=
  match repo.Begin with
  | some e => { err := some e, db := db, trace := [.Begin] }
  | none =>
    let terminalStatus :=
      [HealthStatusHealthy, WorkflowAborted, WorkflowFailed, WorkflowSucceeded]
    let t0 := [CdEvent.Begin,
      .FindPreviousCdWfRunnerByStatus pipelineId cdWfrId terminalStatus]
    match repo.FindPreviousCdWfRunnerByStatus pipelineId cdWfrId terminalStatus with
    | .error e => { err := some e, db := db, trace := t0 ++ [.Rollback] }
    | .ok previousNonTerminalRunners =>
      if previousNonTerminalRunners.length == 0 then
        { err := none, db := db, trace := t0 ++ [.Rollback] }
      else
        let out := supersedeLoop triggeredAt now triggeredBy previousNonTerminalRunners
        let t1 := t0 ++ [.UpdateWorkFlowRunners out.1]
        match repo.UpdateWorkFlowRunners out.1 with
        | some e => { err := some e, db := db, trace := t1 ++ [.Rollback] }
        | none =>
          let db1 := { db with runners := updateRows db.runners out.1 }
          let t2 := t1 ++ [.SaveTimelinesWithTxn out.2]
          match repo.SaveTimelinesWithTxn out.2 with
          | some e => { err := some e, db := db1, trace := t2 ++ [.Rollback] }
          | none =>
            match repo.Commit with
            | some e => { err := some e, db := db1, trace := t2 ++ [.Commit, .Rollback] }
            | none =>
              { err := none,
                db := { db1 with timelines := db1.timelines ++ out.2 },
                trace := t2 ++ [.Commit, .Rollback] }

/-- The batches handed to `UpdateWorkFlowRunners` during a call. -/
def runnerUpdates : List CdEvent → List (List CdWorkflowRunner)
  | [] => []
  | .UpdateWorkFlowRunners b :: t => b :: runnerUpdates t
  | _ :: t => runnerUpdates t

/-- The batches handed to `SaveTimelinesWithTxn` during a call. -/
def timelineSaves : List CdEvent → List (List PipelineStatusTimeline)
  | [] => []
  | .SaveTimelinesWithTxn b :: t => b :: timelineSaves t
  | _ :: t => timelineSaves t

/-! ## Workflow stage tracker: data model -/

/-- Modelled from the spec: the `bean.WorkflowStageStatus` constants, declared in another
package: not-started, running, succeeded, failed, timeout, aborted, unknown. -/
inductive WorkflowStageStatus
  | NOT_STARTED
  | RUNNING
  | SUCCEEDED
  | FAILED
  | ABORTED
  | TIMEOUT
  | UNKNOWN
  deriving DecidableEq, Repr

/-- Modelled from the spec: `WorkflowStageStatus.IsTerminal`, declared in another
package; the spec gives terminal = succeeded, failed, timeout, aborted. -/
def WorkflowStageStatus.IsTerminal : WorkflowStageStatus → Bool
  | .SUCCEEDED => true
  | .FAILED => true
  | .TIMEOUT => true
  | .ABORTED => true
  | _ => false

/-- Modelled from the spec: `WorkflowStageStatus.ToString`, the name of the constant. -/
def WorkflowStageStatus.ToString : WorkflowStageStatus → String
  | .NOT_STARTED => "NOT_STARTED"
  | .RUNNING => "RUNNING"
  | .SUCCEEDED => "SUCCEEDED"
  | .FAILED => "FAILED"
  | .ABORTED => "ABORTED"
  | .TIMEOUT => "TIMEOUT"
  | .UNKNOWN => "UNKNOWN"

/-- Modelled from the spec: the stage names `WORKFLOW_PREPARATION`, `WORKFLOW_EXECUTION` and
`POD_EXECUTION` (preparation, execution, pod-readiness), declared in another package. -/
inductive WorkflowStageName
  | WORKFLOW_PREPARATION
  | WORKFLOW_EXECUTION
  | POD_EXECUTION
  deriving DecidableEq, Repr

/-- Modelled from the spec: the two values of `StatusFor`, `WORKFLOW_STAGE_STATUS_TYPE_WORKFLOW`
and `WORKFLOW_STAGE_STATUS_TYPE_POD`, declared in another package. -/
inductive WorkflowStageStatusType
  | WORKFLOW
  | POD
  deriving DecidableEq, Repr

/-- The fields of `repository.WorkflowExecutionStage` read or written by the reducers. -/
structure WorkflowExecutionStage where
  StageName : WorkflowStageName
  StatusFor : WorkflowStageStatusType
  Status : WorkflowStageStatus
  Message : String
  Metadata : String
  StartTime : String
  EndTime : String
  deriving DecidableEq, Repr

/-- The helpers of the reducers that are declared in another package: the list
`cdWorkflow.WfrTerminalStatusList`, `adapter.ConvertStatusToDevtronStatus` and
`util.ComputeWorkflowStatus`. -/
structure StageHelpers where
  WfrTerminalStatusList : List String
  ConvertStatusToDevtronStatus : String → String → WorkflowStageStatus
  ComputeWorkflowStatus : String → String → String → String

/-- The pod phase `v1alpha1.NodePending`. -/
def NodePending : String := "Pending"

/-- The pod phase `v1alpha1.NodeRunning`. -/
def NodeRunning : String := "Running"

/-- The pod phase `v1alpha1.NodeSucceeded`. -/
def NodeSucceeded : String := "Succeeded"

/-- The pod phase `v1alpha1.NodeFailed`. -/
def NodeFailed : String := "Failed"

/-- The pod phase `v1alpha1.NodeError`. -/
def NodeError : String := "Error"

/-- Modelled from the spec: `cdWorkflow.WorkflowWaitingToStart`, declared in another
package. -/
def WorkflowWaitingToStart : String := "WaitingToStart"

/-- Modelled from the spec: `constants.Running`, declared in another package. -/
def Running : String := "Running"

/-- Modelled from the spec: `cdWorkflow.WorkflowTimedOut`, declared in another package. -/
def WorkflowTimedOut : String := "TimedOut"

/-- Modelled from the spec: `cdWorkflow.WorkflowCancel`, declared in another package. -/
def WorkflowCancel : String := "CANCELLED"

/-- The lowering of one rune by `unicode.ToLower`, written out on every rune whose lowering
is an ASCII rune: the ASCII capitals, U+0130 (capital I with dot above, lowered to `i`) and
U+212A (the Kelvin sign, lowered to `k`); the ASCII runes that are not capitals are left as
they are. No other rune is lowered to an ASCII rune, so the remaining runes, kept as they
are here, cannot change whether a lowered text equals a text of ASCII letters. -/
def toLowerRune (c : Char) : Char :=
  if c == Char.ofNat 0x130 then 'i'
  else if c == Char.ofNat 0x212A then 'k'
  else c.toLower

/-- The function `strings.ToLower`: every rune of the text is lowered. The callers only
compare its result with the lowered names of the pod phases and of the statuses, which are
ASCII letters. -/
def ToLower (s : String) : String :=
  String.mk (s.data.map toLowerRune)

/-- The lower-case hexadecimal digit of a number below 16. -/
def hexDigit (n : Nat) : Char :=
  if n < 10 then Char.ofNat (48 + n) else Char.ofNat (87 + n)

/-- How `json.Marshal` writes one rune of a string: the quote and the backslash get a
backslash in front; backspace, form feed, line feed, carriage return and tab get their
short escapes (the toolchains before Go 1.22 write backspace and form feed as `\u0008` and
`\u000c`); the other control characters and, as HTML escaping is on, `<`, `>` and `&` are
written `\u00` with two hexadecimal digits; U+2028 and U+2029 are written `\u2028` and
`\u2029`; every other rune is written as it is. -/
def jsonRune (c : Char) : List Char :=
  if c == Char.ofNat 34 || c == Char.ofNat 92 then [Char.ofNat 92, c]
  else if c == Char.ofNat 8 then [Char.ofNat 92, 'b']
  else if c == Char.ofNat 12 then [Char.ofNat 92, 'f']
  else if c == Char.ofNat 10 then [Char.ofNat 92, 'n']
  else if c == Char.ofNat 13 then [Char.ofNat 92, 'r']
  else if c == Char.ofNat 9 then [Char.ofNat 92, 't']
  else if c.toNat < 32 || c == '<' || c == '>' || c == '&' then
    [Char.ofNat 92, 'u', '0', '0', hexDigit (c.toNat / 16), hexDigit (c.toNat % 16)]
  else if c == Char.ofNat 0x2028 then [Char.ofNat 92, 'u', '2', '0', '2', '8']
  else if c == Char.ofNat 0x2029 then [Char.ofNat 92, 'u', '2', '0', '2', '9']
  else [c]

/-- The metadata written for a pod name: `json.Marshal` of the one-entry map with the key
`podName`, the name written as a JSON string. -/
def marshalPodName (podName : String) : String :=
  "\x7b\"podName\":\"" ++ String.mk (podName.data.flatMap jsonRune) ++ "\"\x7d"

/-! ## Workflow stage tracker: code -/

/-- The first step of the loop body of `updatePodStages`: the pod name, when not empty, is
written to the metadata of the stage. -/
def setPodNameMetadata (podName : String) (stage : WorkflowExecutionStage) :
    WorkflowExecutionStage :=
  if podName.length > 0 then { stage with Metadata := marshalPodName podName } else stage

/-- The `switch podStatus` of the loop body of `updatePodStages`. `now` is the formatted
reading of `time.Now()`. -/
def podPhaseSwitch (now podStatus message : String) (stage : WorkflowExecutionStage) :
    WorkflowExecutionStage :=
  if podStatus == NodePending then
    if !stage.Status.IsTerminal then
      { stage with Message := message, Status := .NOT_STARTED }
    else stage
  else if podStatus == NodeRunning then
    if stage.Status == .NOT_STARTED || stage.Status == .UNKNOWN then
      { stage with Message := message, Status := .RUNNING, StartTime := now }
    else stage
  else if podStatus == NodeSucceeded then
    if stage.Status == .RUNNING || stage.Status == .UNKNOWN then
      { stage with Message := message, Status := .SUCCEEDED, EndTime := now }
    else stage
  else if podStatus == NodeFailed || podStatus == NodeError then
    if stage.Status == .RUNNING || stage.Status == .NOT_STARTED ||
        stage.Status == .UNKNOWN then
      let stage := { stage with Message := message, Status := .FAILED, EndTime := now }
      if stage.Status == .NOT_STARTED then { stage with StartTime := now } else stage
    else stage
  else
    { stage with Message := message, Status := .UNKNOWN, EndTime := now }

/-- The body of the `for` loop of `updatePodStages`, for one stage. -/
def updatePodStage (now podStatus message podName : String) (stage : WorkflowExecutionStage) :
    WorkflowExecutionStage :=
  if stage.StatusFor == .POD then
    podPhaseSwitch now podStatus message (setPodNameMetadata podName stage)
  else stage

/-- The method `updatePodStages`: the stages after the loop and the updated pod status. -/
def updatePodStages (h : StageHelpers) (now : String)
    (currentWorkflowStages : List WorkflowExecutionStage)
    (podStatus currentPodStatus message podName : String) :
    List WorkflowExecutionStage × String :=
  let updatedPodStatus :=
    if !h.WfrTerminalStatusList.contains currentPodStatus then podStatus else currentPodStatus
  (currentWorkflowStages.map (updatePodStage now podStatus message podName), updatedPodStatus)

/-- A `for` loop over the stages that also carries the workflow status being computed. -/
def forEachStage (body : WorkflowExecutionStage → String → WorkflowExecutionStage × String) :
    List WorkflowExecutionStage → String → List WorkflowExecutionStage × String
  | [], w => ([], w)
  | stage :: rest, w =>
    let out := forEachStage body rest (body stage w).2
    ((body stage w).1 :: out.1, out.2)

/-- Loop body of `updateWorkflowStagesToDevtronStatus` for the pod phase Pending. -/
def pendingBody (h : StageHelpers) (now wfStatus wfMessage : String)
    (stage : WorkflowExecutionStage) (w : String) : WorkflowExecutionStage × String :=
  let stage :=
    if stage.StageName == .WORKFLOW_PREPARATION && !stage.Status.IsTerminal then
      let extractedStatus := h.ConvertStatusToDevtronStatus wfStatus wfMessage
      if extractedStatus != .NOT_STARTED then { stage with Status := extractedStatus } else stage
    else stage
  let stage :=
    if stage.StageName == .POD_EXECUTION && h.WfrTerminalStatusList.contains wfStatus then
      { stage with
        Status := h.ConvertStatusToDevtronStatus wfStatus wfMessage, EndTime := now }
    else stage
  (stage, w)

/-- Loop body of `updateWorkflowStagesToDevtronStatus` for the pod phase Running. -/
def runningBody (h : StageHelpers) (now wfStatus wfMessage : String)
    (stage : WorkflowExecutionStage) (w : String) : WorkflowExecutionStage × String :=
  if stage.StatusFor == .WORKFLOW then
    let stage :=
      if stage.StageName == .WORKFLOW_PREPARATION then
        if stage.Status == .RUNNING then
          { stage with Status := .SUCCEEDED, EndTime := now }
        else stage
      else stage
    let stage :=
      if stage.StageName == .WORKFLOW_EXECUTION then
        if stage.Status == .NOT_STARTED then
          { stage with Status := .RUNNING, StartTime := now }
        else if stage.Status == .RUNNING then
          let extractedStatus := h.ConvertStatusToDevtronStatus wfStatus wfMessage
          if extractedStatus.IsTerminal then
            { stage with Status := extractedStatus, EndTime := now }
          else stage
        else stage
      else stage
    (stage, w)
  else (stage, w)

/-- Loop body of `updateWorkflowStagesToDevtronStatus` for the pod phase Succeeded. -/
def succeededBody (now : String) (stage : WorkflowExecutionStage) (w : String) :
    WorkflowExecutionStage × String :=
  if stage.StatusFor == .WORKFLOW then
    if stage.StageName == .WORKFLOW_EXECUTION then
      if stage.Status == .RUNNING then
        ({ stage with Status := .SUCCEEDED, EndTime := now }, w)
      else (stage, w)
    else (stage, w)
  else (stage, w)

/-- The overall status after a stage was closed with `extractedStatus` in the Failed case. -/
def closedWfStatus (extractedStatus : WorkflowStageStatus) (w : String) : String :=
  let w := if extractedStatus == .TIMEOUT then WorkflowTimedOut else w
  if extractedStatus == .ABORTED then WorkflowCancel else w

/-- Loop body of `updateWorkflowStagesToDevtronStatus` for the pod phases Failed and Error. -/
def failedBody (h : StageHelpers) (now wfStatus wfMessage : String)
    (stage : WorkflowExecutionStage) (w : String) : WorkflowExecutionStage × String :=
  if stage.StatusFor == .WORKFLOW then
    if stage.StageName == .WORKFLOW_EXECUTION then
      if stage.Status == .RUNNING then
        let extractedStatus := h.ConvertStatusToDevtronStatus wfStatus wfMessage
        if extractedStatus.IsTerminal then
          ({ stage with Status := extractedStatus, EndTime := now },
            closedWfStatus extractedStatus w)
        else (stage, w)
      else (stage, w)
    else if stage.StageName == .WORKFLOW_PREPARATION && !stage.Status.IsTerminal then
      let extractedStatus := h.ConvertStatusToDevtronStatus wfStatus wfMessage
      if extractedStatus.IsTerminal then
        ({ stage with Status := extractedStatus, EndTime := now },
          closedWfStatus extractedStatus w)
      else (stage, w)
    else (stage, w)
  else (stage, w)

/-- Loop body of `updateWorkflowStagesToDevtronStatus` for any other pod phase. -/
def defaultBody (stage : WorkflowExecutionStage) (w : String) :
    WorkflowExecutionStage × String :=
  if stage.StatusFor == .WORKFLOW then
    if stage.StageName == .WORKFLOW_EXECUTION then
      if stage.Status == .RUNNING then
        ({ stage with Status := .UNKNOWN }, WorkflowStageStatus.UNKNOWN.ToString)
      else (stage, w)
    else (stage, w)
  else (stage, w)

/-- The method `updateWorkflowStagesToDevtronStatus`. -/
def updateWorkflowStagesToDevtronStatus (h : StageHelpers) (now : String)
    (currentWorkflowStages : List WorkflowExecutionStage)
    (wfStatus currentWfDBstatus wfMessage podStatus : String) :
    List WorkflowExecutionStage × String :=
  let p := ToLower podStatus
  if p == ToLower NodePending then
    forEachStage (pendingBody h now wfStatus wfMessage) currentWorkflowStages
      (h.ComputeWorkflowStatus currentWfDBstatus wfStatus WorkflowWaitingToStart)
  else if p == ToLower NodeRunning then
    forEachStage (runningBody h now wfStatus wfMessage) currentWorkflowStages
      (h.ComputeWorkflowStatus currentWfDBstatus wfStatus Running)
  else if p == ToLower NodeSucceeded then
    forEachStage (succeededBody now) currentWorkflowStages
      (h.ComputeWorkflowStatus currentWfDBstatus wfStatus WorkflowSucceeded)
  else if p == ToLower NodeFailed || p == ToLower NodeError then
    forEachStage (failedBody h now wfStatus wfMessage) currentWorkflowStages
      (h.ComputeWorkflowStatus currentWfDBstatus wfStatus WorkflowFailed)
  else
    forEachStage defaultBody currentWorkflowStages currentWfDBstatus

/-- The status that the `switch podStatus` of `updatePodStages` leaves on a stage whose
status was `st`: the `Status` column of `podPhaseSwitch`. -/
def nextPodStageStatus (podStatus : String) (st : WorkflowStageStatus) : WorkflowStageStatus :=
  if podStatus == NodePending then
    if !st.IsTerminal then .NOT_STARTED else st
  else if podStatus == NodeRunning then
    if st == .NOT_STARTED || st == .UNKNOWN then .RUNNING else st
  else if podStatus == NodeSucceeded then
    if st == .RUNNING || st == .UNKNOWN then .SUCCEEDED else st
  else if podStatus == NodeFailed || podStatus == NodeError then
    if st == .RUNNING || st == .NOT_STARTED || st == .UNKNOWN then .FAILED else st
  else .UNKNOWN

/-- Successive calls of `updatePodStages`, one per incoming pod phase, each made on the
stages and the pod status left by the call before (the caller persists both). -/
def applyPodPhases (h : StageHelpers) (now message podName : String) :
    List String → List WorkflowExecutionStage × String → List WorkflowExecutionStage × String
  | [], st => st
  | podStatus :: rest, st =>
    applyPodPhases h now message podName rest
      (updatePodStages h now st.1 podStatus st.2 message podName)

/-! ## Runner status updates: data model -/

/-- The release error handed to `MarkCurrentDeploymentFailed`, as far as `errors.Is` can tell
errors apart: the supersession sentinel, any other error, or an error wrapping another. -/
inductive ReleaseError
  | ErrorDeploymentSuperseded
  | other (text : String)
  | wrap (text : String) (inner : ReleaseError)
  deriving DecidableEq, Repr

/-- The test `errors.Is(err, cdWorkflow.ErrorDeploymentSuperseded)` on a non-nil error: the
chain of wrapped errors is walked until the sentinel is met. -/
def ReleaseError.IsSuperseded : ReleaseError → Bool
  | .ErrorDeploymentSuperseded => true
  | .other _ => false
  | .wrap _ inner => inner.IsSuperseded

/-- The test `errors.Is(releaseErr, cdWorkflow.ErrorDeploymentSuperseded)`; false on nil. -/
def errorsIsSuperseded : Option ReleaseError → Bool
  | none => false
  | some e => e.IsSuperseded

/-- The message `model.PubSubMsg` of the message bus, declared in another package. -/
structure PubSubMsg where
  Data : String
  MsgDeliverCount : Nat
  MsgId : String
  deriving DecidableEq, Repr

/-- The collaborators, helpers and constants of `CdWorkflowCommonServiceImpl` used by the
runner status updates, as the answers they give; all of them are declared in another
package. `FindById` is the one of the pipeline repository. -/
structure RunnerServices where
  WfrTerminalStatusList : List String
  FindBasicWorkflowRunnerById : Int → Except GoError CdWorkflowRunner
  UpdateCdWorkflowRunnerWithStage : CdWorkflowRunner → Option GoError
  MarkPipelineStatusTimelineSuperseded : Int → Option GoError
  MarkPipelineStatusTimelineFailed : Int → String → Option GoError
  GetConfigForDevtronApps : Int → Int → Option GoError
  GetClientErrorDetailedMessage : Option ReleaseError → String
  GetTruncatedMessage : String → Nat → String
  FOUND_VULNERABILITY : String
  TIMELINE_DESCRIPTION_VULNERABLE_IMAGE : String
  GetPreviousQueuedRunners : Int → Int → Except GoError (List CdWorkflowRunner)
  FindById : Int → Except GoError PipelineRef
  UpdateRunnerStatusToFailedForIds : String → Int → List Int → Option GoError
  CheckWorkflowRunnerByReferenceId : String → Except GoError Bool

/-- One call made by the runner status updates to a collaborator. -/
inductive RunnerEvent
  | FindBasicWorkflowRunnerById (wfrId : Int)
  | UpdateCdWorkflowRunnerWithStage (runner : CdWorkflowRunner)
  | MarkPipelineStatusTimelineSuperseded (runnerId : Int)
  | MarkPipelineStatusTimelineFailed (runnerId : Int) (detail : String)
  | GetConfigForDevtronApps (appId : Int) (envId : Int)
  | TriggerCDMetrics (runnerId : Int)
  | GetPreviousQueuedRunners (cdWfrId : Int) (pipelineId : Int)
  | FindById (pipelineId : Int)
  | UpdateRunnerStatusToFailedForIds (message : String) (triggeredBy : Int) (ids : List Int)
  deriving DecidableEq, Repr

/-- What a call of `UpdateNonTerminalStatusInRunner` returns, the run it fetched as it is
after the call (`none` when no run was fetched), and the calls made. -/
structure UpdateStatusResult where
  err : Option GoError
  run : Option CdWorkflowRunner
  trace : List RunnerEvent
  deriving DecidableEq, Repr

/-- What a call of `MarkCurrentDeploymentFailed` returns, the run behind the pointer after the
call, the calls made, and whether the call ended in a nil pointer dereference. -/
structure MarkFailedResult where
  err : Option GoError
  runner : CdWorkflowRunner
  trace : List RunnerEvent
  panicked : Bool
  deriving DecidableEq, Repr

/-- What a call of `UpdatePreviousQueuedRunnerStatus` returns, and the calls made. -/
structure QueuedResult where
  err : Option GoError
  trace : List RunnerEvent
  deriving DecidableEq, Repr

/-! ## Runner status updates: code -/

/-- The method `UpdateAuditLog` of a runner, declared in another package: it stamps the user
and the time of the update. `now` is the reading of `time.Now()`. -/
def UpdateAuditLog (now : Nat) (userId : Int) (r : CdWorkflowRunner) : CdWorkflowRunner :=
  { r with UpdatedOn := now, UpdatedBy := userId }

/-- The method `UpdateNonTerminalStatusInRunner`. -/
def UpdateNonTerminalStatusInRunner (svc : RunnerServices) (now : Nat) (wfrId userId : Int)
    (status : String) : UpdateStatusResult :=
  let isTerminalStatus := svc.WfrTerminalStatusList.contains status
  if isTerminalStatus then
    { err := some ("unsupported status " ++ status ++ " for update operation"),
      run := none, trace := [] }
  else
    match svc.FindBasicWorkflowRunnerById wfrId with
    | .error e => { err := some e, run := none, trace := [.FindBasicWorkflowRunnerById wfrId] }
    | .ok cdWfr =>
      if svc.WfrTerminalStatusList.contains cdWfr.Status then
        { err := none, run := some cdWfr, trace := [.FindBasicWorkflowRunnerById wfrId] }
      else
        let cdWfr := UpdateAuditLog now userId { cdWfr with Status := status }
        { err := svc.UpdateCdWorkflowRunnerWithStage cdWfr,
          run := some cdWfr,
          trace := [.FindBasicWorkflowRunnerById wfrId, .UpdateCdWorkflowRunnerWithStage cdWfr] }

/-- The function `extractTimelineFailedStatusDetails`. -/
def extractTimelineFailedStatusDetails (svc : RunnerServices) (err : Option ReleaseError) :
    String :=
  let errorString := svc.GetClientErrorDetailedMessage err
  if errorString == svc.FOUND_VULNERABILITY then
    svc.TIMELINE_DESCRIPTION_VULNERABLE_IMAGE
  else
    svc.GetTruncatedMessage ("Deployment failed: " ++ errorString) 255

/-- The metrics part of `MarkCurrentDeploymentFailed`, after the timeline entry is written:
the pipeline is read through `runner.CdWorkflow`, which panics on a nil pointer. -/
def markFailedMetrics (svc : RunnerServices) (runner : CdWorkflowRunner)
    (t : List RunnerEvent) : MarkFailedResult :=
  match runner.CdWorkflow with
  | none => { err := none, runner := runner, trace := t, panicked := true }
  | some pipeline =>
    let t2 := t ++ [.GetConfigForDevtronApps pipeline.AppId pipeline.EnvironmentId]
    match svc.GetConfigForDevtronApps pipeline.AppId pipeline.EnvironmentId with
    | some e => { err := some e, runner := runner, trace := t2, panicked := false }
    | none =>
      { err := none, runner := runner, trace := t2 ++ [.TriggerCDMetrics runner.Id],
        panicked := false }

/-- The method `MarkCurrentDeploymentFailed`. `now` is the reading of `time.Now()`. -/
def MarkCurrentDeploymentFailed (svc : RunnerServices) (now : Nat) (runner : CdWorkflowRunner)
    (releaseErr : Option ReleaseError) (triggeredBy : Int) : MarkFailedResult :=
  if svc.WfrTerminalStatusList.contains runner.Status then
    { err := none, runner := runner, trace := [], panicked := false }
  else
    let runner := UpdateAuditLog now triggeredBy
      { runner with
        Status := WorkflowFailed,
        Message := svc.GetClientErrorDetailedMessage releaseErr,
        FinishedOn := now }
    let t := [RunnerEvent.UpdateCdWorkflowRunnerWithStage runner]
    match svc.UpdateCdWorkflowRunnerWithStage runner with
    | some err1 => { err := some err1, runner := runner, trace := t, panicked := false }
    | none =>
      if runner.WorkflowType.IsStageTypeDeploy then
        if errorsIsSuperseded releaseErr then
          let t2 := t ++ [.MarkPipelineStatusTimelineSuperseded runner.Id]
          match svc.MarkPipelineStatusTimelineSuperseded runner.Id with
          | some e => { err := some e, runner := runner, trace := t2, panicked := false }
          | none => markFailedMetrics svc runner t2
        else
          let detail := extractTimelineFailedStatusDetails svc releaseErr
          let t2 := t ++ [.MarkPipelineStatusTimelineFailed runner.Id detail]
          match svc.MarkPipelineStatusTimelineFailed runner.Id detail with
          | some e => { err := some e, runner := runner, trace := t2, panicked := false }
          | none => markFailedMetrics svc runner t2
      else
        { err := none, runner := runner, trace := t, panicked := false }

/-- The body of the `for` loop of `UpdatePreviousQueuedRunnerStatus` for one queued runner:
the error it returns early with, if any, and the calls made. -/
def queuedRunnerBody (svc : RunnerServices) (pipelineId : Int) (queuedRunner : CdWorkflowRunner) :
    Option GoError × List RunnerEvent :=
  let t := [RunnerEvent.MarkPipelineStatusTimelineSuperseded queuedRunner.Id]
  match svc.MarkPipelineStatusTimelineSuperseded queuedRunner.Id with
  | some e => (some e, t)
  | none =>
    let metrics (pipeline : PipelineRef) (t : List RunnerEvent) :
        Option GoError × List RunnerEvent :=
      let t2 := t ++ [.GetConfigForDevtronApps pipeline.AppId pipeline.EnvironmentId]
      match svc.GetConfigForDevtronApps pipeline.AppId pipeline.EnvironmentId with
      | some e => (some e, t2)
      | none => (none, t2 ++ [.TriggerCDMetrics queuedRunner.Id])
    match queuedRunner.CdWorkflow with
    | none =>
      match svc.FindById pipelineId with
      | .error e => (some e, t ++ [.FindById pipelineId])
      | .ok pipeline => metrics pipeline (t ++ [.FindById pipelineId])
    | some pipeline => metrics pipeline t

/-- The `for` loop of `UpdatePreviousQueuedRunnerStatus`: the error it returns early with,
if any, the ids collected so far and the calls made. -/
def queuedRunnerLoop (svc : RunnerServices) (pipelineId : Int) :
    List CdWorkflowRunner → Option GoError × List Int × List RunnerEvent
  | [] => (none, [], [])
  | queuedRunner :: rest =>
    match queuedRunnerBody svc pipelineId queuedRunner with
    | (some e, t) => (some e, [], t)
    | (none, t) =>
      let out := queuedRunnerLoop svc pipelineId rest
      (out.1, queuedRunner.Id :: out.2.1, t ++ out.2.2)

/-- The method `UpdatePreviousQueuedRunnerStatus`. -/
def UpdatePreviousQueuedRunnerStatus (svc : RunnerServices) (cdWfrId pipelineId : Int)
    (triggeredBy : Int) : QueuedResult :=
  let t0 := [RunnerEvent.GetPreviousQueuedRunners cdWfrId pipelineId]
  match svc.GetPreviousQueuedRunners cdWfrId pipelineId with
  | .error e => { err := some e, trace := t0 }
  | .ok queuedRunners =>
    match queuedRunnerLoop svc pipelineId queuedRunners with
    | (some e, _, t) => { err := some e, trace := t0 ++ t }
    | (none, queuedRunnerIds, t) =>
      { err := svc.UpdateRunnerStatusToFailedForIds ErrorDeploymentSuperseded triggeredBy
          queuedRunnerIds,
        trace := t0 ++ t ++
          [.UpdateRunnerStatusToFailedForIds ErrorDeploymentSuperseded triggeredBy
            queuedRunnerIds] }

/-- The method `canInitiateTrigger`: the verdict and the error. -/
def canInitiateTrigger (svc : RunnerServices) (natsMsgId : String) : Bool × Option GoError :=
  if natsMsgId == "" then (true, none)
  else
    match svc.CheckWorkflowRunnerByReferenceId natsMsgId with
    | .error _ => (false, some "error in fetching cd workflow runner")
    | .ok found =>
      if found then
        (false, some "duplicate pre stage trigger request, this request was already processed")
      else (true, none)

/-- The predicate `duplicateTriggerValidateFunc` built by `GetTriggerValidateFuncs`. -/
def duplicateTriggerValidateFunc (svc : RunnerServices) (msg : PubSubMsg) : Bool :=
  if msg.MsgDeliverCount == 1 then true
  else
    let r := canInitiateTrigger svc msg.MsgId
    if !r.1 || r.2.isSome then false else true

/-- The method `GetTriggerValidateFuncs`. -/
def GetTriggerValidateFuncs (svc : RunnerServices) : List (PubSubMsg → Bool) :=
  [duplicateTriggerValidateFunc svc]

/-! ## Runner status updates: reading a trace -/

/-- Whether the event is a persistence write of a runner. -/
def isRunnerWrite : RunnerEvent → Bool
  | .UpdateCdWorkflowRunnerWithStage _ => true
  | .UpdateRunnerStatusToFailedForIds _ _ _ => true
  | _ => false

/-- Whether the event records a timeline classification (superseded or failed). -/
def isTimelineMark : RunnerEvent → Bool
  | .MarkPipelineStatusTimelineSuperseded _ => true
  | .MarkPipelineStatusTimelineFailed _ _ => true
  | _ => false

/-- The runner ids marked superseded in their timeline during a call, in order. -/
def supersededMarks : List RunnerEvent → List Int
  | [] => []
  | .MarkPipelineStatusTimelineSuperseded id :: t => id :: supersededMarks t
  | _ :: t => supersededMarks t

/-- The id lists handed to the bulk update `UpdateRunnerStatusToFailedForIds`, in order. -/
def bulkUpdates : List RunnerEvent → List (List Int)
  | [] => []
  | .UpdateRunnerStatusToFailedForIds _ _ ids :: t => ids :: bulkUpdates t
  | _ :: t => bulkUpdates t

/-- The pipeline whose deployment config the loop body reads for a queued runner: the one
attached to the runner, else the one loaded by `FindById`. -/
def queuedPipeline (svc : RunnerServices) (pipelineId : Int) (r : CdWorkflowRunner) :
    Except GoError PipelineRef :=
  match r.CdWorkflow with
  | some pipeline => .ok pipeline
  | none => svc.FindById pipelineId

/-- Every collaborator call of the loop body succeeds for the queued runner. -/
def queuedRunnerOk (svc : RunnerServices) (pipelineId : Int) (r : CdWorkflowRunner) : Prop :=
  svc.MarkPipelineStatusTimelineSuperseded r.Id = none ∧
    ∃ pipeline, queuedPipeline svc pipelineId r = .ok pipeline ∧
      svc.GetConfigForDevtronApps pipeline.AppId pipeline.EnvironmentId = none

/-! ## Deploy stage orchestrator: the caller and further readings of a trace -/

/-- The body of the last loop of `deployDefaultComponent`, the caller of `PerformDeployStage`
in the same file: when the deploy stage returns an error the status QUE_ERROR is requested
(with the version id) and its result is only logged. The calls made. -/
def deployDefaultComponentStep (svc : Services) (versions : InstallAppVersionDTO)
    (userId : Int) : List Event :=
  let r := PerformDeployStage svc versions.InstalledAppVersionId
    versions.InstalledAppVersionHistoryId userId
  match r.err with
  | some _ =>
    r.trace ++ [statusUpdateEvent versions.InstalledAppVersionId .QUE_ERROR
      (svc.AppStoreDeployOperationStatusUpdate versions.InstalledAppVersionId .QUE_ERROR)]
  | none => r.trace

/-- The statuses handed to `AppStoreDeployOperationStatusUpdate` during a call, in order,
whether or not the update succeeded. -/
def requestedStatuses : List Event → List AppstoreDeploymentStatus
  | [] => []
  | .AppStoreDeployOperationStatusUpdate _ s _ :: t => s :: requestedStatuses t
  | _ :: t => requestedStatuses t

/-! ## Workflow stage tracker: the order of the stage statuses -/

/-- The position of a stage status in the order NotStarted, Running, then the closing
statuses Succeeded, Failed, Timeout, Aborted, Unknown. -/
def stageRank : WorkflowStageStatus → Nat
  | .NOT_STARTED => 0
  | .RUNNING => 1
  | _ => 2

/-! ## Workflow stage tracker: when the workflow reducer writes a stage -/

/-- Whether the loop body for the pod phases Failed and Error writes the stage, given the
derived status `d`: the conditions of its two writes. -/
def closesOnFailure (d : WorkflowStageStatus) (stage : WorkflowExecutionStage) : Bool :=
  stage.StatusFor == .WORKFLOW && d.IsTerminal &&
    ((stage.StageName == .WORKFLOW_EXECUTION && stage.Status == .RUNNING) ||
      (stage.StageName == .WORKFLOW_PREPARATION && !stage.Status.IsTerminal))

/-- Whether the loop body for an unrecognised pod phase writes the stage: the condition of
its one write. -/
def degradesOnUnknownPhase (stage : WorkflowExecutionStage) : Bool :=
  stage.StatusFor == .WORKFLOW && stage.StageName == .WORKFLOW_EXECUTION &&
    stage.Status == .RUNNING

/-! ## Workflow stage tracker: the service entry point -/

/-- Modelled from the spec: the text of `bean.CI_WORKFLOW_TYPE.String()`, declared in another
package. -/
def CI_WORKFLOW_TYPE : String := "CI"

/-- The configuration flag and the repositories of `WorkFlowStageStatusServiceImpl`, as the
answers they give. The two lookups of the recorded run answer with its status and its pod
status. -/
structure StageServices where
  EnableWorkflowExecutionStage : Bool
  GetWorkflowStagesByWorkflowIdAndType :
    Int → String → Except GoError (List WorkflowExecutionStage)
  CiFindById : Int → Except GoError (String × String)
  FindWorkflowRunnerById : Int → Except GoError (String × String)
  UpdateWorkflowStages : List WorkflowExecutionStage → Option GoError

/-- One call made by `UpdateWorkflowStages` to a repository. -/
inductive StageEvent
  | GetWorkflowStagesByWorkflowIdAndType (wfId : Int) (wfType : String)
  | CiFindById (wfId : Int)
  | FindWorkflowRunnerById (wfId : Int)
  | UpdateWorkflowStages (stages : List WorkflowExecutionStage)
  deriving DecidableEq, Repr

/-- What `getUpdatedPipelineStagesForWorkflow` returns (a nil slice is the empty list), and
the calls made. -/
structure UpdatedStages where
  stages : List WorkflowExecutionStage
  wfStatus : String
  podStatus : String
  trace : List StageEvent
  deriving DecidableEq, Repr

/-- What `UpdateWorkflowStages` returns, and the calls made. -/
structure UpdateStagesResult where
  wfStatus : String
  podStatus : String
  err : Option GoError
  trace : List StageEvent
  deriving DecidableEq, Repr

/-- The method `getUpdatedPipelineStagesForWorkflow`. -/
def getUpdatedPipelineStagesForWorkflow (h : StageHelpers) (svc : StageServices) (now : String)
    (wfId : Int) (wfType wfStatus podStatus message podName : String) : UpdatedStages :=
  let t0 := [StageEvent.GetWorkflowStagesByWorkflowIdAndType wfId wfType]
  match svc.GetWorkflowStagesByWorkflowIdAndType wfId wfType with
  | .error _ => { stages := [], wfStatus := wfStatus, podStatus := podStatus, trace := t0 }
  | .ok currentWorkflowStages =>
    if currentWorkflowStages.length == 0 then
      { stages := [], wfStatus := wfStatus, podStatus := podStatus, trace := t0 }
    else
      let reduce (recorded : String × String) (t : List StageEvent) : UpdatedStages :=
        let pod := updatePodStages h now currentWorkflowStages podStatus recorded.2 message
          podName
        let wf := updateWorkflowStagesToDevtronStatus h now pod.1 wfStatus recorded.1 message
          podStatus
        { stages := wf.1, wfStatus := wf.2, podStatus := pod.2, trace := t }
      if wfType == CI_WORKFLOW_TYPE then
        match svc.CiFindById wfId with
        | .error _ =>
          { stages := [], wfStatus := wfStatus, podStatus := podStatus,
            trace := t0 ++ [.CiFindById wfId] }
        | .ok dbWf => reduce dbWf (t0 ++ [.CiFindById wfId])
      else
        match svc.FindWorkflowRunnerById wfId with
        | .error _ =>
          { stages := [], wfStatus := wfStatus, podStatus := podStatus,
            trace := t0 ++ [.FindWorkflowRunnerById wfId] }
        | .ok dbWfr => reduce dbWfr (t0 ++ [.FindWorkflowRunnerById wfId])

/-- The method `UpdateWorkflowStages`. -/
def UpdateWorkflowStages (h : StageHelpers) (svc : StageServices) (now : String) (wfId : Int)
    (wfType wfStatus podStatus message podName : String) : UpdateStagesResult :=
  if svc.EnableWorkflowExecutionStage then
    let u := getUpdatedPipelineStagesForWorkflow h svc now wfId wfType wfStatus podStatus
      message podName
    let t := u.trace ++ [.UpdateWorkflowStages u.stages]
    match svc.UpdateWorkflowStages u.stages with
    | some err => { wfStatus := wfStatus, podStatus := podStatus, err := some err, trace := t }
    | none => { wfStatus := u.wfStatus, podStatus := u.podStatus, err := none, trace := t }
  else
    { wfStatus := wfStatus, podStatus := podStatus, err := none, trace := [] }

/-! ## Chart group installation id -/

/-- The `for` loop of `getInstallationId`: the decimal text of every app id is written to the
buffer, one after the other; an app id 0 ends the function with an error. -/
def installationBuffer (buffer : String) : List InstallAppVersionDTO → Except GoError String
  | [] => .ok buffer
  | installAppVersionDTO :: rest =>
    if installAppVersionDTO.AppId == 0 then .error "app ID not present"
    else installationBuffer (buffer ++ toString installAppVersionDTO.AppId) rest

/-- The function `getInstallationId`. `sha1Hex` is the SHA-1 digest of a text printed with
`%x`; writing to the hash never returns an error. -/
def getInstallationId (sha1Hex : String → String)
    (installAppVersions : List InstallAppVersionDTO) : Except GoError String :=
  match installationBuffer "" installAppVersions with
  | .error e => .error e
  | .ok buffer => .ok (sha1Hex buffer)

/-! ## Config map and secret validation -/

/-- The field of `bean.ConfigData` read by `validateConfigData`: the raw JSON, `none` for
nil. -/
structure ConfigData where
  Data : Option String
  deriving DecidableEq, Repr

/-- Whether the character belongs to the class `[-._a-zA-Z0-9]` of the key pattern. -/
def isKeyChar (c : Char) : Bool :=
  c == '-' || c == '.' || c == '_' ||
    ('a' ≤ c && c ≤ 'z') || ('A' ≤ c && c ≤ 'Z') || ('0' ≤ c && c ≤ '9')

/-- The test `re.MatchString(key)` for the pattern `[-._a-zA-Z0-9]+`: the pattern has no
anchors, so it matches when some non-empty run of the key lies in the class, that is when
the key holds at least one character of the class. -/
def reMatchString (key : String) : Bool :=
  key.data.any isKeyChar

/-- The `for` loop of `validateConfigData` over the keys of the map, here in list order. -/
def validateKeys : List (String × String) → Bool × Option GoError
  | [] => (true, none)
  | (key, _) :: rest =>
    if !reMatchString key then (false, some ("invalid key : " ++ key))
    else validateKeys rest

/-- The method `validateConfigData`. `unmarshal` is `json.Unmarshal` into a map of strings,
with the entries of the map as a list. -/
def validateConfigData (unmarshal : String → Except GoError (List (String × String)))
    (configData : ConfigData) : Bool × Option GoError :=
  match configData.Data with
  | none => validateKeys []
  | some data =>
    match unmarshal data with
    | .error _ => (false, some "unmarshal failed for data, please provide valid json")
    | .ok dataMap => validateKeys dataMap

/-! ## Sample inputs -/

/-- An installed app version of the given deployment type, loaded with the given status;
its environment bean is already attached. -/
def sampleVersion (deploymentAppType : String) (status : AppstoreDeploymentStatus) :
    InstallAppVersionDTO :=
  { InstalledAppId := 5,
    InstalledAppVersionId := 1,
    InstalledAppVersionHistoryId := 0,
    AppStoreVersion := 3,
    DeploymentAppType := deploymentAppType,
    Status := status,
    GitHash := "",
    GitOpsRepoURL := "https://git.example/charts.git",
    AppName := "demo",
    EnvironmentId := 2,
    EnvironmentName := "prod",
    Environment := some { Environment := "prod" },
    UserId := 7 }

/-- A GitOps-managed version loaded with status GitSuccess whose environment bean is not
attached yet. -/
def sampleVersionNoEnv : InstallAppVersionDTO :=
  { sampleVersion "argo_cd" .GIT_SUCCESS with Environment := none }

/-- Collaborators that load `loaded` and answer every call with success. -/
def okServices (loaded : InstallAppVersionDTO) : Services :=
  { GetInstalledAppVersion := fun _ _ => .ok loaded,
    SaveTimeline := fun _ => none,
    FindById := fun _ => none,
    CreateArgoRepoSecretIfNeeded := none,
    GenerateManifestAndPerformGitOperations := fun _ =>
      .ok { ChartGitAttribute :=
              { RepoUrl := "https://git.example/charts.git",
                TargetRevision := "master",
                ChartLocation := "demo-prod" },
            GitHash := "abc123" },
    AppStoreDeployOperationStatusUpdate := fun _ _ => none,
    IsManualSyncEnabled := false,
    Begin := none,
    SaveMultipleTimelinesIfNotAlreadyPresent := none,
    UpdateInstalledAppVersionHistoryWithGitHash := fun _ _ => none,
    GetExtendedEnvBeanById := fun _ => .ok { Environment := "prod" },
    InstallApp := fun _ _ => none,
    InstallAppByHelm := fun _ => none }

/-- Collaborators that succeed except for the Git commit, which fails. -/
def gitFailServices (loaded : InstallAppVersionDTO) : Services :=
  { okServices loaded with
    GenerateManifestAndPerformGitOperations := fun _ => .error "git push rejected" }

/-- Collaborators that succeed except for the sync operation, which fails. -/
def syncFailServices (loaded : InstallAppVersionDTO) : Services :=
  { okServices loaded with InstallApp := fun _ _ => some "argocd sync failed" }

/-- Collaborators that succeed except for the Helm install, which fails. -/
def helmFailServices (loaded : InstallAppVersionDTO) : Services :=
  { okServices loaded with InstallAppByHelm := fun _ => some "helm install failed" }

/-- Collaborators that succeed except for the chart version lookup, which fails. -/
def findFailServices (loaded : InstallAppVersionDTO) : Services :=
  { okServices loaded with FindById := fun _ => some "pg: no rows in result set" }

/-- Collaborators that succeed except for the environment lookup, which fails. -/
def envFailServices (loaded : InstallAppVersionDTO) : Services :=
  { okServices loaded with GetExtendedEnvBeanById := fun _ => .error "pg: no rows in result set" }

/-- A prior runner that is still running. -/
def runnerRunning : CdWorkflowRunner :=
  { Id := 1, Status := "Running", Message := "", FinishedOn := 0, UpdatedOn := 50,
    UpdatedBy := 3 }

/-- A prior runner that has succeeded. -/
def runnerSucceeded : CdWorkflowRunner :=
  { Id := 2, Status := "Succeeded", Message := "done", FinishedOn := 60, UpdatedOn := 60,
    UpdatedBy := 3 }

/-- Persisted rows holding the two sample runners and no timeline. -/
def sampleDb : CdDb :=
  { runners := [runnerRunning, runnerSucceeded], timelines := [] }

/-- A persistence gateway that returns `found` as the prior runners and answers every call
with success. -/
def okRepositories (found : List CdWorkflowRunner) : CdRepositories :=
  { Begin := none,
    FindPreviousCdWfRunnerByStatus := fun _ _ _ => .ok found,
    UpdateWorkFlowRunners := fun _ => none,
    SaveTimelinesWithTxn := fun _ => none,
    Commit := none }

/-- A persistence gateway that succeeds except for saving the timelines, which fails. -/
def timelineFailRepositories (found : List CdWorkflowRunner) : CdRepositories :=
  { okRepositories found with SaveTimelinesWithTxn := fun _ => some "pg: connection reset" }

/-- A stand-in for `adapter.ConvertStatusToDevtronStatus`, used to run the reducers on
concrete inputs. -/
def sampleConvert (wfStatus _wfMessage : String) : WorkflowStageStatus :=
  if ToLower wfStatus == "succeeded" then .SUCCEEDED
  else if ToLower wfStatus == "failed" || ToLower wfStatus == "error" then .FAILED
  else if ToLower wfStatus == "aborted" || ToLower wfStatus == "cancelled" then .ABORTED
  else if ToLower wfStatus == "timedout" then .TIMEOUT
  else if ToLower wfStatus == "running" then .RUNNING
  else if ToLower wfStatus == "pending" then .NOT_STARTED
  else .UNKNOWN

/-- Stand-ins for the helpers declared in another package, used to run the reducers
on concrete inputs: a terminal list with Aborted, Failed, Succeeded, and a status merge
that takes the candidate unless the recorded status is in that list. -/
def sampleHelpers : StageHelpers :=
  { WfrTerminalStatusList := ["Aborted", "Failed", "Succeeded"],
    ConvertStatusToDevtronStatus := sampleConvert,
    ComputeWorkflowStatus := fun current _ candidate =>
      if ["Aborted", "Failed", "Succeeded"].contains current then current else candidate }

/-- A pod-readiness stage with the given status. -/
def podStage (status : WorkflowStageStatus) : WorkflowExecutionStage :=
  { StageName := .POD_EXECUTION, StatusFor := .POD, Status := status, Message := "",
    Metadata := "", StartTime := "", EndTime := "" }

/-- A stand-in for `util.GetClientErrorDetailedMessage`: the text of the outermost error. -/
def sampleErrorMessage : Option ReleaseError → String
  | none => ""
  | some .ErrorDeploymentSuperseded => ErrorDeploymentSuperseded
  | some (.other text) => text
  | some (.wrap text _) => text

/-- Stand-ins for the collaborators of the runner status updates: `found` is the runner
returned by id, `queued` the queued runners of the pipeline, `references` the reference
ids of the runners that exist; every call succeeds. -/
def okRunnerServices (found : CdWorkflowRunner) (queued : List CdWorkflowRunner)
    (references : List String) : RunnerServices :=
  { WfrTerminalStatusList := ["Aborted", "Failed", "Succeeded"],
    FindBasicWorkflowRunnerById := fun _ => .ok found,
    UpdateCdWorkflowRunnerWithStage := fun _ => none,
    MarkPipelineStatusTimelineSuperseded := fun _ => none,
    MarkPipelineStatusTimelineFailed := fun _ _ => none,
    GetConfigForDevtronApps := fun _ _ => none,
    GetClientErrorDetailedMessage := sampleErrorMessage,
    GetTruncatedMessage := fun message maxLength => message.take maxLength,
    FOUND_VULNERABILITY := "Found vulnerability on image",
    TIMELINE_DESCRIPTION_VULNERABLE_IMAGE := "Deployment failed: vulnerable image",
    GetPreviousQueuedRunners := fun _ _ => .ok queued,
    FindById := fun _ => .ok { AppId := 11, EnvironmentId := 2 },
    UpdateRunnerStatusToFailedForIds := fun _ _ _ => none,
    CheckWorkflowRunnerByReferenceId := fun id => .ok (references.contains id) }

/-- A running runner of the pre-deployment stage. -/
def runnerPreStage : CdWorkflowRunner :=
  { Id := 3, Status := "Running", Message := "", FinishedOn := 0, UpdatedOn := 50,
    UpdatedBy := 3, WorkflowType := .PRE, CdWorkflow := some { AppId := 11, EnvironmentId := 2 } }

/-- A running runner of the deploy stage with its pipeline attached. -/
def runnerDeployStage : CdWorkflowRunner :=
  { Id := 4, Status := "Running", Message := "", FinishedOn := 0, UpdatedOn := 50,
    UpdatedBy := 3, WorkflowType := .DEPLOY,
    CdWorkflow := some { AppId := 11, EnvironmentId := 2 } }

/-- Two queued runners: one with its pipeline attached, one without. -/
def queuedSample : List CdWorkflowRunner :=
  [runnerPreStage, { runnerDeployStage with CdWorkflow := none }]

/-- Collaborators that succeed except for the repository secret creation, which fails. -/
def secretFailServices (loaded : InstallAppVersionDTO) : Services :=
  { okServices loaded with CreateArgoRepoSecretIfNeeded := some "argocd: cannot create secret" }

/-- Collaborators that succeed except for the status update to DeploySuccess, which
fails. -/
def deployStatusFailServices (loaded : InstallAppVersionDTO) : Services :=
  { okServices loaded with
    AppStoreDeployOperationStatusUpdate := fun _ s =>
      if s == .DEPLOY_SUCCESS then some "pg: connection reset" else none }

/-- An installed app version of the app with the given id. -/
def appVersion (appId : Int) : InstallAppVersionDTO :=
  { sampleVersion "argo_cd" .DEPLOY_INIT with AppId := appId }

/-- A stand-in for `json.Unmarshal` on the one document used below, an object with the key
`a b`; every other text is refused. -/
def sampleUnmarshal (data : String) : Except GoError (List (String × String)) :=
  if data == "\x7b\"a b\":\"x\"\x7d" then .ok [("a b", "x")]
  else .error "invalid character"

/-- A workflow-level stage with the given name and status. -/
def workflowStage (name : WorkflowStageName) (status : WorkflowStageStatus) :
    WorkflowExecutionStage :=
  { StageName := name, StatusFor := .WORKFLOW, Status := status, Message := "",
    Metadata := "", StartTime := "", EndTime := "" }

/-- Stage repositories with the tracking flag as given; every call succeeds and no stage is
stored. -/
def sampleStageServices (enabled : Bool) : StageServices :=
  { EnableWorkflowExecutionStage := enabled,
    GetWorkflowStagesByWorkflowIdAndType := fun _ _ => .ok [],
    CiFindById := fun _ => .ok ("Running", "Running"),
    FindWorkflowRunnerById := fun _ => .ok ("Running", "Running"),
    UpdateWorkflowStages := fun _ => none }

/-! ## Deploy stage orchestrator: lemmas -/

theorem persistedStatuses_append (t u : List Event) :
    persistedStatuses (t ++ u) = persistedStatuses t ++ persistedStatuses u := by
  induction t with
  | nil => rfl
  | cons e t ih =>
    cases e <;> simp [persistedStatuses, ih]
    rename_i ok
    cases ok <;> simp [persistedStatuses, ih]

theorem savedTimelines_append (t u : List Event) :
    savedTimelines (t ++ u) = savedTimelines t ++ savedTimelines u := by
  induction t with
  | nil => rfl
  | cons e t ih => cases e <;> simp [savedTimelines, ih]

/-! ## Deploy stage orchestrator: theorems -/

/-- C1 (code bug): for a GitOps-managed version loaded with a status of the Git stage, when
the chart lookup and the secret creation succeed, the Git commit fails with `e` and the
status update to GitError succeeds, `PerformDeployStage` does not return the Git error:
the error variable is overwritten by the nil result of the status update, the call goes
on to the DeploySuccess update and returns whatever that update returns (nil when it
succeeds). -/
theorem C1_git_error_not_returned (svc : Services) (id hist user : Int)
    (loaded : InstallAppVersionDTO) (e : GoError)
    (hload : svc.GetInstalledAppVersion id user = .ok loaded)
    (hacd : IsAcdApp loaded.DeploymentAppType = true)
    (hst : gitStageStatus loaded.Status = true)
    (hfind : svc.FindById loaded.AppStoreVersion = none)
    (hsec : svc.CreateArgoRepoSecretIfNeeded = none)
    (hgit : svc.GenerateManifestAndPerformGitOperations
      { loaded with InstalledAppVersionHistoryId := hist } = .error e)
    (hupd : svc.AppStoreDeployOperationStatusUpdate loaded.InstalledAppId .GIT_ERROR = none) :
    (PerformDeployStage svc id hist user).err =
      svc.AppStoreDeployOperationStatusUpdate loaded.InstalledAppId .DEPLOY_SUCCESS := by
  simp only [PerformDeployStage, hload, hacd, performDeployStageOnAcd, gitStage, hst, hfind,
    hsec, hgit, hupd, if_true, deploySuccessStep]
  cases h : svc.AppStoreDeployOperationStatusUpdate loaded.InstalledAppId .DEPLOY_SUCCESS <;> rfl

/-- C1 at a concrete input: status Init, the Git commit fails, every other call succeeds;
the call returns the version and a nil error. -/
theorem C1_git_error_not_returned_witness :
    (PerformDeployStage (gitFailServices (sampleVersion "argo_cd" .DEPLOY_INIT)) 1 10 7).err
      = none :=
  C1_git_error_not_returned (gitFailServices (sampleVersion "argo_cd" .DEPLOY_INIT)) 1 10 7
    (sampleVersion "argo_cd" .DEPLOY_INIT) "git push rejected" rfl (by decide) (by decide)
    rfl rfl rfl rfl

/-- C2 (code bug): for a GitOps-managed version loaded with status Init whose Git commit
fails (the lookups, the GitError update and the DeploySuccess update succeed), the
`git commit failed` timeline entry is written and the sync is never invoked, but the last
status persisted by `PerformDeployStage` is DeploySuccess, written after GitError: the
statuses persisted are GitError, DeploySuccess. -/
theorem C2_git_failure_ends_in_deploy_success (svc : Services) (id hist user : Int)
    (loaded : InstallAppVersionDTO) (e : GoError)
    (hload : svc.GetInstalledAppVersion id user = .ok loaded)
    (hacd : IsAcdApp loaded.DeploymentAppType = true)
    (hst : loaded.Status = .DEPLOY_INIT)
    (hfind : svc.FindById loaded.AppStoreVersion = none)
    (hsec : svc.CreateArgoRepoSecretIfNeeded = none)
    (hgit : svc.GenerateManifestAndPerformGitOperations
      { loaded with InstalledAppVersionHistoryId := hist } = .error e)
    (hupd : svc.AppStoreDeployOperationStatusUpdate loaded.InstalledAppId .GIT_ERROR = none)
    (hdep : svc.AppStoreDeployOperationStatusUpdate loaded.InstalledAppId .DEPLOY_SUCCESS
      = none) :
    persistedStatuses (PerformDeployStage svc id hist user).trace
        = [.GIT_ERROR, .DEPLOY_SUCCESS] ∧
      savedTimelines (PerformDeployStage svc id hist user).trace
        = [.DEPLOYMENT_INITIATED, .GIT_COMMIT_FAILED] ∧
      (PerformDeployStage svc id hist user).trace.any isInstallApp = false := by
  have hst2 : gitStageStatus loaded.Status = true := by rw [hst]; rfl
  simp only [PerformDeployStage, hload, hacd, performDeployStageOnAcd, gitStage, hst2, hfind,
    hsec, hgit, hupd, hdep, if_true, deploySuccessStep]
  simp [statusUpdateEvent, persistedStatuses, savedTimelines, isInstallApp]

/-- C2 at a concrete input: status Init, the Git commit fails, every other call succeeds. -/
theorem C2_git_failure_ends_in_deploy_success_witness :
    persistedStatuses
        (PerformDeployStage (gitFailServices (sampleVersion "argo_cd" .DEPLOY_INIT)) 1 10 7).trace
        = [.GIT_ERROR, .DEPLOY_SUCCESS] ∧
      savedTimelines
        (PerformDeployStage (gitFailServices (sampleVersion "argo_cd" .DEPLOY_INIT)) 1 10 7).trace
        = [.DEPLOYMENT_INITIATED, .GIT_COMMIT_FAILED] ∧
      (PerformDeployStage (gitFailServices (sampleVersion "argo_cd" .DEPLOY_INIT))
        1 10 7).trace.any isInstallApp = false :=
  C2_git_failure_ends_in_deploy_success
    (gitFailServices (sampleVersion "argo_cd" .DEPLOY_INIT)) 1 10 7
    (sampleVersion "argo_cd" .DEPLOY_INIT) "git push rejected" rfl (by decide) rfl
    rfl rfl rfl rfl rfl

theorem gitStage_proceed_fields (svc : Services) (v d : InstallAppVersionDTO)
    (a : ChartGitAttribute) (t : List Event) (h : gitStage svc v = .proceed d a t) :
    d.Status = v.Status ∧ d.InstalledAppId = v.InstalledAppId := by
  simp only [gitStage] at h
  repeat' split at h
  all_goals try (simp only [reduceCtorEq] at h)
  all_goals
    simp only [GitStageEnd.proceed.injEq] at h
    obtain ⟨h1, -, -⟩ := h
    subst h1
    exact ⟨rfl, rfl⟩

/-- C3 (code bug): for a GitOps-managed version whose status admits the sync stage and whose
Git stage falls through to it, when the sync operation fails and the status updates
succeed, AcdError is persisted but it is not the final persisted status and no error is
returned: the error variable is overwritten by the nil result of the AcdError update, so
`PerformDeployStage` goes on to persist DeploySuccess and returns the version with a nil
error. -/
theorem C3_sync_error_not_returned (svc : Services) (id hist user : Int)
    (loaded d : InstallAppVersionDTO) (a : ChartGitAttribute) (t : List Event) (e : GoError)
    (hload : svc.GetInstalledAppVersion id user = .ok loaded)
    (hacd : IsAcdApp loaded.DeploymentAppType = true)
    (hst : syncStageStatus loaded.Status = true)
    (hgit : gitStage svc { loaded with InstalledAppVersionHistoryId := hist } = .proceed d a t)
    (hsync : svc.InstallApp d a = some e)
    (hupd : svc.AppStoreDeployOperationStatusUpdate loaded.InstalledAppId .ACD_ERROR = none)
    (hdep : svc.AppStoreDeployOperationStatusUpdate loaded.InstalledAppId .DEPLOY_SUCCESS
      = none) :
    (PerformDeployStage svc id hist user).err = none ∧
      (PerformDeployStage svc id hist user).result = some d ∧
      persistedStatuses (PerformDeployStage svc id hist user).trace
        = persistedStatuses t ++ [.ACD_ERROR, .DEPLOY_SUCCESS] := by
  obtain ⟨h1, h2⟩ := gitStage_proceed_fields svc _ d a t hgit
  simp only at h1 h2
  have hst2 : syncStageStatus d.Status = true := by rw [h1]; exact hst
  simp [PerformDeployStage, hload, hacd, performDeployStageOnAcd, hgit, syncStage, hst2,
    hsync, h2, hupd, hdep, deploySuccessStep, statusUpdateEvent, persistedStatuses_append,
    persistedStatuses]

/-- C3 at a concrete input: status GitSuccess, the sync fails, every other call succeeds;
the statuses persisted are AcdError then DeploySuccess and the error returned is nil. -/
theorem C3_sync_error_not_returned_witness :
    (PerformDeployStage (syncFailServices (sampleVersion "argo_cd" .GIT_SUCCESS)) 1 10 7).err
        = none ∧
      (PerformDeployStage (syncFailServices (sampleVersion "argo_cd" .GIT_SUCCESS)) 1 10 7).result
        = some { sampleVersion "argo_cd" .GIT_SUCCESS with InstalledAppVersionHistoryId := 10 } ∧
      persistedStatuses
        (PerformDeployStage (syncFailServices (sampleVersion "argo_cd" .GIT_SUCCESS)) 1 10 7).trace
        = [.ACD_ERROR, .DEPLOY_SUCCESS] :=
  C3_sync_error_not_returned (syncFailServices (sampleVersion "argo_cd" .GIT_SUCCESS)) 1 10 7
    (sampleVersion "argo_cd" .GIT_SUCCESS)
    { sampleVersion "argo_cd" .GIT_SUCCESS with InstalledAppVersionHistoryId := 10 }
    { RepoUrl := "https://git.example/charts.git",
      TargetRevision := "https://git.example/charts.git",
      ChartLocation := "demo-prod" }
    [] "argocd sync failed" rfl (by decide) (by decide) rfl rfl rfl rfl

/-- C4 (code bug): for a Helm-managed version whose direct install fails, when the status
update to HelmError succeeds, HelmError is the only status persisted (DeploySuccess is not
written), but `PerformDeployStage` returns a nil result together with a nil error: the
error variable is overwritten by the nil result of the status update. -/
theorem C4_helm_error_not_returned (svc : Services) (id hist user : Int)
    (loaded : InstallAppVersionDTO) (e : GoError)
    (hload : svc.GetInstalledAppVersion id user = .ok loaded)
    (hacd : IsAcdApp loaded.DeploymentAppType = false)
    (hhelm : IsHelmApp loaded.DeploymentAppType = true)
    (hinst : svc.InstallAppByHelm { loaded with InstalledAppVersionHistoryId := hist } = some e)
    (hupd : svc.AppStoreDeployOperationStatusUpdate loaded.InstalledAppId .HELM_ERROR = none) :
    (PerformDeployStage svc id hist user).err = none ∧
      (PerformDeployStage svc id hist user).result = none ∧
      persistedStatuses (PerformDeployStage svc id hist user).trace = [.HELM_ERROR] := by
  simp [PerformDeployStage, hload, hacd, hhelm, hinst, hupd, statusUpdateEvent,
    persistedStatuses]

/-- C4 at a concrete input: a Helm-managed version, the install fails, the HelmError update
succeeds. -/
theorem C4_helm_error_not_returned_witness :
    (PerformDeployStage (helmFailServices (sampleVersion "helm" .DEPLOY_INIT)) 1 10 7).err
        = none ∧
      (PerformDeployStage (helmFailServices (sampleVersion "helm" .DEPLOY_INIT)) 1 10 7).result
        = none ∧
      persistedStatuses
        (PerformDeployStage (helmFailServices (sampleVersion "helm" .DEPLOY_INIT)) 1 10 7).trace
        = [.HELM_ERROR] :=
  C4_helm_error_not_returned (helmFailServices (sampleVersion "helm" .DEPLOY_INIT)) 1 10 7
    (sampleVersion "helm" .DEPLOY_INIT) "helm install failed" rfl (by decide) (by decide)
    rfl rfl


theorem gitStage_no_installApp (svc : Services) (v : InstallAppVersionDTO) :
    (gitStage svc v).trace.any isInstallApp = false := by
  simp only [gitStage]
  repeat' split
  all_goals simp [GitStageEnd.trace, isInstallApp, statusUpdateEvent]

theorem gitStage_skipped (svc : Services) (v : InstallAppVersionDTO)
    (h : gitStageStatus v.Status = false) :
    (gitStage svc v).trace.any isGitOperation = false ∧
      (gitStage svc v).trace.any isGitTimeline = false ∧
      persistedStatuses (gitStage svc v).trace = [] := by
  simp only [gitStage, h]
  repeat' split
  all_goals simp_all [GitStageEnd.trace, isGitOperation, isGitTimeline, persistedStatuses]

theorem gitStage_secret_mem (svc : Services) (v : InstallAppVersionDTO) :
    Event.CreateArgoRepoSecretIfNeeded ∈ (gitStage svc v).trace ↔
      gitStageStatus v.Status = true ∧ svc.FindById v.AppStoreVersion = none := by
  simp only [gitStage]
  repeat' split
  all_goals simp_all [GitStageEnd.trace, statusUpdateEvent]

theorem gitStage_manifest_mem (svc : Services) (v : InstallAppVersionDTO) :
    Event.GenerateManifestAndPerformGitOperations ∈ (gitStage svc v).trace ↔
      gitStageStatus v.Status = true ∧ svc.FindById v.AppStoreVersion = none ∧
        svc.CreateArgoRepoSecretIfNeeded = none := by
  simp only [gitStage]
  repeat' split
  all_goals simp_all [GitStageEnd.trace, statusUpdateEvent]

theorem gitStage_proceed_iff_env (svc : Services) (v : InstallAppVersionDTO)
    (h : gitStageStatus v.Status = false) :
    (∃ d a t, gitStage svc v = .proceed d a t) ↔
      (v.Environment.isSome = true ∨
        ∃ env, svc.GetExtendedEnvBeanById v.EnvironmentId = .ok env) := by
  simp only [gitStage, h]
  repeat' split
  all_goals simp_all

theorem syncStage_trace (svc : Services) (d : InstallAppVersionDTO) (a : ChartGitAttribute) :
    (syncStage svc d a).trace.any isGitOperation = false ∧
      (syncStage svc d a).trace.any isGitTimeline = false ∧
      Event.CreateArgoRepoSecretIfNeeded ∉ (syncStage svc d a).trace ∧
      Event.GenerateManifestAndPerformGitOperations ∉ (syncStage svc d a).trace ∧
      (syncStage svc d a).trace.countP isInstallApp
        = (if syncStageStatus d.Status = true then 1 else 0) := by
  simp only [syncStage]
  repeat' split
  all_goals simp_all [isGitOperation, isGitTimeline, isInstallApp, statusUpdateEvent]

theorem acd_trace (svc : Services) (v : InstallAppVersionDTO) :
    (performDeployStageOnAcd svc v).trace
      = (gitStage svc v).trace ++ syncTrace svc (gitStage svc v) := by
  simp only [performDeployStageOnAcd]
  cases gitStage svc v <;> simp [GitStageEnd.trace, syncTrace]

theorem deploySuccessStep_trace (svc : Services) (v : InstallAppVersionDTO) (t : List Event) :
    (deploySuccessStep svc v t).trace
      = t ++ [statusUpdateEvent v.InstalledAppId .DEPLOY_SUCCESS
          (svc.AppStoreDeployOperationStatusUpdate v.InstalledAppId .DEPLOY_SUCCESS)] := by
  simp only [deploySuccessStep]
  split <;> simp_all

theorem deploy_trace_acd (svc : Services) (id hist user : Int) (loaded : InstallAppVersionDTO)
    (hload : svc.GetInstalledAppVersion id user = .ok loaded)
    (hacd : IsAcdApp loaded.DeploymentAppType = true) :
    ∃ tail : List Event,
      (PerformDeployStage svc id hist user).trace
        = [.GetInstalledAppVersion id user,
            .SaveTimeline hist .DEPLOYMENT_INITIATED (.text "Deployment initiated successfully.")]
          ++ (performDeployStageOnAcd svc
              { loaded with InstalledAppVersionHistoryId := hist }).trace ++ tail ∧
      tail.any isGitOperation = false ∧ tail.any isGitTimeline = false ∧
      tail.any isInstallApp = false ∧
      Event.CreateArgoRepoSecretIfNeeded ∉ tail ∧
      Event.GenerateManifestAndPerformGitOperations ∉ tail := by
  simp only [PerformDeployStage, hload, hacd, if_true]
  cases h1 : (performDeployStageOnAcd svc
      { loaded with InstalledAppVersionHistoryId := hist }).err with
  | some e => exact ⟨[], by simp⟩
  | none =>
    simp only [deploySuccessStep_trace]
    exact ⟨[statusUpdateEvent _ _ _], rfl,
      by simp [statusUpdateEvent, isGitOperation, isGitTimeline, isInstallApp]⟩


theorem syncTrace_props (svc : Services) (g : GitStageEnd) :
    (syncTrace svc g).any isGitOperation = false ∧
      (syncTrace svc g).any isGitTimeline = false ∧
      Event.CreateArgoRepoSecretIfNeeded ∉ syncTrace svc g ∧
      Event.GenerateManifestAndPerformGitOperations ∉ syncTrace svc g ∧
      (syncTrace svc g).countP isInstallApp ≤ 1 := by
  cases g with
  | abort d e t => simp [syncTrace]
  | proceed d a t =>
    obtain ⟨h1, h2, h3, h4, h5⟩ := syncStage_trace svc d a
    refine ⟨h1, h2, h3, h4, ?_⟩
    simp only [syncTrace, h5]
    split <;> simp

theorem any_false_countP (p : Event → Bool) (l : List Event) (h : l.any p = false) :
    l.countP p = 0 := by
  rw [List.countP_eq_zero]
  intro a ha hp
  have : l.any p = true := List.any_eq_true.mpr ⟨a, ha, hp⟩
  rw [h] at this
  cases this

theorem countP_pos_any (p : Event → Bool) (l : List Event) :
    l.any p = true ↔ 0 < l.countP p := by
  rw [List.countP_pos_iff, List.any_eq_true]

theorem gitStageStatus_iff (s : AppstoreDeploymentStatus) :
    gitStageStatus s = true ↔
      (s = .DEPLOY_INIT ∨ s = .ENQUEUED ∨ s = .QUE_ERROR ∨ s = .GIT_ERROR) := by
  cases s <;> simp [gitStageStatus]

theorem syncStageStatus_iff (s : AppstoreDeploymentStatus) :
    syncStageStatus s = true ↔
      (s = .DEPLOY_INIT ∨ s = .ENQUEUED ∨ s = .QUE_ERROR ∨ s = .GIT_ERROR ∨
        s = .GIT_SUCCESS ∨ s = .ACD_ERROR) := by
  cases s <;> simp [syncStageStatus]

/-- C10 (amended): status-gated re-entry on the GitOps path. A Git stage operation or a Git
timeline write happens only under a loaded status in Init, Enqueued, QueueError, GitError;
under such a status the repository secret creation is invoked exactly when the chart
version lookup succeeds, and the manifest generation with the Git commit exactly when the
secret creation succeeds as well. When the first half of `performDeployStageOnAcd` falls
through, the sync is invoked exactly when the status is one of the six sync statuses; when
it returns early the sync is not invoked; the sync is never invoked twice. From GitSuccess
no Git operation is invoked and no Git timeline entry is written, the first half falls
through exactly when the environment is at hand (attached, or its lookup succeeds), the
sync is then invoked once, and when the sync, the AcdSuccess update and the DeploySuccess
update succeed the statuses persisted are AcdSuccess, DeploySuccess and the version is
returned with a nil error. -/
theorem C10_status_gated_reentry (svc : Services) (id hist user : Int)
    (loaded : InstallAppVersionDTO)
    (hload : svc.GetInstalledAppVersion id user = .ok loaded)
    (hacd : IsAcdApp loaded.DeploymentAppType = true) :
    ((PerformDeployStage svc id hist user).trace.any isGitOperation = true →
        (loaded.Status = .DEPLOY_INIT ∨ loaded.Status = .ENQUEUED ∨
          loaded.Status = .QUE_ERROR ∨ loaded.Status = .GIT_ERROR)) ∧
      ((PerformDeployStage svc id hist user).trace.any isGitTimeline = true →
        (loaded.Status = .DEPLOY_INIT ∨ loaded.Status = .ENQUEUED ∨
          loaded.Status = .QUE_ERROR ∨ loaded.Status = .GIT_ERROR)) ∧
      (Event.CreateArgoRepoSecretIfNeeded ∈ (PerformDeployStage svc id hist user).trace ↔
        (loaded.Status = .DEPLOY_INIT ∨ loaded.Status = .ENQUEUED ∨
          loaded.Status = .QUE_ERROR ∨ loaded.Status = .GIT_ERROR) ∧
          svc.FindById loaded.AppStoreVersion = none) ∧
      (Event.GenerateManifestAndPerformGitOperations ∈
          (PerformDeployStage svc id hist user).trace ↔
        (loaded.Status = .DEPLOY_INIT ∨ loaded.Status = .ENQUEUED ∨
          loaded.Status = .QUE_ERROR ∨ loaded.Status = .GIT_ERROR) ∧
          svc.FindById loaded.AppStoreVersion = none ∧
          svc.CreateArgoRepoSecretIfNeeded = none) ∧
      (∀ d a t,
        gitStage svc { loaded with InstalledAppVersionHistoryId := hist } = .proceed d a t →
        ((PerformDeployStage svc id hist user).trace.any isInstallApp = true ↔
          (loaded.Status = .DEPLOY_INIT ∨ loaded.Status = .ENQUEUED ∨
            loaded.Status = .QUE_ERROR ∨ loaded.Status = .GIT_ERROR ∨
            loaded.Status = .GIT_SUCCESS ∨ loaded.Status = .ACD_ERROR))) ∧
      (∀ d e t,
        gitStage svc { loaded with InstalledAppVersionHistoryId := hist } = .abort d e t →
        (PerformDeployStage svc id hist user).trace.any isInstallApp = false) ∧
      (PerformDeployStage svc id hist user).trace.countP isInstallApp ≤ 1 ∧
      (loaded.Status = .GIT_SUCCESS →
        (PerformDeployStage svc id hist user).trace.any isGitOperation = false ∧
        (PerformDeployStage svc id hist user).trace.any isGitTimeline = false ∧
        ((∃ d a t, gitStage svc { loaded with InstalledAppVersionHistoryId := hist }
            = .proceed d a t) ↔
          (loaded.Environment.isSome = true ∨
            ∃ env, svc.GetExtendedEnvBeanById loaded.EnvironmentId = .ok env)) ∧
        ∀ d a t,
          gitStage svc { loaded with InstalledAppVersionHistoryId := hist } = .proceed d a t →
          (PerformDeployStage svc id hist user).trace.countP isInstallApp = 1 ∧
          (svc.InstallApp d a = none →
            svc.AppStoreDeployOperationStatusUpdate loaded.InstalledAppId .ACD_SUCCESS = none →
            svc.AppStoreDeployOperationStatusUpdate loaded.InstalledAppId .DEPLOY_SUCCESS = none →
            persistedStatuses (PerformDeployStage svc id hist user).trace
                = [.ACD_SUCCESS, .DEPLOY_SUCCESS] ∧
              (PerformDeployStage svc id hist user).err = none ∧
              (PerformDeployStage svc id hist user).result = some d)) := by
  simp only [← gitStageStatus_iff loaded.Status, ← syncStageStatus_iff loaded.Status]
  obtain ⟨tail, htr, ht1, ht2, ht3, ht4, ht5⟩ :=
    deploy_trace_acd svc id hist user loaded hload hacd
  rw [acd_trace] at htr
  obtain ⟨hs1, hs2, hs3, hs4, hs5⟩ :=
    syncTrace_props svc (gitStage svc { loaded with InstalledAppVersionHistoryId := hist })
  have hg0 := gitStage_no_installApp svc { loaded with InstalledAppVersionHistoryId := hist }
  have hsk := gitStage_skipped svc { loaded with InstalledAppVersionHistoryId := hist }
  have hsec := gitStage_secret_mem svc { loaded with InstalledAppVersionHistoryId := hist }
  have hman := gitStage_manifest_mem svc { loaded with InstalledAppVersionHistoryId := hist }
  simp only at hsk hsec hman
  have hcnt : (PerformDeployStage svc id hist user).trace.countP isInstallApp
      = (syncTrace svc (gitStage svc
          { loaded with InstalledAppVersionHistoryId := hist })).countP isInstallApp := by
    rw [htr]
    simp [List.countP_append, any_false_countP _ _ hg0, any_false_countP _ _ ht3,
      List.countP_cons, isInstallApp]
  have hops : gitStageStatus loaded.Status = false →
      (PerformDeployStage svc id hist user).trace.any isGitOperation = false ∧
      (PerformDeployStage svc id hist user).trace.any isGitTimeline = false := by
    intro hf
    obtain ⟨k1, k2, -⟩ := hsk hf
    rw [htr]
    simp [List.any_append, k1, k2, hs1, hs2, ht1, ht2, isGitOperation, isGitTimeline]
  refine ⟨?_, ?_, ?_, ?_, ?_, ?_, ?_, ?_⟩
  · intro h
    cases hst : gitStageStatus loaded.Status with
    | true => rfl
    | false => rw [(hops hst).1] at h; cases h
  · intro h
    cases hst : gitStageStatus loaded.Status with
    | true => rfl
    | false => rw [(hops hst).2] at h; cases h
  · rw [htr]
    simp [hs3, ht4, hsec]
  · rw [htr]
    simp [hs4, ht5, hman]
  · intro d a t hgit
    obtain ⟨k1, -⟩ := gitStage_proceed_fields svc _ d a t hgit
    simp only at k1
    rw [countP_pos_any, hcnt, hgit]
    simp only [syncTrace, (syncStage_trace svc d a).2.2.2.2, k1]
    split <;> simp_all
  · intro d e t hgit
    cases h : (PerformDeployStage svc id hist user).trace.any isInstallApp with
    | false => rfl
    | true =>
      rw [countP_pos_any, hcnt, hgit] at h
      simp [syncTrace] at h
  · rw [hcnt]; exact hs5
  · intro hst
    have hf : gitStageStatus loaded.Status = false := by rw [hst]; rfl
    refine ⟨(hops hf).1, (hops hf).2, ?_, ?_⟩
    · exact gitStage_proceed_iff_env svc { loaded with InstalledAppVersionHistoryId := hist } hf
    · intro d a t hgit
      obtain ⟨k1, k2⟩ := gitStage_proceed_fields svc _ d a t hgit
      simp only at k1 k2
      have hsy : syncStageStatus d.Status = true := by rw [k1, hst]; rfl
      refine ⟨?_, ?_⟩
      · rw [hcnt, hgit]
        simp only [syncTrace, (syncStage_trace svc d a).2.2.2.2, hsy, if_true]
      · intro hi hu hd
        have hp : persistedStatuses t = [] := by
          have := (hsk hf).2.2
          rw [hgit] at this
          exact this
        simp [PerformDeployStage, hload, hacd, performDeployStageOnAcd, hgit, syncStage, hsy,
          hi, k2, hu, hd, deploySuccessStep, statusUpdateEvent, persistedStatuses_append,
          persistedStatuses, hp]

/-- C10 at a concrete input: status GitSuccess, environment attached, every call succeeds;
the statuses persisted are AcdSuccess, DeploySuccess and the version is returned. -/
theorem C10_status_gated_reentry_witness :
    persistedStatuses
        (PerformDeployStage (okServices (sampleVersion "argo_cd" .GIT_SUCCESS)) 1 10 7).trace
        = [.ACD_SUCCESS, .DEPLOY_SUCCESS] ∧
      (PerformDeployStage (okServices (sampleVersion "argo_cd" .GIT_SUCCESS)) 1 10 7).err
        = none ∧
      (PerformDeployStage (okServices (sampleVersion "argo_cd" .GIT_SUCCESS)) 1 10 7).result
        = some { sampleVersion "argo_cd" .GIT_SUCCESS with InstalledAppVersionHistoryId := 10 } :=
  (((C10_status_gated_reentry (okServices (sampleVersion "argo_cd" .GIT_SUCCESS)) 1 10 7
    (sampleVersion "argo_cd" .GIT_SUCCESS) rfl (by decide)).2.2.2.2.2.2.2 rfl).2.2.2
    { sampleVersion "argo_cd" .GIT_SUCCESS with InstalledAppVersionHistoryId := 10 }
    { RepoUrl := "https://git.example/charts.git",
      TargetRevision := "https://git.example/charts.git",
      ChartLocation := "demo-prod" }
    [] rfl).2 rfl rfl rfl

/-- C10 (counterexample): the claim as stated fails. With loaded status Init, which is a
Git stage status, a failing chart version lookup makes `PerformDeployStage` return before
any Git stage operation is invoked; and with loaded status GitSuccess, an environment that
is not attached and whose lookup fails makes it return before the sync is invoked. -/
theorem C10_counterexample :
    ((sampleVersion "argo_cd" .DEPLOY_INIT).Status = .DEPLOY_INIT ∧
      (PerformDeployStage (findFailServices (sampleVersion "argo_cd" .DEPLOY_INIT))
        1 10 7).trace.any isGitOperation = false) ∧
    (sampleVersionNoEnv.Status = .GIT_SUCCESS ∧
      (PerformDeployStage (envFailServices sampleVersionNoEnv) 1 10 7).trace.any isInstallApp
        = false ∧
      (PerformDeployStage (envFailServices sampleVersionNoEnv) 1 10 7).trace
        = [.GetInstalledAppVersion 1 7,
            .SaveTimeline 10 .DEPLOYMENT_INITIATED (.text "Deployment initiated successfully."),
            .GetExtendedEnvBeanById 2]) := by
  decide

/-! ## Supersession manager: theorems -/

theorem supersedeLoop_runners (triggeredAt now : Nat) (triggeredBy : Int)
    (L : List CdWorkflowRunner) :
    List.Forall₂
      (fun r b =>
        if isSupersedeTerminal r.Status = true then b = r
        else b.Id = r.Id ∧ b.Status = WorkflowFailed ∧ b.Message = ErrorDeploymentSuperseded ∧
          b.FinishedOn = triggeredAt)
      L (supersedeLoop triggeredAt now triggeredBy L).1 := by
  induction L with
  | nil => exact List.Forall₂.nil
  | cons r rest ih =>
    simp only [supersedeLoop]
    split
    · exact List.Forall₂.cons (by simp_all) ih
    · exact List.Forall₂.cons (by simp_all [supersedeRunner]) ih

theorem supersedeLoop_timelines (triggeredAt now : Nat) (triggeredBy : Int)
    (L : List CdWorkflowRunner) :
    (supersedeLoop triggeredAt now triggeredBy L).2.map (fun tl => tl.CdWorkflowRunnerId)
        = (L.filter (fun r => !isSupersedeTerminal r.Status)).map (fun r => r.Id) ∧
      ∀ tl ∈ (supersedeLoop triggeredAt now triggeredBy L).2,
        tl.Status = TimelineStatus.DEPLOYMENT_SUPERSEDED := by
  induction L with
  | nil => simp [supersedeLoop]
  | cons r rest ih =>
    simp only [supersedeLoop]
    split
    · simp_all
    · simp_all [supersededTimeline, supersedeRunner]

/-- C5 (code bug): `SupersedePreviousDeployments` is not all-or-nothing. The runner batch is
written by `UpdateWorkFlowRunners`, which is not given the transaction; when that write
succeeds and then saving the timelines fails, or the commit fails, the call returns the
error and the rollback discards the timelines only: the persisted runners are already
the superseded ones. -/
theorem C5_runner_update_outside_transaction (repo : CdRepositories) (db : CdDb) (now : Nat)
    (cdWfrId pipelineId : Int) (triggeredAt : Nat) (triggeredBy : Int)
    (L : List CdWorkflowRunner) (e : GoError)
    (hb : repo.Begin = none)
    (hf : repo.FindPreviousCdWfRunnerByStatus pipelineId cdWfrId
      [HealthStatusHealthy, WorkflowAborted, WorkflowFailed, WorkflowSucceeded] = .ok L)
    (hne : L ≠ [])
    (hu : repo.UpdateWorkFlowRunners (supersedeLoop triggeredAt now triggeredBy L).1 = none)
    (hs : repo.SaveTimelinesWithTxn (supersedeLoop triggeredAt now triggeredBy L).2 = some e ∨
      (repo.SaveTimelinesWithTxn (supersedeLoop triggeredAt now triggeredBy L).2 = none ∧
        repo.Commit = some e)) :
    (SupersedePreviousDeployments repo db now cdWfrId pipelineId triggeredAt triggeredBy).err
        = some e ∧
      (SupersedePreviousDeployments repo db now cdWfrId pipelineId triggeredAt triggeredBy).db
        = { runners := updateRows db.runners (supersedeLoop triggeredAt now triggeredBy L).1,
            timelines := db.timelines } := by
  have hlen : (L.length == 0) = false := by
    cases L with
    | nil => exact absurd rfl hne
    | cons a l => rfl
  rcases hs with hs | ⟨hs, hc⟩
  · simp [SupersedePreviousDeployments, hb, hf, hlen, hu, hs]
  · simp [SupersedePreviousDeployments, hb, hf, hlen, hu, hs, hc]

/-- C5 at a concrete input: one running prior runner, saving the timelines fails; the call
returns the error, no timeline is stored, and the persisted runner is now Failed with the
supersession message and the trigger time as finish time. -/
theorem C5_runner_update_outside_transaction_witness :
    (SupersedePreviousDeployments (timelineFailRepositories [runnerRunning]) sampleDb 100
        9 4 77 8).err = some "pg: connection reset" ∧
      (SupersedePreviousDeployments (timelineFailRepositories [runnerRunning]) sampleDb 100
        9 4 77 8).db
        = { runners :=
              [{ Id := 1, Status := "Failed", Message := "deployment superseded",
                 FinishedOn := 77, UpdatedOn := 100, UpdatedBy := 8 },
               runnerSucceeded],
            timelines := [] } :=
  C5_runner_update_outside_transaction (timelineFailRepositories [runnerRunning]) sampleDb 100
    9 4 77 8 [runnerRunning] "pg: connection reset" rfl rfl (by decide) rfl (Or.inl rfl)

theorem isSupersedeTerminal_iff (status : String) :
    isSupersedeTerminal status = true ↔
      (status = "Healthy" ∨ status = "Succeeded" ∨ status = "Aborted" ∨ status = "Failed") := by
  simp [isSupersedeTerminal, HealthStatusHealthy, WorkflowSucceeded, WorkflowAborted,
    WorkflowFailed, or_assoc]

theorem not_isSupersedeTerminal_eq (status : String) :
    (!isSupersedeTerminal status)
      = (status != "Healthy" && status != "Succeeded" && status != "Aborted" &&
          status != "Failed") := by
  simp [isSupersedeTerminal, HealthStatusHealthy, WorkflowSucceeded, WorkflowAborted,
    WorkflowFailed, Bool.and_assoc, bne]

/-- C6: when `SupersedePreviousDeployments` is given the list `L` of prior runners: if `L`
is empty it returns no error, updates no runner and saves no timeline; if `L` is not empty
and the call succeeds, one batch `B` is written and one list `T` of timelines is saved and
committed, where every runner of `L` whose status is none of `Healthy`, `Succeeded`,
`Aborted`, `Failed` appears in `B` with the same id, status `Failed`, the sentinel text as
message and `triggeredAt` as finish time, every runner of `L` in one of those four statuses
appears in `B` unchanged, and `T` holds exactly one superseded timeline entry per runner
outside the four statuses, carrying its id, in order. -/
theorem C6_supersede_success (repo : CdRepositories) (db : CdDb) (now : Nat)
    (cdWfrId pipelineId : Int) (triggeredAt : Nat) (triggeredBy : Int)
    (L : List CdWorkflowRunner)
    (hb : repo.Begin = none)
    (hf : repo.FindPreviousCdWfRunnerByStatus pipelineId cdWfrId
      ["Healthy", "Aborted", "Failed", "Succeeded"] = .ok L) :
    (L = [] →
      (SupersedePreviousDeployments repo db now cdWfrId pipelineId triggeredAt triggeredBy).err
          = none ∧
        (SupersedePreviousDeployments repo db now cdWfrId pipelineId triggeredAt triggeredBy).db
          = db ∧
        runnerUpdates (SupersedePreviousDeployments repo db now cdWfrId pipelineId triggeredAt
          triggeredBy).trace = [] ∧
        timelineSaves (SupersedePreviousDeployments repo db now cdWfrId pipelineId triggeredAt
          triggeredBy).trace = []) ∧
    (L ≠ [] →
      (SupersedePreviousDeployments repo db now cdWfrId pipelineId triggeredAt triggeredBy).err
          = none →
      ∃ B T,
        runnerUpdates (SupersedePreviousDeployments repo db now cdWfrId pipelineId triggeredAt
          triggeredBy).trace = [B] ∧
        timelineSaves (SupersedePreviousDeployments repo db now cdWfrId pipelineId triggeredAt
          triggeredBy).trace = [T] ∧
        (SupersedePreviousDeployments repo db now cdWfrId pipelineId triggeredAt triggeredBy).db
          = { runners := updateRows db.runners B, timelines := db.timelines ++ T } ∧
        List.Forall₂
          (fun r b =>
            ((r.Status = "Healthy" ∨ r.Status = "Succeeded" ∨ r.Status = "Aborted" ∨
                r.Status = "Failed") → b = r) ∧
            ((r.Status ≠ "Healthy" ∧ r.Status ≠ "Succeeded" ∧ r.Status ≠ "Aborted" ∧
                r.Status ≠ "Failed") →
              b.Id = r.Id ∧ b.Status = "Failed" ∧ b.Message = ErrorDeploymentSuperseded ∧
                b.FinishedOn = triggeredAt))
          L B ∧
        T.map (fun tl => tl.CdWorkflowRunnerId)
          = (L.filter (fun r => r.Status != "Healthy" && r.Status != "Succeeded" &&
              r.Status != "Aborted" && r.Status != "Failed")).map (fun r => r.Id) ∧
        (∀ tl ∈ T, tl.Status = TimelineStatus.DEPLOYMENT_SUPERSEDED) ∧
        T.length = L.countP (fun r => r.Status != "Healthy" && r.Status != "Succeeded" &&
          r.Status != "Aborted" && r.Status != "Failed")) := by
  have hf2 : repo.FindPreviousCdWfRunnerByStatus pipelineId cdWfrId
      [HealthStatusHealthy, WorkflowAborted, WorkflowFailed, WorkflowSucceeded] = .ok L := hf
  have hpred : (fun r : CdWorkflowRunner => !isSupersedeTerminal r.Status)
      = (fun r : CdWorkflowRunner => r.Status != "Healthy" && r.Status != "Succeeded" &&
          r.Status != "Aborted" && r.Status != "Failed") :=
    funext fun r => not_isSupersedeTerminal_eq r.Status
  constructor
  · intro hL
    subst hL
    simp [SupersedePreviousDeployments, hb, hf2, runnerUpdates, timelineSaves]
  · intro hne
    have hlen : (L.length == 0) = false := by
      cases L with
      | nil => exact absurd rfl hne
      | cons a l => rfl
    intro hok
    refine ⟨(supersedeLoop triggeredAt now triggeredBy L).1,
      (supersedeLoop triggeredAt now triggeredBy L).2, ?_⟩
    have hT := supersedeLoop_timelines triggeredAt now triggeredBy L
    rw [hpred] at hT
    have hlenT : (supersedeLoop triggeredAt now triggeredBy L).2.length
        = L.countP (fun r => r.Status != "Healthy" && r.Status != "Succeeded" &&
            r.Status != "Aborted" && r.Status != "Failed") := by
      have := congrArg List.length hT.1
      simpa [List.countP_eq_length_filter] using this
    have hB : List.Forall₂
        (fun r b =>
          ((r.Status = "Healthy" ∨ r.Status = "Succeeded" ∨ r.Status = "Aborted" ∨
              r.Status = "Failed") → b = r) ∧
          ((r.Status ≠ "Healthy" ∧ r.Status ≠ "Succeeded" ∧ r.Status ≠ "Aborted" ∧
              r.Status ≠ "Failed") →
            b.Id = r.Id ∧ b.Status = "Failed" ∧ b.Message = ErrorDeploymentSuperseded ∧
              b.FinishedOn = triggeredAt))
        L (supersedeLoop triggeredAt now triggeredBy L).1 := by
      refine List.Forall₂.imp ?_ (supersedeLoop_runners triggeredAt now triggeredBy L)
      intro r b hrb
      constructor
      · intro hterm
        rw [if_pos ((isSupersedeTerminal_iff r.Status).mpr hterm)] at hrb
        exact hrb
      · rintro ⟨n1, n2, n3, n4⟩
        have hnot : ¬ isSupersedeTerminal r.Status = true := by
          intro ht
          rcases (isSupersedeTerminal_iff r.Status).mp ht with k | k | k | k
          · exact n1 k
          · exact n2 k
          · exact n3 k
          · exact n4 k
        rw [if_neg hnot] at hrb
        exact hrb
    simp only [SupersedePreviousDeployments, hb, hf2, hlen] at hok ⊢
    cases hu : repo.UpdateWorkFlowRunners (supersedeLoop triggeredAt now triggeredBy L).1 with
    | some e => simp [hu] at hok
    | none =>
      cases hs : repo.SaveTimelinesWithTxn (supersedeLoop triggeredAt now triggeredBy L).2 with
      | some e => simp [hu, hs] at hok
      | none =>
        cases hc : repo.Commit with
        | some e => simp [hu, hs, hc] at hok
        | none =>
          simp only [hu, hs, hc]
          exact ⟨by simp [runnerUpdates], by simp [timelineSaves], by simp, hB, hT.1, hT.2,
            hlenT⟩

/-- C6 at a concrete input (Scenario C): prior runners R1 (Running) and R2 (Succeeded); the
call succeeds, R1 is persisted as Failed with the supersession message and the trigger time
as finish time, R2 is untouched and one superseded timeline entry, for R1, is stored. -/
theorem C6_supersede_success_witness :
    (∃ B T,
      runnerUpdates (SupersedePreviousDeployments
        (okRepositories [runnerRunning, runnerSucceeded]) sampleDb 100 9 4 77 8).trace = [B] ∧
      timelineSaves (SupersedePreviousDeployments
        (okRepositories [runnerRunning, runnerSucceeded]) sampleDb 100 9 4 77 8).trace = [T] ∧
      (SupersedePreviousDeployments
        (okRepositories [runnerRunning, runnerSucceeded]) sampleDb 100 9 4 77 8).db
        = { runners := updateRows sampleDb.runners B, timelines := sampleDb.timelines ++ T } ∧
      List.Forall₂
        (fun r b =>
          ((r.Status = "Healthy" ∨ r.Status = "Succeeded" ∨ r.Status = "Aborted" ∨
              r.Status = "Failed") → b = r) ∧
          ((r.Status ≠ "Healthy" ∧ r.Status ≠ "Succeeded" ∧ r.Status ≠ "Aborted" ∧
              r.Status ≠ "Failed") →
            b.Id = r.Id ∧ b.Status = "Failed" ∧ b.Message = ErrorDeploymentSuperseded ∧
              b.FinishedOn = 77))
        [runnerRunning, runnerSucceeded] B ∧
      T.map (fun tl => tl.CdWorkflowRunnerId)
        = ([runnerRunning, runnerSucceeded].filter
            (fun r => r.Status != "Healthy" && r.Status != "Succeeded" &&
              r.Status != "Aborted" && r.Status != "Failed")).map (fun r => r.Id) ∧
      (∀ tl ∈ T, tl.Status = TimelineStatus.DEPLOYMENT_SUPERSEDED) ∧
      T.length = [runnerRunning, runnerSucceeded].countP
        (fun r => r.Status != "Healthy" && r.Status != "Succeeded" &&
          r.Status != "Aborted" && r.Status != "Failed")) ∧
    (SupersedePreviousDeployments
        (okRepositories [runnerRunning, runnerSucceeded]) sampleDb 100 9 4 77 8).db
      = { runners :=
            [{ Id := 1, Status := "Failed", Message := "deployment superseded",
               FinishedOn := 77, UpdatedOn := 100, UpdatedBy := 8 },
             { Id := 2, Status := "Succeeded", Message := "done", FinishedOn := 60,
               UpdatedOn := 60, UpdatedBy := 3 }],
          timelines :=
            [{ CdWorkflowRunnerId := 1, Status := .DEPLOYMENT_SUPERSEDED,
               StatusDetail := .TIMELINE_DESCRIPTION_DEPLOYMENT_SUPERSEDED,
               StatusTime := 100, AuditUser := 1 }] } :=
  ⟨(C6_supersede_success (okRepositories [runnerRunning, runnerSucceeded]) sampleDb 100 9 4 77 8
    [runnerRunning, runnerSucceeded] rfl rfl).2 (by decide) rfl, by decide⟩

/-! ## Workflow stage tracker: theorems -/

theorem setPodNameMetadata_status (podName : String) (stage : WorkflowExecutionStage) :
    (setPodNameMetadata podName stage).Status = stage.Status := by
  simp only [setPodNameMetadata]
  split <;> rfl

theorem podPhaseSwitch_status (now podStatus message : String)
    (stage : WorkflowExecutionStage) :
    (podPhaseSwitch now podStatus message stage).Status
      = nextPodStageStatus podStatus stage.Status := by
  simp only [podPhaseSwitch, nextPodStageStatus]
  by_cases h1 : (podStatus == NodePending) = true
  · simp only [h1, if_true]
    split <;> rfl
  by_cases h2 : (podStatus == NodeRunning) = true
  · simp only [h1, h2, if_true, apply_ite WorkflowExecutionStage.Status]
  by_cases h3 : (podStatus == NodeSucceeded) = true
  · simp only [h1, h2, h3, if_true, apply_ite WorkflowExecutionStage.Status]
  by_cases h4 : (podStatus == NodeFailed || podStatus == NodeError) = true
  · simp only [h1, h2, h3, h4, if_true, apply_ite WorkflowExecutionStage.Status]
    simp
  · simp only [h1, h2, h3, h4]
    simp

theorem updatePodStage_status (now podStatus message podName : String)
    (stage : WorkflowExecutionStage) :
    (updatePodStage now podStatus message podName stage).Status
      = if stage.StatusFor = .POD then nextPodStageStatus podStatus stage.Status
        else stage.Status := by
  simp only [updatePodStage]
  by_cases h : stage.StatusFor = .POD
  · simp [h, podPhaseSwitch_status, setPodNameMetadata_status]
  · simp [h]

theorem updatePodStage_statusFor (now podStatus message podName : String)
    (stage : WorkflowExecutionStage) :
    (updatePodStage now podStatus message podName stage).StatusFor = stage.StatusFor := by
  simp only [updatePodStage, podPhaseSwitch, setPodNameMetadata]
  repeat' split
  all_goals rfl

theorem nextPodStageStatus_keeps_terminal (podStatus : String) (st : WorkflowStageStatus)
    (hp : podStatus = NodePending ∨ podStatus = NodeRunning ∨ podStatus = NodeSucceeded ∨
      podStatus = NodeFailed ∨ podStatus = NodeError)
    (ht : st.IsTerminal = true) :
    nextPodStageStatus podStatus st = st := by
  rcases hp with rfl | rfl | rfl | rfl | rfl <;> cases st <;>
    first
      | (exact absurd ht (by decide))
      | decide

/-- C7 (code bug): `updatePodStages` does not keep terminal stage statuses for every pod
phase. For a phase other than Pending, Running, Succeeded, Failed, Error the default branch
of the switch has no guard: every pod-level stage gets status Unknown, also one that was
Succeeded, Failed, Timeout or Aborted; the other stages keep their status. -/
theorem C7_unrecognised_phase_overwrites_terminal (h : StageHelpers) (now : String)
    (stages : List WorkflowExecutionStage) (podStatus currentPodStatus message podName : String)
    (h1 : podStatus ≠ NodePending) (h2 : podStatus ≠ NodeRunning)
    (h3 : podStatus ≠ NodeSucceeded) (h4 : podStatus ≠ NodeFailed)
    (h5 : podStatus ≠ NodeError) :
    (updatePodStages h now stages podStatus currentPodStatus message podName).1.map
        (fun s => s.Status)
      = stages.map
        (fun s => if s.StatusFor = .POD then WorkflowStageStatus.UNKNOWN else s.Status) := by
  simp only [updatePodStages, List.map_map]
  apply List.map_congr_left
  intro s _
  simp only [Function.comp, updatePodStage_status, nextPodStageStatus]
  simp [h1, h2, h3, h4, h5]

/-- C7 at a concrete input: a pod-readiness stage that is Succeeded and the pod phase
`Unknown`; the stage ends with status Unknown. -/
theorem C7_unrecognised_phase_overwrites_terminal_witness :
    (WorkflowStageStatus.SUCCEEDED).IsTerminal = true ∧
      (updatePodStages sampleHelpers "2024-01-01T00:00:00Z" [podStage .SUCCEEDED] "Unknown"
        "Running" "" "pod-1").1.map (fun s => s.Status) = [WorkflowStageStatus.UNKNOWN] :=
  ⟨rfl, C7_unrecognised_phase_overwrites_terminal sampleHelpers "2024-01-01T00:00:00Z"
    [podStage .SUCCEEDED] "Unknown" "Running" "" "pod-1"
    (by decide) (by decide) (by decide) (by decide) (by decide)⟩

theorem pendingBody_pod (h : StageHelpers) (now wfStatus wfMessage : String)
    (hw : h.WfrTerminalStatusList.contains wfStatus = true)
    (stage : WorkflowExecutionStage) (w : String) (hs : stage.StageName = .POD_EXECUTION) :
    (pendingBody h now wfStatus wfMessage stage w).1.Status
      = h.ConvertStatusToDevtronStatus wfStatus wfMessage := by
  have hw2 : wfStatus ∈ h.WfrTerminalStatusList := by simpa using hw
  simp [pendingBody, hs, hw2]

/-- C8 (code bug): `updateWorkflowStagesToDevtronStatus` does not keep terminal stage
statuses for every input. For the pod phase Pending and an incoming workflow status of the
runner terminal-status list, the pod-readiness stage is written without a guard: whatever
its status was, also a terminal one, it becomes the status derived from the workflow
status. Hence, whatever the derivation, some terminal status (Succeeded or Failed) of a
pod-readiness stage is changed by that call. -/
theorem C8_pending_overwrites_pod_stage (h : StageHelpers) (now : String)
    (stage : WorkflowExecutionStage) (wfStatus currentWfDBstatus wfMessage : String)
    (hw : h.WfrTerminalStatusList.contains wfStatus = true)
    (hs : stage.StageName = .POD_EXECUTION) :
    (updateWorkflowStagesToDevtronStatus h now [stage] wfStatus currentWfDBstatus wfMessage
        NodePending).1.map (fun s => s.Status)
        = [h.ConvertStatusToDevtronStatus wfStatus wfMessage] ∧
      ∃ st : WorkflowStageStatus, st.IsTerminal = true ∧
        (updateWorkflowStagesToDevtronStatus h now [{ stage with Status := st }] wfStatus
          currentWfDBstatus wfMessage NodePending).1.map (fun s => s.Status) ≠ [st] := by
  have key : ∀ s : WorkflowExecutionStage, s.StageName = .POD_EXECUTION →
      (updateWorkflowStagesToDevtronStatus h now [s] wfStatus
        currentWfDBstatus wfMessage NodePending).1.map (fun s => s.Status)
        = [h.ConvertStatusToDevtronStatus wfStatus wfMessage] := by
    intro s hs2
    simp only [updateWorkflowStagesToDevtronStatus, beq_self_eq_true, if_true, forEachStage,
      List.map]
    rw [pendingBody_pod h now wfStatus wfMessage hw _ _ hs2]
  refine ⟨key stage hs, ?_⟩
  by_cases hc : h.ConvertStatusToDevtronStatus wfStatus wfMessage = .SUCCEEDED
  · refine ⟨.FAILED, rfl, ?_⟩
    rw [key { stage with Status := .FAILED } hs, hc]
    decide
  · refine ⟨.SUCCEEDED, rfl, ?_⟩
    rw [key { stage with Status := .SUCCEEDED } hs]
    intro hx
    exact hc (List.head_eq_of_cons_eq hx)

/-- C8 at a concrete input: a pod-readiness stage that is Succeeded, the pod phase Pending
and the incoming workflow status Failed; the stage ends with status Failed. -/
theorem C8_pending_overwrites_pod_stage_witness :
    (WorkflowStageStatus.SUCCEEDED).IsTerminal = true ∧
      (updateWorkflowStagesToDevtronStatus sampleHelpers "2024-01-01T00:00:00Z"
        [podStage .SUCCEEDED] "Failed" "Running" "" NodePending).1.map (fun s => s.Status)
        = [WorkflowStageStatus.FAILED] :=
  ⟨rfl, (C8_pending_overwrites_pod_stage sampleHelpers "2024-01-01T00:00:00Z"
    (podStage .SUCCEEDED) "Failed" "Running" "" (by decide) rfl).1.trans (by decide)⟩

/-- C9 (amended): out-of-order delivery. Starting from a pod-level stage that is NotStarted,
applying `updatePodStages` successively with the pod phases Succeeded, Running, Pending
leaves the stage NotStarted: Succeeded is ignored on a stage that is NotStarted, Running
starts it and Pending resets a stage that is not terminal. Starting from a pod-level stage
that is Running, the same sequence leaves it Succeeded. -/
theorem C9_out_of_order_delivery (h : StageHelpers) (now message podName currentPodStatus : String)
    (stage : WorkflowExecutionStage) (hpod : stage.StatusFor = .POD) :
    (stage.Status = .NOT_STARTED →
      (applyPodPhases h now message podName [NodeSucceeded, NodeRunning, NodePending]
        ([stage], currentPodStatus)).1.map (fun s => s.Status)
        = [WorkflowStageStatus.NOT_STARTED]) ∧
    (stage.Status = .RUNNING →
      (applyPodPhases h now message podName [NodeSucceeded, NodeRunning, NodePending]
        ([stage], currentPodStatus)).1.map (fun s => s.Status)
        = [WorkflowStageStatus.SUCCEEDED]) := by
  constructor <;> intro hs <;>
    simp only [applyPodPhases, updatePodStages, List.map, updatePodStage_status,
      updatePodStage_statusFor, hpod, hs, if_true] <;>
    decide

/-- C9 at a concrete input: the pod-readiness stage starts NotStarted, the recorded pod
status is Pending; after the phases Succeeded, Running, Pending it is NotStarted. -/
theorem C9_out_of_order_delivery_witness :
    (applyPodPhases sampleHelpers "2024-01-01T00:00:00Z" "" "pod-1"
        [NodeSucceeded, NodeRunning, NodePending]
        ([podStage .NOT_STARTED], "Pending")).1.map (fun s => s.Status)
      = [WorkflowStageStatus.NOT_STARTED] :=
  (C9_out_of_order_delivery sampleHelpers "2024-01-01T00:00:00Z" "" "pod-1" "Pending"
    (podStage .NOT_STARTED) rfl).1 rfl

/-- C9 (counterexample): the claim as stated fails. From a pod-readiness stage that is
NotStarted, with the non-terminal recorded pod status Pending, the phases Succeeded,
Running, Pending applied in this order leave the stage NotStarted, not Succeeded; after
the first call (Succeeded) the stage is still NotStarted. -/
theorem C9_counterexample :
    sampleHelpers.WfrTerminalStatusList.contains "Pending" = false ∧
      (applyPodPhases sampleHelpers "2024-01-01T00:00:00Z" "" "pod-1"
        [NodeSucceeded, NodeRunning, NodePending]
        ([podStage .NOT_STARTED], "Pending")).1.map (fun s => s.Status)
        ≠ [WorkflowStageStatus.SUCCEEDED] ∧
      (updatePodStages sampleHelpers "2024-01-01T00:00:00Z" [podStage .NOT_STARTED]
        NodeSucceeded "Pending" "" "pod-1").1.map (fun s => s.Status)
        = [WorkflowStageStatus.NOT_STARTED] := by
  decide

/-! ## Runner status updates: theorems -/

/-- C11: for every target status of the runner terminal-status list,
`UpdateNonTerminalStatusInRunner` returns the error `unsupported status ... for update
operation`, whatever the collaborators would answer, and makes no call at all: the run is
neither read nor written. -/
theorem C11_terminal_target_rejected (svc : RunnerServices) (now : Nat) (wfrId userId : Int)
    (status : String) (ht : svc.WfrTerminalStatusList.contains status = true) :
    (UpdateNonTerminalStatusInRunner svc now wfrId userId status).err
        = some ("unsupported status " ++ status ++ " for update operation") ∧
      (UpdateNonTerminalStatusInRunner svc now wfrId userId status).trace = [] ∧
      (UpdateNonTerminalStatusInRunner svc now wfrId userId status).run = none := by
  simp only [UpdateNonTerminalStatusInRunner, ht, if_true, and_self]

/-- C11 at a concrete input: the target status Failed is rejected without any call. -/
theorem C11_terminal_target_rejected_witness :
    (UpdateNonTerminalStatusInRunner (okRunnerServices runnerRunning [] []) 100 1 8 "Failed").err
        = some "unsupported status Failed for update operation" ∧
      (UpdateNonTerminalStatusInRunner (okRunnerServices runnerRunning [] []) 100 1 8
        "Failed").trace = [] ∧
      (UpdateNonTerminalStatusInRunner (okRunnerServices runnerRunning [] []) 100 1 8
        "Failed").run = none :=
  C11_terminal_target_rejected (okRunnerServices runnerRunning [] []) 100 1 8 "Failed"
    (by decide)

/-- C12: for a target status that is not terminal and a run that is found: when the run's
status is terminal, `UpdateNonTerminalStatusInRunner` returns no error, leaves the run as
it was fetched and makes no persistence write; when the run's status is not terminal, it
hands the run, with its status replaced by the target status and the audit fields stamped,
to the persistence write exactly once and returns the result of that write. -/
theorem C12_non_terminal_target (svc : RunnerServices) (now : Nat) (wfrId userId : Int)
    (status : String) (cdWfr : CdWorkflowRunner)
    (hs : svc.WfrTerminalStatusList.contains status = false)
    (hf : svc.FindBasicWorkflowRunnerById wfrId = .ok cdWfr) :
    (svc.WfrTerminalStatusList.contains cdWfr.Status = true →
      (UpdateNonTerminalStatusInRunner svc now wfrId userId status).err = none ∧
      (UpdateNonTerminalStatusInRunner svc now wfrId userId status).run = some cdWfr ∧
      (UpdateNonTerminalStatusInRunner svc now wfrId userId status).trace
        = [.FindBasicWorkflowRunnerById wfrId] ∧
      (UpdateNonTerminalStatusInRunner svc now wfrId userId status).trace.any isRunnerWrite
        = false) ∧
    (svc.WfrTerminalStatusList.contains cdWfr.Status = false →
      (UpdateNonTerminalStatusInRunner svc now wfrId userId status).trace
        = [.FindBasicWorkflowRunnerById wfrId,
            .UpdateCdWorkflowRunnerWithStage
              { cdWfr with Status := status, UpdatedOn := now, UpdatedBy := userId }] ∧
      (UpdateNonTerminalStatusInRunner svc now wfrId userId status).run
        = some { cdWfr with Status := status, UpdatedOn := now, UpdatedBy := userId } ∧
      (UpdateNonTerminalStatusInRunner svc now wfrId userId status).err
        = svc.UpdateCdWorkflowRunnerWithStage
            { cdWfr with Status := status, UpdatedOn := now, UpdatedBy := userId }) := by
  constructor
  · intro ht
    simp only [UpdateNonTerminalStatusInRunner, hs, hf, ht, if_true]
    simp [isRunnerWrite]
  · intro hn
    simp only [UpdateNonTerminalStatusInRunner, hs, hf, hn, UpdateAuditLog]
    simp

/-- C12 at a concrete input: the target status Progressing on a run that has succeeded is
a no-op without error. -/
theorem C12_non_terminal_target_witness :
    (UpdateNonTerminalStatusInRunner (okRunnerServices runnerSucceeded [] []) 100 2 8
        "Progressing").err = none ∧
      (UpdateNonTerminalStatusInRunner (okRunnerServices runnerSucceeded [] []) 100 2 8
        "Progressing").run = some runnerSucceeded ∧
      (UpdateNonTerminalStatusInRunner (okRunnerServices runnerSucceeded [] []) 100 2 8
        "Progressing").trace = [.FindBasicWorkflowRunnerById 2] ∧
      (UpdateNonTerminalStatusInRunner (okRunnerServices runnerSucceeded [] []) 100 2 8
        "Progressing").trace.any isRunnerWrite = false :=
  (C12_non_terminal_target (okRunnerServices runnerSucceeded [] []) 100 2 8 "Progressing"
    runnerSucceeded (by decide) rfl).1 (by decide)

/-- C13: for every run whose status is in the runner terminal-status list and every error
value, `MarkCurrentDeploymentFailed` returns no error, leaves every field of the run as it
was and makes no call: no persistence write, no timeline write, no metric emission. -/
theorem C13_mark_failed_on_terminal_run (svc : RunnerServices) (now : Nat)
    (runner : CdWorkflowRunner) (releaseErr : Option ReleaseError) (triggeredBy : Int)
    (ht : svc.WfrTerminalStatusList.contains runner.Status = true) :
    MarkCurrentDeploymentFailed svc now runner releaseErr triggeredBy
      = { err := none, runner := runner, trace := [], panicked := false } := by
  simp only [MarkCurrentDeploymentFailed, ht, if_true]

/-- C13 at a concrete input: a run that has succeeded, marked failed with the supersession
sentinel. -/
theorem C13_mark_failed_on_terminal_run_witness :
    MarkCurrentDeploymentFailed (okRunnerServices runnerSucceeded [] []) 100 runnerSucceeded
        (some .ErrorDeploymentSuperseded) 8
      = { err := none, runner := runnerSucceeded, trace := [], panicked := false } :=
  C13_mark_failed_on_terminal_run (okRunnerServices runnerSucceeded [] []) 100 runnerSucceeded
    (some .ErrorDeploymentSuperseded) 8 (by decide)

/-- C14: `GetTriggerValidateFuncs` returns exactly one predicate, and for every message that
predicate accepts on first delivery (`MsgDeliverCount = 1`) whatever the lookup would
answer; on redelivery (`MsgDeliverCount > 1`) with a non-empty `MsgId` it rejects when a
run with that reference id exists, and also when the lookup fails; on redelivery it accepts
when the lookup answers that no such run exists. -/
theorem C14_duplicate_trigger_guard (svc : RunnerServices) :
    (GetTriggerValidateFuncs svc).length = 1 ∧
      ∀ p ∈ GetTriggerValidateFuncs svc, ∀ msg : PubSubMsg,
        (msg.MsgDeliverCount = 1 → p msg = true) ∧
        (msg.MsgDeliverCount > 1 → msg.MsgId ≠ "" →
          svc.CheckWorkflowRunnerByReferenceId msg.MsgId = .ok true → p msg = false) ∧
        (msg.MsgDeliverCount > 1 → msg.MsgId ≠ "" →
          (∃ e, svc.CheckWorkflowRunnerByReferenceId msg.MsgId = .error e) → p msg = false) ∧
        (msg.MsgDeliverCount > 1 →
          svc.CheckWorkflowRunnerByReferenceId msg.MsgId = .ok false → p msg = true) := by
  refine ⟨rfl, ?_⟩
  intro p hp msg
  simp only [GetTriggerValidateFuncs, List.mem_singleton] at hp
  subst hp
  refine ⟨?_, ?_, ?_, ?_⟩
  · intro h1
    simp [duplicateTriggerValidateFunc, h1]
  · intro h1 h2 h3
    have hc : ¬ msg.MsgDeliverCount = 1 := by omega
    simp [duplicateTriggerValidateFunc, canInitiateTrigger, hc, h2, h3]
  · intro h1 h2 h3
    obtain ⟨e, he⟩ := h3
    have hc : ¬ msg.MsgDeliverCount = 1 := by omega
    simp [duplicateTriggerValidateFunc, canInitiateTrigger, hc, h2, he]
  · intro h1 h3
    have hc : ¬ msg.MsgDeliverCount = 1 := by omega
    by_cases h2 : msg.MsgId = ""
    · simp [duplicateTriggerValidateFunc, canInitiateTrigger, hc, h2]
    · simp [duplicateTriggerValidateFunc, canInitiateTrigger, hc, h2, h3]

/-- C14 at a concrete input: a message redelivered with the reference id of an existing run
is rejected by the predicate returned. -/
theorem C14_duplicate_trigger_guard_witness :
    duplicateTriggerValidateFunc (okRunnerServices runnerRunning [] ["msg-1"])
      { Data := "", MsgDeliverCount := 2, MsgId := "msg-1" } = false :=
  ((C14_duplicate_trigger_guard (okRunnerServices runnerRunning [] ["msg-1"])).2
    (duplicateTriggerValidateFunc (okRunnerServices runnerRunning [] ["msg-1"]))
    (List.mem_singleton.mpr rfl)
    { Data := "", MsgDeliverCount := 2, MsgId := "msg-1" }).2.1 (by decide) (by decide) rfl

/-! ## Deploy stage orchestrator: error statuses -/

theorem requestedStatuses_append (t u : List Event) :
    requestedStatuses (t ++ u) = requestedStatuses t ++ requestedStatuses u := by
  induction t with
  | nil => rfl
  | cons e t ih => cases e <;> simp [requestedStatuses, ih]

/-- C15 (amended): which error status `PerformDeployStage` requests before it returns. When
the repository secret creation fails, the error is returned and no status at all is
requested by the call; the bulk deploy loop that calls it then requests QueueError. When
the manifest generation or the Git commit fails, the first status requested is GitError;
when the sync fails, AcdError is requested; when the Helm install fails, the first status
requested is HelmError. -/
theorem C15_error_status_requested (svc : Services) (versions loaded : InstallAppVersionDTO)
    (user : Int)
    (hload : svc.GetInstalledAppVersion versions.InstalledAppVersionId user = .ok loaded) :
    (∀ e, IsAcdApp loaded.DeploymentAppType = true → gitStageStatus loaded.Status = true →
      svc.FindById loaded.AppStoreVersion = none →
      svc.CreateArgoRepoSecretIfNeeded = some e →
      (PerformDeployStage svc versions.InstalledAppVersionId
          versions.InstalledAppVersionHistoryId user).err = some e ∧
        requestedStatuses (PerformDeployStage svc versions.InstalledAppVersionId
          versions.InstalledAppVersionHistoryId user).trace = [] ∧
        requestedStatuses (deployDefaultComponentStep svc versions user) = [.QUE_ERROR]) ∧
    (∀ e, IsAcdApp loaded.DeploymentAppType = true → gitStageStatus loaded.Status = true →
      svc.FindById loaded.AppStoreVersion = none →
      svc.CreateArgoRepoSecretIfNeeded = none →
      svc.GenerateManifestAndPerformGitOperations
        { loaded with InstalledAppVersionHistoryId := versions.InstalledAppVersionHistoryId }
        = .error e →
      (requestedStatuses (PerformDeployStage svc versions.InstalledAppVersionId
          versions.InstalledAppVersionHistoryId user).trace).head? = some .GIT_ERROR) ∧
    (∀ e d a t, IsAcdApp loaded.DeploymentAppType = true →
      syncStageStatus loaded.Status = true →
      gitStage svc
        { loaded with InstalledAppVersionHistoryId := versions.InstalledAppVersionHistoryId }
        = .proceed d a t →
      svc.InstallApp d a = some e →
      AppstoreDeploymentStatus.ACD_ERROR ∈
        requestedStatuses (PerformDeployStage svc versions.InstalledAppVersionId
          versions.InstalledAppVersionHistoryId user).trace) ∧
    (∀ e, IsAcdApp loaded.DeploymentAppType = false →
      IsHelmApp loaded.DeploymentAppType = true →
      svc.InstallAppByHelm
        { loaded with InstalledAppVersionHistoryId := versions.InstalledAppVersionHistoryId }
        = some e →
      (requestedStatuses (PerformDeployStage svc versions.InstalledAppVersionId
          versions.InstalledAppVersionHistoryId user).trace).head? = some .HELM_ERROR) := by
  refine ⟨?_, ?_, ?_, ?_⟩
  · intro e hacd hst hfind hsec
    have h1 : PerformDeployStage svc versions.InstalledAppVersionId
        versions.InstalledAppVersionHistoryId user
        = { result := none, err := some e,
            trace := [.GetInstalledAppVersion versions.InstalledAppVersionId user,
              .SaveTimeline versions.InstalledAppVersionHistoryId .DEPLOYMENT_INITIATED
                (.text "Deployment initiated successfully."),
              .FindById loaded.AppStoreVersion, .CreateArgoRepoSecretIfNeeded] } := by
      simp only [PerformDeployStage, hload, hacd, performDeployStageOnAcd, gitStage, hst,
        hfind, hsec, if_true]
      rfl
    simp only [deployDefaultComponentStep, h1, requestedStatuses_append]
    simp [requestedStatuses, statusUpdateEvent]
  · intro e hacd hst hfind hsec hgit
    simp only [PerformDeployStage, hload, hacd, performDeployStageOnAcd, gitStage, hst,
      hfind, hsec, hgit, if_true]
    cases hu : svc.AppStoreDeployOperationStatusUpdate loaded.InstalledAppId .GIT_ERROR with
    | some e2 => simp [requestedStatuses, statusUpdateEvent]
    | none =>
      simp only [deploySuccessStep_trace, requestedStatuses_append]
      simp [requestedStatuses, statusUpdateEvent]
  · intro e d a t hacd hst hgit hsync
    obtain ⟨k1, k2⟩ := gitStage_proceed_fields svc _ d a t hgit
    simp only at k1 k2
    have hst2 : syncStageStatus d.Status = true := by rw [k1]; exact hst
    simp only [PerformDeployStage, hload, hacd, performDeployStageOnAcd, hgit, syncStage,
      hst2, hsync, if_true]
    cases hu : svc.AppStoreDeployOperationStatusUpdate d.InstalledAppId .ACD_ERROR with
    | some e2 => simp [requestedStatuses_append, requestedStatuses, statusUpdateEvent]
    | none =>
      simp only [deploySuccessStep_trace, requestedStatuses_append]
      simp [requestedStatuses, statusUpdateEvent]
  · intro e hacd hhelm hinst
    simp only [PerformDeployStage, hload, hacd, hhelm, hinst, if_true]
    simp [requestedStatuses, statusUpdateEvent]

/-- C15 at a concrete input: a GitOps-managed version with status Init whose repository
secret creation fails; the error is returned, the call requests no status and the bulk
deploy loop requests QueueError. -/
theorem C15_error_status_requested_witness :
    (PerformDeployStage (secretFailServices (sampleVersion "argo_cd" .DEPLOY_INIT)) 1 0 7).err
        = some "argocd: cannot create secret" ∧
      requestedStatuses
        (PerformDeployStage (secretFailServices (sampleVersion "argo_cd" .DEPLOY_INIT))
          1 0 7).trace = [] ∧
      requestedStatuses
        (deployDefaultComponentStep (secretFailServices (sampleVersion "argo_cd" .DEPLOY_INIT))
          (sampleVersion "argo_cd" .DEPLOY_INIT) 7) = [.QUE_ERROR] :=
  (C15_error_status_requested (secretFailServices (sampleVersion "argo_cd" .DEPLOY_INIT))
    (sampleVersion "argo_cd" .DEPLOY_INIT) (sampleVersion "argo_cd" .DEPLOY_INIT) 7 rfl).1
    "argocd: cannot create secret" (by decide) (by decide) rfl rfl

/-- C15 (counterexample): the claim as stated fails. For a GitOps-managed version loaded
with status Init whose repository secret creation fails, `PerformDeployStage` returns that
error and the call has persisted no status: no status update was even requested. -/
theorem C15_counterexample :
    (PerformDeployStage (secretFailServices (sampleVersion "argo_cd" .DEPLOY_INIT)) 1 10 7).err
        = some "argocd: cannot create secret" ∧
      persistedStatuses
        (PerformDeployStage (secretFailServices (sampleVersion "argo_cd" .DEPLOY_INIT))
          1 10 7).trace = [] ∧
      requestedStatuses
        (PerformDeployStage (secretFailServices (sampleVersion "argo_cd" .DEPLOY_INIT))
          1 10 7).trace = [] := by
  decide

/-! ## Workflow stage tracker: direction of the pod stage transitions -/

theorem nextPodStageStatus_backwards (podStatus : String) (st : WorkflowStageStatus) :
    stageRank (nextPodStageStatus podStatus st) < stageRank st ↔
      (podStatus = NodePending ∧ (st = .RUNNING ∨ st = .UNKNOWN)) ∨
        (podStatus = NodeRunning ∧ st = .UNKNOWN) := by
  by_cases h1 : podStatus = NodePending
  · subst h1
    cases st <;> decide
  by_cases h2 : podStatus = NodeRunning
  · subst h2
    cases st <;> decide
  by_cases h3 : podStatus = NodeSucceeded
  · subst h3
    cases st <;> decide
  by_cases h4 : podStatus = NodeFailed
  · subst h4
    cases st <;> decide
  by_cases h5 : podStatus = NodeError
  · subst h5
    cases st <;> decide
  · have hn : nextPodStageStatus podStatus st = .UNKNOWN := by
      simp [nextPodStageStatus, h1, h2, h3, h4, h5]
    rw [hn]
    cases st <;> simp [stageRank, h1, h2]

theorem nextPodStageStatus_terminal_rank (podStatus : String) (st : WorkflowStageStatus)
    (ht : st.IsTerminal = true) :
    stageRank (nextPodStageStatus podStatus st) = 2 := by
  have hb := nextPodStageStatus_backwards podStatus st
  have hr : stageRank st = 2 := by
    cases st <;> first | rfl | exact absurd ht (by decide)
  have hle : stageRank (nextPodStageStatus podStatus st) ≤ 2 := by
    cases nextPodStageStatus podStatus st <;> decide
  have hnot : ¬ stageRank (nextPodStageStatus podStatus st) < stageRank st := by
    rw [hb]
    rintro (⟨-, h | h⟩ | ⟨-, h⟩) <;> subst h <;> exact absurd ht (by decide)
  omega

/-- C17 (amended): direction of the pod-stage transitions in the order NotStarted, Running,
then Succeeded, Failed, Timeout, Aborted, Unknown. For every pod-level stage and every
incoming pod phase, `updatePodStages` moves the stage backwards in exactly three cases:
the phase Pending resets a stage that is Running or Unknown to NotStarted, and the phase
Running restarts a stage that is Unknown. A stage that is Succeeded, Failed, Timeout or
Aborted is never moved to NotStarted or Running. -/
theorem C17_pod_stage_direction (h : StageHelpers) (now : String)
    (stages : List WorkflowExecutionStage) (podStatus currentPodStatus message podName : String) :
    List.Forall₂
      (fun before after =>
        before.StatusFor = .POD →
          (stageRank after.Status < stageRank before.Status ↔
            (podStatus = NodePending ∧
              (before.Status = .RUNNING ∨ before.Status = .UNKNOWN)) ∨
            (podStatus = NodeRunning ∧ before.Status = .UNKNOWN)) ∧
          (before.Status.IsTerminal = true → stageRank after.Status = 2))
      stages (updatePodStages h now stages podStatus currentPodStatus message podName).1 := by
  simp only [updatePodStages]
  induction stages with
  | nil => exact List.Forall₂.nil
  | cons s rest ih =>
    refine List.Forall₂.cons ?_ ih
    intro hpod
    rw [updatePodStage_status]
    simp only [hpod, if_true]
    exact ⟨nextPodStageStatus_backwards podStatus s.Status,
      nextPodStageStatus_terminal_rank podStatus s.Status⟩

/-- C17 at a concrete input: a pod-readiness stage that is Succeeded stays among the closing
statuses when an unrecognised phase comes in. -/
theorem C17_pod_stage_direction_witness :
    stageRank (updatePodStage "2024-01-01T00:00:00Z" "Unknown" "" "pod-1"
      (podStage .SUCCEEDED)).Status = 2 :=
  ((List.forall₂_cons.mp
    (C17_pod_stage_direction sampleHelpers "2024-01-01T00:00:00Z" [podStage .SUCCEEDED]
      "Unknown" "Running" "" "pod-1")).1 rfl).2 rfl

/-- C17 (counterexample): the claim as stated fails. A pod-readiness stage that is Running
is set back to NotStarted by the pod phase Pending. -/
theorem C17_counterexample :
    (updatePodStages sampleHelpers "2024-01-01T00:00:00Z" [podStage .RUNNING] NodePending
        "Running" "" "pod-1").1.map (fun s => s.Status) = [WorkflowStageStatus.NOT_STARTED] := by
  decide

/-- C18 (amended): what the recorded pod status gates in `updatePodStages`. The returned pod
status is the recorded one when the recorded one is in the runner terminal-status list,
and the incoming pod phase otherwise. The stages do not depend on the recorded pod status:
they are updated from the incoming phase and their own status, whatever was recorded. -/
theorem C18_recorded_pod_status_gate (h : StageHelpers) (now : String)
    (stages : List WorkflowExecutionStage) (podStatus currentPodStatus message podName : String) :
    (h.WfrTerminalStatusList.contains currentPodStatus = true →
      (updatePodStages h now stages podStatus currentPodStatus message podName).2
        = currentPodStatus) ∧
    (h.WfrTerminalStatusList.contains currentPodStatus = false →
      (updatePodStages h now stages podStatus currentPodStatus message podName).2
        = podStatus) ∧
    (∀ recorded : String,
      (updatePodStages h now stages podStatus recorded message podName).1
        = (updatePodStages h now stages podStatus currentPodStatus message podName).1) ∧
    (updatePodStages h now stages podStatus currentPodStatus message podName).1.map
        (fun s => s.Status)
      = stages.map (fun s =>
          if s.StatusFor = .POD then nextPodStageStatus podStatus s.Status else s.Status) := by
  refine ⟨?_, ?_, ?_, ?_⟩
  · intro ht
    simp only [updatePodStages, ht]
    rfl
  · intro hn
    simp only [updatePodStages, hn]
    rfl
  · intro recorded
    rfl
  · simp only [updatePodStages, List.map_map]
    apply List.map_congr_left
    intro s _
    simp only [Function.comp, updatePodStage_status]

/-- C18 at a concrete input: the recorded pod status Succeeded is terminal and the phase
Running comes in; the returned pod status is still Succeeded. -/
theorem C18_recorded_pod_status_gate_witness :
    (updatePodStages sampleHelpers "2024-01-01T00:00:00Z" [podStage .NOT_STARTED] NodeRunning
        "Succeeded" "" "pod-1").2 = "Succeeded" :=
  (C18_recorded_pod_status_gate sampleHelpers "2024-01-01T00:00:00Z" [podStage .NOT_STARTED]
    NodeRunning "Succeeded" "" "pod-1").1 (by decide)

/-- C18 (counterexample): the claim as stated fails. With the terminal recorded pod status
Succeeded and the incoming phase Running, the returned pod status is the recorded one, but
the pod-readiness stage that was NotStarted is moved to Running. -/
theorem C18_counterexample :
    sampleHelpers.WfrTerminalStatusList.contains "Succeeded" = true ∧
      (updatePodStages sampleHelpers "2024-01-01T00:00:00Z" [podStage .NOT_STARTED] NodeRunning
        "Succeeded" "" "pod-1").2 = "Succeeded" ∧
      (updatePodStages sampleHelpers "2024-01-01T00:00:00Z" [podStage .NOT_STARTED] NodeRunning
        "Succeeded" "" "pod-1").1.map (fun s => s.Status) = [WorkflowStageStatus.RUNNING] := by
  decide

/-! ## Runner status updates: marking a run failed, superseding queued runs -/

theorem markFailedMetrics_facts (svc : RunnerServices) (runner : CdWorkflowRunner)
    (t : List RunnerEvent) :
    (markFailedMetrics svc runner t).runner = runner ∧
      (markFailedMetrics svc runner t).trace.filter isTimelineMark = t.filter isTimelineMark ∧
      (markFailedMetrics svc runner t).trace.filter isRunnerWrite
        = t.filter isRunnerWrite := by
  simp only [markFailedMetrics]
  repeat' split
  all_goals simp [isTimelineMark, isRunnerWrite]

/-- C19 (amended): for every run whose status is not in the runner terminal-status list,
`MarkCurrentDeploymentFailed` sets the run's status to Failed, its message to the message
derived from the error and its finish time to now, and hands the run to the persistence
write exactly once. If that write fails its error is returned and no timeline entry is
recorded. If it succeeds and the run is of the deploy stage type, exactly one timeline
classification is recorded for the run: superseded when the error is or wraps the
supersession sentinel, otherwise failed with the detail extracted from the error. If it
succeeds and the run is of another stage type, no timeline entry is recorded and no error
is returned. -/
theorem C19_mark_failed (svc : RunnerServices) (now : Nat) (runner : CdWorkflowRunner)
    (releaseErr : Option ReleaseError) (triggeredBy : Int)
    (hn : svc.WfrTerminalStatusList.contains runner.Status = false) :
    (MarkCurrentDeploymentFailed svc now runner releaseErr triggeredBy).runner
        = { runner with
            Status := WorkflowFailed,
            Message := svc.GetClientErrorDetailedMessage releaseErr,
            FinishedOn := now, UpdatedOn := now, UpdatedBy := triggeredBy } ∧
      (MarkCurrentDeploymentFailed svc now runner releaseErr triggeredBy).trace.filter
          isRunnerWrite
        = [.UpdateCdWorkflowRunnerWithStage
            (MarkCurrentDeploymentFailed svc now runner releaseErr triggeredBy).runner] ∧
      (∀ e,
        svc.UpdateCdWorkflowRunnerWithStage
            (MarkCurrentDeploymentFailed svc now runner releaseErr triggeredBy).runner
          = some e →
        (MarkCurrentDeploymentFailed svc now runner releaseErr triggeredBy).err = some e ∧
        (MarkCurrentDeploymentFailed svc now runner releaseErr triggeredBy).trace.filter
          isTimelineMark = []) ∧
      (svc.UpdateCdWorkflowRunnerWithStage
            (MarkCurrentDeploymentFailed svc now runner releaseErr triggeredBy).runner
          = none →
        runner.WorkflowType.IsStageTypeDeploy = true →
        (MarkCurrentDeploymentFailed svc now runner releaseErr triggeredBy).trace.filter
          isTimelineMark
          = [if errorsIsSuperseded releaseErr = true then
              .MarkPipelineStatusTimelineSuperseded runner.Id
            else
              .MarkPipelineStatusTimelineFailed runner.Id
                (extractTimelineFailedStatusDetails svc releaseErr)]) ∧
      (svc.UpdateCdWorkflowRunnerWithStage
            (MarkCurrentDeploymentFailed svc now runner releaseErr triggeredBy).runner
          = none →
        runner.WorkflowType.IsStageTypeDeploy = false →
        (MarkCurrentDeploymentFailed svc now runner releaseErr triggeredBy).err = none ∧
        (MarkCurrentDeploymentFailed svc now runner releaseErr triggeredBy).trace.filter
          isTimelineMark = []) := by
  have hrun : (MarkCurrentDeploymentFailed svc now runner releaseErr triggeredBy).runner
      = { runner with
          Status := WorkflowFailed,
          Message := svc.GetClientErrorDetailedMessage releaseErr,
          FinishedOn := now, UpdatedOn := now, UpdatedBy := triggeredBy } := by
    simp only [MarkCurrentDeploymentFailed, hn, Bool.false_eq_true, if_false, UpdateAuditLog]
    repeat' split
    all_goals first
      | rfl
      | exact (markFailedMetrics_facts svc _ _).1
  rw [hrun]
  refine ⟨rfl, ?_, ?_, ?_, ?_⟩
  · simp only [MarkCurrentDeploymentFailed, hn, Bool.false_eq_true, if_false, UpdateAuditLog]
    repeat' split
    all_goals simp only [(markFailedMetrics_facts svc _ _).2.2]
    all_goals simp [isRunnerWrite]
  · intro e he
    simp only [MarkCurrentDeploymentFailed, hn, Bool.false_eq_true, if_false, UpdateAuditLog,
      he]
    simp [isTimelineMark]
  · intro hu hd
    simp only [MarkCurrentDeploymentFailed, hn, Bool.false_eq_true, if_false, UpdateAuditLog,
      hu, hd, if_true]
    cases hs : errorsIsSuperseded releaseErr with
    | true =>
      simp only [if_true]
      split
      · simp [isTimelineMark]
      · rw [(markFailedMetrics_facts svc _ _).2.1]; simp [isTimelineMark]
    | false =>
      simp only [Bool.false_eq_true, if_false]
      split
      · simp [isTimelineMark]
      · rw [(markFailedMetrics_facts svc _ _).2.1]; simp [isTimelineMark]
  · intro hu hd
    simp only [MarkCurrentDeploymentFailed, hn, Bool.false_eq_true, if_false, UpdateAuditLog,
      hu, hd]
    simp [isTimelineMark]

/-- C19 at a concrete input: a running deploy-stage run marked failed with an error that
wraps the supersession sentinel; one timeline entry, superseded, is recorded. -/
theorem C19_mark_failed_witness :
    (MarkCurrentDeploymentFailed (okRunnerServices runnerDeployStage [] []) 100
        runnerDeployStage (some (.wrap "release failed" .ErrorDeploymentSuperseded))
        8).trace.filter isTimelineMark
      = [.MarkPipelineStatusTimelineSuperseded 4] :=
  (C19_mark_failed (okRunnerServices runnerDeployStage [] []) 100 runnerDeployStage
    (some (.wrap "release failed" .ErrorDeploymentSuperseded)) 8 (by decide)).2.2.2.1 rfl rfl

/-- C19 (counterexample): the claim as stated fails. A running run of the pre-deployment
stage is set to Failed and persisted, no error is returned, and no timeline classification
is recorded for it. -/
theorem C19_counterexample :
    (okRunnerServices runnerPreStage [] []).WfrTerminalStatusList.contains
        runnerPreStage.Status = false ∧
      (MarkCurrentDeploymentFailed (okRunnerServices runnerPreStage [] []) 100 runnerPreStage
        (some (.other "pre stage failed")) 8).err = none ∧
      (MarkCurrentDeploymentFailed (okRunnerServices runnerPreStage [] []) 100 runnerPreStage
        (some (.other "pre stage failed")) 8).runner.Status = "Failed" ∧
      (MarkCurrentDeploymentFailed (okRunnerServices runnerPreStage [] []) 100 runnerPreStage
        (some (.other "pre stage failed")) 8).trace.filter isTimelineMark = [] := by
  decide

theorem supersededMarks_append (t u : List RunnerEvent) :
    supersededMarks (t ++ u) = supersededMarks t ++ supersededMarks u := by
  induction t with
  | nil => rfl
  | cons e t ih => cases e <;> simp [supersededMarks, ih]

theorem bulkUpdates_append (t u : List RunnerEvent) :
    bulkUpdates (t ++ u) = bulkUpdates t ++ bulkUpdates u := by
  induction t with
  | nil => rfl
  | cons e t ih => cases e <;> simp [bulkUpdates, ih]

theorem getLast_cons_concat (a : RunnerEvent) (t : List RunnerEvent) (x : RunnerEvent) :
    (a :: (t ++ [x])).getLast? = some x := by
  rw [← List.cons_append]
  exact List.getLast?_concat _

theorem queuedRunnerBody_trace (svc : RunnerServices) (pipelineId : Int)
    (r : CdWorkflowRunner) :
    supersededMarks (queuedRunnerBody svc pipelineId r).2 = [r.Id] ∧
      bulkUpdates (queuedRunnerBody svc pipelineId r).2 = [] := by
  simp only [queuedRunnerBody]
  repeat' split
  all_goals simp [supersededMarks, bulkUpdates]

theorem queuedRunnerBody_ok (svc : RunnerServices) (pipelineId : Int) (r : CdWorkflowRunner) :
    (queuedRunnerBody svc pipelineId r).1 = none ↔ queuedRunnerOk svc pipelineId r := by
  simp only [queuedRunnerBody, queuedRunnerOk, queuedPipeline]
  repeat' split
  all_goals simp_all

theorem queuedRunnerLoop_trace (svc : RunnerServices) (pipelineId : Int)
    (runners : List CdWorkflowRunner) :
    bulkUpdates (queuedRunnerLoop svc pipelineId runners).2.2 = [] := by
  induction runners with
  | nil => rfl
  | cons r rest ih =>
    have hb := (queuedRunnerBody_trace svc pipelineId r).2
    simp only [queuedRunnerLoop]
    split
    · rename_i e t heq
      rw [heq] at hb
      exact hb
    · rename_i t heq
      rw [heq] at hb
      simp only [bulkUpdates_append]
      rw [hb, ih]
      rfl

theorem queuedRunnerLoop_ok (svc : RunnerServices) (pipelineId : Int)
    (runners : List CdWorkflowRunner)
    (hall : ∀ r ∈ runners, queuedRunnerOk svc pipelineId r) :
    (queuedRunnerLoop svc pipelineId runners).1 = none ∧
      (queuedRunnerLoop svc pipelineId runners).2.1 = runners.map (fun r => r.Id) ∧
      supersededMarks (queuedRunnerLoop svc pipelineId runners).2.2
        = runners.map (fun r => r.Id) := by
  induction runners with
  | nil => exact ⟨rfl, rfl, rfl⟩
  | cons r rest ih =>
    have hr := (queuedRunnerBody_ok svc pipelineId r).mpr (hall r (List.mem_cons_self r rest))
    have hm := (queuedRunnerBody_trace svc pipelineId r).1
    obtain ⟨i1, i2, i3⟩ := ih (fun x hx => hall x (List.mem_cons_of_mem r hx))
    simp only [queuedRunnerLoop]
    split
    · rename_i e t heq
      rw [heq] at hr
      cases hr
    · rename_i t heq
      rw [heq] at hm
      simp only [supersededMarks_append, List.map_cons]
      rw [hm, i1, i2, i3]
      exact ⟨rfl, rfl, rfl⟩

theorem queuedRunnerLoop_fail (svc : RunnerServices) (pipelineId : Int)
    (runners : List CdWorkflowRunner)
    (hex : ∃ r ∈ runners, ¬ queuedRunnerOk svc pipelineId r) :
    ∃ r ∈ runners, ¬ queuedRunnerOk svc pipelineId r ∧
      (queuedRunnerLoop svc pipelineId runners).1 = (queuedRunnerBody svc pipelineId r).1 ∧
      ((queuedRunnerLoop svc pipelineId runners).1).isSome = true := by
  induction runners with
  | nil =>
    obtain ⟨r, hr, -⟩ := hex
    cases hr
  | cons r rest ih =>
    by_cases hok : queuedRunnerOk svc pipelineId r
    · have hrest : ∃ x ∈ rest, ¬ queuedRunnerOk svc pipelineId x := by
        obtain ⟨x, hx, hnx⟩ := hex
        rcases List.mem_cons.mp hx with rfl | hx2
        · exact absurd hok hnx
        · exact ⟨x, hx2, hnx⟩
      obtain ⟨x, hx, hnx, h1, h2⟩ := ih hrest
      have hr := (queuedRunnerBody_ok svc pipelineId r).mpr hok
      refine ⟨x, List.mem_cons_of_mem r hx, hnx, ?_, ?_⟩
      · simp only [queuedRunnerLoop]
        split
        · rename_i e t heq
          rw [heq] at hr
          cases hr
        · exact h1
      · simp only [queuedRunnerLoop]
        split
        · rfl
        · exact h2
    · have hr : (queuedRunnerBody svc pipelineId r).1 ≠ none :=
        fun h => hok ((queuedRunnerBody_ok svc pipelineId r).mp h)
      refine ⟨r, List.mem_cons_self r rest, hok, ?_, ?_⟩
      · simp only [queuedRunnerLoop]
        split
        · rename_i e t heq
          rw [heq]
        · rename_i t heq
          rw [heq] at hr
          exact absurd rfl hr
      · simp only [queuedRunnerLoop]
        split
        · rfl
        · rename_i t heq
          rw [heq] at hr
          exact absurd rfl hr

/-- C20: `UpdatePreviousQueuedRunnerStatus` on the queued runners returned for the pipeline.
When every collaborator call of the loop succeeds for every runner, the runners marked
superseded in their timeline are exactly the queued runners, once each and in order; the
bulk update to Failed is invoked exactly once, as the last call, with exactly their ids in
order, and its result is returned. When marking the timeline, loading the pipeline or
loading the deployment config fails for some runner, the error of the first such failure
is returned and the bulk update is not invoked. -/
theorem C20_queued_runners_superseded (svc : RunnerServices) (cdWfrId pipelineId : Int)
    (triggeredBy : Int) (runners : List CdWorkflowRunner)
    (hget : svc.GetPreviousQueuedRunners cdWfrId pipelineId = .ok runners) :
    ((∀ r ∈ runners, queuedRunnerOk svc pipelineId r) →
      supersededMarks (UpdatePreviousQueuedRunnerStatus svc cdWfrId pipelineId triggeredBy).trace
        = runners.map (fun r => r.Id) ∧
      bulkUpdates (UpdatePreviousQueuedRunnerStatus svc cdWfrId pipelineId triggeredBy).trace
        = [runners.map (fun r => r.Id)] ∧
      (UpdatePreviousQueuedRunnerStatus svc cdWfrId pipelineId triggeredBy).trace.getLast?
        = some (.UpdateRunnerStatusToFailedForIds ErrorDeploymentSuperseded triggeredBy
            (runners.map (fun r => r.Id))) ∧
      (UpdatePreviousQueuedRunnerStatus svc cdWfrId pipelineId triggeredBy).err
        = svc.UpdateRunnerStatusToFailedForIds ErrorDeploymentSuperseded triggeredBy
            (runners.map (fun r => r.Id))) ∧
    ((∃ r ∈ runners, ¬ queuedRunnerOk svc pipelineId r) →
      (∃ r ∈ runners, ¬ queuedRunnerOk svc pipelineId r ∧
        (UpdatePreviousQueuedRunnerStatus svc cdWfrId pipelineId triggeredBy).err
          = (queuedRunnerBody svc pipelineId r).1) ∧
      ((UpdatePreviousQueuedRunnerStatus svc cdWfrId pipelineId triggeredBy).err).isSome
        = true ∧
      bulkUpdates (UpdatePreviousQueuedRunnerStatus svc cdWfrId pipelineId triggeredBy).trace
        = []) := by
  have hbulk := queuedRunnerLoop_trace svc pipelineId runners
  constructor
  · intro hall
    obtain ⟨h1, h2, h3⟩ := queuedRunnerLoop_ok svc pipelineId runners hall
    simp only [UpdatePreviousQueuedRunnerStatus, hget]
    split
    · rename_i e ids t heq
      rw [heq] at h1
      cases h1
    · rename_i ids t heq
      rw [heq] at h2 h3 hbulk
      simp only at h2 h3 hbulk
      subst h2
      simp [supersededMarks_append, bulkUpdates_append, supersededMarks, bulkUpdates, h3,
        hbulk, getLast_cons_concat]
  · intro hex
    obtain ⟨r, hr, hnr, h1, h2⟩ := queuedRunnerLoop_fail svc pipelineId runners hex
    simp only [UpdatePreviousQueuedRunnerStatus, hget]
    split
    · rename_i e ids t heq
      rw [heq] at h1 hbulk
      simp only at h1 hbulk
      refine ⟨⟨r, hr, hnr, h1⟩, rfl, ?_⟩
      simp [bulkUpdates_append, bulkUpdates, hbulk]
    · rename_i ids t heq
      rw [heq] at h2
      cases h2

/-- C20 at a concrete input: two queued runners, one with its pipeline attached and one
without; every call succeeds, both are marked superseded and the bulk update gets the ids
3 and 4. -/
theorem C20_queued_runners_superseded_witness :
    supersededMarks (UpdatePreviousQueuedRunnerStatus
        (okRunnerServices runnerRunning queuedSample []) 9 4 8).trace = [3, 4] ∧
      bulkUpdates (UpdatePreviousQueuedRunnerStatus
        (okRunnerServices runnerRunning queuedSample []) 9 4 8).trace = [[3, 4]] :=
  have h := (C20_queued_runners_superseded (okRunnerServices runnerRunning queuedSample [])
    9 4 8 queuedSample rfl).1
    (by
      intro r hr
      simp only [queuedSample, List.mem_cons, List.mem_singleton, List.not_mem_nil,
        or_false] at hr
      rcases hr with rfl | rfl
      · exact ⟨rfl, { AppId := 11, EnvironmentId := 2 }, rfl, rfl⟩
      · exact ⟨rfl, { AppId := 11, EnvironmentId := 2 }, rfl, rfl⟩)
  ⟨h.1, h.2.1⟩

/-! ## Workflow stage tracker: the disabled feature -/

/-- C21: when workflow execution stage tracking is disabled by configuration,
`UpdateWorkflowStages` returns the workflow status and the pod status it was given, with
no error, for every input, and makes no call to a repository: no stage record and no
recorded run is read, nothing is written. -/
theorem C21_disabled_stage_tracking (h : StageHelpers) (svc : StageServices) (now : String)
    (wfId : Int) (wfType wfStatus podStatus message podName : String)
    (hoff : svc.EnableWorkflowExecutionStage = false) :
    UpdateWorkflowStages h svc now wfId wfType wfStatus podStatus message podName
      = { wfStatus := wfStatus, podStatus := podStatus, err := none, trace := [] } := by
  simp only [UpdateWorkflowStages, hoff, Bool.false_eq_true, if_false]

/-- C21 at a concrete input: tracking disabled, a CI workflow reported Running. -/
theorem C21_disabled_stage_tracking_witness :
    UpdateWorkflowStages sampleHelpers (sampleStageServices false) "2024-01-01T00:00:00Z" 12
        "CI" "Running" "Running" "" "pod-1"
      = { wfStatus := "Running", podStatus := "Running", err := none, trace := [] } :=
  C21_disabled_stage_tracking sampleHelpers (sampleStageServices false) "2024-01-01T00:00:00Z"
    12 "CI" "Running" "Running" "" "pod-1" rfl

/-! ## Deploy stage orchestrator: best-effort timeline, full success, other types -/

/-- C22: the `deployment initiated` timeline write is best-effort. Whatever the other
collaborators do, replacing the answers of `SaveTimeline` by any others (success or
failure) leaves the whole outcome of `PerformDeployStage` as it is: the value returned,
the error returned, the statuses persisted and the calls made. -/
theorem C22_timeline_write_best_effort (svc : Services)
    (saveTimeline : TimelineStatus → Option GoError) (id hist user : Int) :
    (PerformDeployStage { svc with SaveTimeline := saveTimeline } id hist user).result
        = (PerformDeployStage svc id hist user).result ∧
      (PerformDeployStage { svc with SaveTimeline := saveTimeline } id hist user).err
        = (PerformDeployStage svc id hist user).err ∧
      persistedStatuses
          (PerformDeployStage { svc with SaveTimeline := saveTimeline } id hist user).trace
        = persistedStatuses (PerformDeployStage svc id hist user).trace ∧
      PerformDeployStage { svc with SaveTimeline := saveTimeline } id hist user
        = PerformDeployStage svc id hist user := by
  have key : PerformDeployStage { svc with SaveTimeline := saveTimeline } id hist user
      = PerformDeployStage svc id hist user := rfl
  rw [key]
  exact ⟨rfl, rfl, rfl, rfl⟩

/-- C23: full success. For a GitOps-managed version loaded with status Init, when every
collaborator call succeeds, the statuses persisted by `PerformDeployStage` are, in order,
GitSuccess, AcdSuccess, DeploySuccess, and the version is returned (with the history id
and the new git hash) with no error. For a Helm-managed version whose install and
DeploySuccess update succeed, the only status persisted is DeploySuccess and the version
is returned with no error. -/
theorem C23_full_success (svc : Services) (id hist user : Int) (loaded : InstallAppVersionDTO)
    (hload : svc.GetInstalledAppVersion id user = .ok loaded) :
    (∀ resp, IsAcdApp loaded.DeploymentAppType = true → loaded.Status = .DEPLOY_INIT →
      svc.FindById loaded.AppStoreVersion = none →
      svc.CreateArgoRepoSecretIfNeeded = none →
      svc.GenerateManifestAndPerformGitOperations
        { loaded with InstalledAppVersionHistoryId := hist } = .ok resp →
      (∀ s, svc.AppStoreDeployOperationStatusUpdate loaded.InstalledAppId s = none) →
      svc.Begin = none →
      svc.UpdateInstalledAppVersionHistoryWithGitHash hist loaded.GitHash = none →
      (∀ d a, svc.InstallApp d a = none) →
      persistedStatuses (PerformDeployStage svc id hist user).trace
          = [.GIT_SUCCESS, .ACD_SUCCESS, .DEPLOY_SUCCESS] ∧
        (PerformDeployStage svc id hist user).err = none ∧
        (PerformDeployStage svc id hist user).result
          = some { loaded with
              InstalledAppVersionHistoryId := hist, GitHash := resp.GitHash }) ∧
    (IsAcdApp loaded.DeploymentAppType = false → IsHelmApp loaded.DeploymentAppType = true →
      svc.InstallAppByHelm { loaded with InstalledAppVersionHistoryId := hist } = none →
      svc.AppStoreDeployOperationStatusUpdate loaded.InstalledAppId .DEPLOY_SUCCESS = none →
      persistedStatuses (PerformDeployStage svc id hist user).trace = [.DEPLOY_SUCCESS] ∧
        (PerformDeployStage svc id hist user).err = none ∧
        (PerformDeployStage svc id hist user).result
          = some { loaded with InstalledAppVersionHistoryId := hist }) := by
  constructor
  · intro resp hacd hst hfind hsec hgit hupd hbegin hhist hsync
    have hst2 : gitStageStatus loaded.Status = true := by rw [hst]; rfl
    have hst3 : syncStageStatus loaded.Status = true := by rw [hst]; rfl
    simp only [PerformDeployStage, hload, hacd, performDeployStageOnAcd, gitStage, hst2,
      hfind, hsec, hgit, hupd, hbegin, hhist, syncStage, hst3, hsync, if_true,
      deploySuccessStep]
    simp [statusUpdateEvent, persistedStatuses]
  · intro hacd hhelm hinst hdep
    simp only [PerformDeployStage, hload, hacd, hhelm, hinst, hdep, deploySuccessStep,
      if_true, Bool.false_eq_true, if_false]
    simp [statusUpdateEvent, persistedStatuses]

/-- C23 at a concrete input: a GitOps-managed version with status Init, every call
succeeds. -/
theorem C23_full_success_witness :
    persistedStatuses
        (PerformDeployStage (okServices (sampleVersion "argo_cd" .DEPLOY_INIT)) 1 10 7).trace
        = [.GIT_SUCCESS, .ACD_SUCCESS, .DEPLOY_SUCCESS] ∧
      (PerformDeployStage (okServices (sampleVersion "argo_cd" .DEPLOY_INIT)) 1 10 7).err
        = none ∧
      (PerformDeployStage (okServices (sampleVersion "argo_cd" .DEPLOY_INIT)) 1 10 7).result
        = some { sampleVersion "argo_cd" .DEPLOY_INIT with
            InstalledAppVersionHistoryId := 10, GitHash := "abc123" } :=
  (C23_full_success (okServices (sampleVersion "argo_cd" .DEPLOY_INIT)) 1 10 7
    (sampleVersion "argo_cd" .DEPLOY_INIT) rfl).1
    { ChartGitAttribute :=
        { RepoUrl := "https://git.example/charts.git",
          TargetRevision := "master",
          ChartLocation := "demo-prod" },
      GitHash := "abc123" }
    (by decide) rfl rfl rfl rfl (fun _ => rfl) rfl rfl (fun _ _ => rfl)

/-- C28 (amended): for a version whose deployment app type is neither GitOps nor Helm,
`PerformDeployStage` makes two calls only, the load of the version and the status update to
DeploySuccess: no Git, sync or install operation is invoked and no timeline entry is
written. When that update succeeds, DeploySuccess is the status persisted and the version
is returned with no error; when it fails, no status is persisted, no version is returned
and the error of the update is returned. -/
theorem C28_other_deployment_type (svc : Services) (id hist user : Int)
    (loaded : InstallAppVersionDTO)
    (hload : svc.GetInstalledAppVersion id user = .ok loaded)
    (hacd : IsAcdApp loaded.DeploymentAppType = false)
    (hhelm : IsHelmApp loaded.DeploymentAppType = false) :
    (PerformDeployStage svc id hist user).trace
        = [.GetInstalledAppVersion id user,
            .AppStoreDeployOperationStatusUpdate loaded.InstalledAppId .DEPLOY_SUCCESS
              (svc.AppStoreDeployOperationStatusUpdate loaded.InstalledAppId
                .DEPLOY_SUCCESS).isNone] ∧
      (PerformDeployStage svc id hist user).trace.any isGitOperation = false ∧
      (PerformDeployStage svc id hist user).trace.any isInstallApp = false ∧
      Event.InstallAppByHelm ∉ (PerformDeployStage svc id hist user).trace ∧
      savedTimelines (PerformDeployStage svc id hist user).trace = [] ∧
      (PerformDeployStage svc id hist user).trace.any isGitTimeline = false ∧
      requestedStatuses (PerformDeployStage svc id hist user).trace = [.DEPLOY_SUCCESS] ∧
      (svc.AppStoreDeployOperationStatusUpdate loaded.InstalledAppId .DEPLOY_SUCCESS = none →
        persistedStatuses (PerformDeployStage svc id hist user).trace = [.DEPLOY_SUCCESS] ∧
        (PerformDeployStage svc id hist user).err = none ∧
        (PerformDeployStage svc id hist user).result
          = some { loaded with InstalledAppVersionHistoryId := hist }) ∧
      (∀ e,
        svc.AppStoreDeployOperationStatusUpdate loaded.InstalledAppId .DEPLOY_SUCCESS
          = some e →
        persistedStatuses (PerformDeployStage svc id hist user).trace = [] ∧
        (PerformDeployStage svc id hist user).err = some e ∧
        (PerformDeployStage svc id hist user).result = none) := by
  simp only [PerformDeployStage, hload, hacd, hhelm, deploySuccessStep,
    Bool.false_eq_true, if_false]
  cases hdep : svc.AppStoreDeployOperationStatusUpdate loaded.InstalledAppId .DEPLOY_SUCCESS <;>
    simp [statusUpdateEvent, persistedStatuses, requestedStatuses, savedTimelines,
      isGitOperation, isInstallApp, isGitTimeline]

/-- C28 at a concrete input: a version of deployment type `manifest_download`, every call
succeeds; the two calls are made, DeploySuccess is persisted and the version is returned
with no error. -/
theorem C28_other_deployment_type_witness :
    (PerformDeployStage (okServices (sampleVersion "manifest_download" .DEPLOY_INIT))
        1 10 7).trace
        = [.GetInstalledAppVersion 1 7,
            .AppStoreDeployOperationStatusUpdate 5 .DEPLOY_SUCCESS true] ∧
      persistedStatuses (PerformDeployStage
        (okServices (sampleVersion "manifest_download" .DEPLOY_INIT)) 1 10 7).trace
        = [.DEPLOY_SUCCESS] ∧
      (PerformDeployStage (okServices (sampleVersion "manifest_download" .DEPLOY_INIT))
        1 10 7).err = none ∧
      (PerformDeployStage (okServices (sampleVersion "manifest_download" .DEPLOY_INIT))
        1 10 7).result
        = some { sampleVersion "manifest_download" .DEPLOY_INIT with
            InstalledAppVersionHistoryId := 10 } :=
  have h := C28_other_deployment_type
    (okServices (sampleVersion "manifest_download" .DEPLOY_INIT)) 1 10 7
    (sampleVersion "manifest_download" .DEPLOY_INIT) rfl (by decide) (by decide)
  ⟨h.1, h.2.2.2.2.2.2.2.1 rfl⟩

/-- C28 (counterexample): the claim as stated fails. For a version of deployment type
`manifest_download`, which is neither GitOps nor Helm, a failing status update to
DeploySuccess makes `PerformDeployStage` return the error of the update and no version,
and no status is persisted. -/
theorem C28_counterexample :
    IsAcdApp (sampleVersion "manifest_download" .DEPLOY_INIT).DeploymentAppType = false ∧
      IsHelmApp (sampleVersion "manifest_download" .DEPLOY_INIT).DeploymentAppType = false ∧
      (PerformDeployStage
        (deployStatusFailServices (sampleVersion "manifest_download" .DEPLOY_INIT))
        1 10 7).trace
        = [.GetInstalledAppVersion 1 7,
            .AppStoreDeployOperationStatusUpdate 5 .DEPLOY_SUCCESS false] ∧
      persistedStatuses (PerformDeployStage
        (deployStatusFailServices (sampleVersion "manifest_download" .DEPLOY_INIT))
        1 10 7).trace = [] ∧
      (PerformDeployStage
        (deployStatusFailServices (sampleVersion "manifest_download" .DEPLOY_INIT))
        1 10 7).err = some "pg: connection reset" ∧
      (PerformDeployStage
        (deployStatusFailServices (sampleVersion "manifest_download" .DEPLOY_INIT))
        1 10 7).result = none := by
  decide

/-! ## Workflow stage tracker: the workflow reducer, phase by phase -/

/-- The lowering follows `unicode.ToLower` outside ASCII where the result is an ASCII
letter: the phase written with U+0130 in place of `i` is lowered to `running`, and the
Kelvin sign is lowered to `k`. -/
theorem ToLower_non_ascii_capitals :
    ToLower "Runn\u0130ng" = ToLower NodeRunning ∧ ToLower "\u212A" = "k" := by
  decide

theorem forEachStage_forall₂
    (body : WorkflowExecutionStage → String → WorkflowExecutionStage × String)
    (R : WorkflowExecutionStage → WorkflowExecutionStage → Prop)
    (hR : ∀ s w, R s (body s w).1) (stages : List WorkflowExecutionStage) (w : String) :
    List.Forall₂ R stages (forEachStage body stages w).1 := by
  induction stages generalizing w with
  | nil => exact List.Forall₂.nil
  | cons s rest ih => exact List.Forall₂.cons (hR s w) (ih _)

theorem forEachStage_snd_const
    (body : WorkflowExecutionStage → String → WorkflowExecutionStage × String)
    (hc : ∀ s w, (body s w).2 = w) (stages : List WorkflowExecutionStage) (w : String) :
    (forEachStage body stages w).2 = w := by
  induction stages generalizing w with
  | nil => rfl
  | cons s rest ih =>
    simp only [forEachStage]
    rw [ih, hc]

theorem runningBody_snd (h : StageHelpers) (now wfStatus wfMessage : String)
    (s : WorkflowExecutionStage) (w : String) :
    (runningBody h now wfStatus wfMessage s w).2 = w := by
  simp only [runningBody]
  split <;> rfl

theorem runningBody_status (h : StageHelpers) (now wfStatus wfMessage : String)
    (s : WorkflowExecutionStage) (w : String) :
    (s.StatusFor = .WORKFLOW → s.StageName = .WORKFLOW_PREPARATION → s.Status = .RUNNING →
        (runningBody h now wfStatus wfMessage s w).1.Status = .SUCCEEDED) ∧
      (s.StatusFor = .WORKFLOW → s.StageName = .WORKFLOW_EXECUTION → s.Status = .NOT_STARTED →
        (runningBody h now wfStatus wfMessage s w).1.Status = .RUNNING) ∧
      (s.StatusFor = .WORKFLOW → s.StageName = .WORKFLOW_EXECUTION → s.Status = .RUNNING →
        (runningBody h now wfStatus wfMessage s w).1.Status
          = if (h.ConvertStatusToDevtronStatus wfStatus wfMessage).IsTerminal = true then
              h.ConvertStatusToDevtronStatus wfStatus wfMessage
            else .RUNNING) ∧
      (¬ (s.StatusFor = .WORKFLOW ∧
          ((s.StageName = .WORKFLOW_PREPARATION ∧ s.Status = .RUNNING) ∨
            (s.StageName = .WORKFLOW_EXECUTION ∧
              (s.Status = .NOT_STARTED ∨ s.Status = .RUNNING)))) →
        (runningBody h now wfStatus wfMessage s w).1.Status = s.Status) := by
  obtain ⟨name, statusFor, status, m, md, st, et⟩ := s
  refine ⟨?_, ?_, ?_, ?_⟩
  · rintro rfl rfl rfl
    simp [runningBody]
  · rintro rfl rfl rfl
    simp [runningBody]
  · rintro rfl rfl rfl
    by_cases hc : (h.ConvertStatusToDevtronStatus wfStatus wfMessage).IsTerminal = true <;>
      simp [runningBody, hc]
  · intro hn
    cases statusFor <;> cases name <;> cases status <;> simp_all [runningBody]

/-- C25: for the pod phase Running (in any letter case),
`updateWorkflowStagesToDevtronStatus` changes the stage statuses exactly as follows: a
workflow-level preparation stage that is Running becomes Succeeded; a workflow-level
execution stage that is NotStarted becomes Running; a workflow-level execution stage that
is Running takes the derived status when that status is terminal and stays Running
otherwise; every other stage, pod-level stages included, keeps its status. -/
theorem C25_running_phase (h : StageHelpers) (now : String)
    (stages : List WorkflowExecutionStage)
    (wfStatus currentWfDBstatus wfMessage podStatus : String)
    (hp : ToLower podStatus = ToLower NodeRunning) :
    List.Forall₂
      (fun before after =>
        (before.StatusFor = .WORKFLOW → before.StageName = .WORKFLOW_PREPARATION →
          before.Status = .RUNNING → after.Status = .SUCCEEDED) ∧
        (before.StatusFor = .WORKFLOW → before.StageName = .WORKFLOW_EXECUTION →
          before.Status = .NOT_STARTED → after.Status = .RUNNING) ∧
        (before.StatusFor = .WORKFLOW → before.StageName = .WORKFLOW_EXECUTION →
          before.Status = .RUNNING →
          after.Status
            = if (h.ConvertStatusToDevtronStatus wfStatus wfMessage).IsTerminal = true then
                h.ConvertStatusToDevtronStatus wfStatus wfMessage
              else .RUNNING) ∧
        (¬ (before.StatusFor = .WORKFLOW ∧
            ((before.StageName = .WORKFLOW_PREPARATION ∧ before.Status = .RUNNING) ∨
              (before.StageName = .WORKFLOW_EXECUTION ∧
                (before.Status = .NOT_STARTED ∨ before.Status = .RUNNING)))) →
          after.Status = before.Status))
      stages
      (updateWorkflowStagesToDevtronStatus h now stages wfStatus currentWfDBstatus wfMessage
        podStatus).1 := by
  have h1 : (ToLower NodeRunning == ToLower NodePending) = false := by decide
  simp only [updateWorkflowStagesToDevtronStatus, hp, h1, beq_self_eq_true,
    Bool.false_eq_true, if_false, if_true]
  exact forEachStage_forall₂ _ _ (fun s w => runningBody_status h now wfStatus wfMessage s w)
    stages _

/-- C25 at a concrete input: preparation Running, execution NotStarted and a pod-level stage,
with the phase Running; the statuses become Succeeded, Running and the pod stage keeps
its own. -/
theorem C25_running_phase_witness :
    List.Forall₂
      (fun before after =>
        (before.StatusFor = .WORKFLOW → before.StageName = .WORKFLOW_PREPARATION →
          before.Status = .RUNNING → after.Status = .SUCCEEDED) ∧
        (before.StatusFor = .WORKFLOW → before.StageName = .WORKFLOW_EXECUTION →
          before.Status = .NOT_STARTED → after.Status = .RUNNING) ∧
        (before.StatusFor = .WORKFLOW → before.StageName = .WORKFLOW_EXECUTION →
          before.Status = .RUNNING →
          after.Status
            = if (sampleHelpers.ConvertStatusToDevtronStatus "Running" "").IsTerminal = true
              then sampleHelpers.ConvertStatusToDevtronStatus "Running" ""
              else .RUNNING) ∧
        (¬ (before.StatusFor = .WORKFLOW ∧
            ((before.StageName = .WORKFLOW_PREPARATION ∧ before.Status = .RUNNING) ∨
              (before.StageName = .WORKFLOW_EXECUTION ∧
                (before.Status = .NOT_STARTED ∨ before.Status = .RUNNING)))) →
          after.Status = before.Status))
      [workflowStage .WORKFLOW_PREPARATION .RUNNING,
        workflowStage .WORKFLOW_EXECUTION .NOT_STARTED, podStage .NOT_STARTED]
      (updateWorkflowStagesToDevtronStatus sampleHelpers "2024-01-01T00:00:00Z"
        [workflowStage .WORKFLOW_PREPARATION .RUNNING,
          workflowStage .WORKFLOW_EXECUTION .NOT_STARTED, podStage .NOT_STARTED]
        "Running" "Running" "" "Running").1 :=
  C25_running_phase sampleHelpers "2024-01-01T00:00:00Z"
    [workflowStage .WORKFLOW_PREPARATION .RUNNING,
      workflowStage .WORKFLOW_EXECUTION .NOT_STARTED, podStage .NOT_STARTED]
    "Running" "Running" "" "Running" (by decide)

theorem closedWfStatus_idem (d : WorkflowStageStatus) (w : String) :
    closedWfStatus d (closedWfStatus d w) = closedWfStatus d w := by
  cases d <;> simp [closedWfStatus]

theorem failedBody_spec (h : StageHelpers) (now wfStatus wfMessage : String)
    (s : WorkflowExecutionStage) (w : String) :
    failedBody h now wfStatus wfMessage s w
      = if closesOnFailure (h.ConvertStatusToDevtronStatus wfStatus wfMessage) s = true then
          ({ s with
              Status := h.ConvertStatusToDevtronStatus wfStatus wfMessage, EndTime := now },
            closedWfStatus (h.ConvertStatusToDevtronStatus wfStatus wfMessage) w)
        else (s, w) := by
  obtain ⟨name, statusFor, status, m, md, st, et⟩ := s
  by_cases hc : (h.ConvertStatusToDevtronStatus wfStatus wfMessage).IsTerminal = true <;>
    cases statusFor <;> cases name <;> cases status <;>
    simp [failedBody, closesOnFailure, hc, WorkflowStageStatus.IsTerminal]

theorem forEachStage_failed_snd (h : StageHelpers) (now wfStatus wfMessage : String)
    (stages : List WorkflowExecutionStage) (w : String) :
    (forEachStage (failedBody h now wfStatus wfMessage) stages w).2
      = if stages.any (closesOnFailure (h.ConvertStatusToDevtronStatus wfStatus wfMessage))
            = true then
          closedWfStatus (h.ConvertStatusToDevtronStatus wfStatus wfMessage) w
        else w := by
  induction stages generalizing w with
  | nil => rfl
  | cons s rest ih =>
    simp only [forEachStage, ih, failedBody_spec, List.any_cons]
    by_cases hs : closesOnFailure (h.ConvertStatusToDevtronStatus wfStatus wfMessage) s = true
    · simp only [hs, if_true, Bool.true_or]
      split
      · exact closedWfStatus_idem _ w
      · rfl
    · simp only [hs, if_false, Bool.not_eq_true] at hs ⊢
      simp only [hs, Bool.false_eq_true, if_false, Bool.false_or]

/-- C24 (amended): for the pod phase Failed or Error (in any letter case) with derived stage
status `d`: a stage is closed with `d` exactly when `d` is terminal and the stage is
workflow-level and either the execution stage, being Running, or the preparation stage,
being not terminal, whatever the status of the execution stage is; every other stage
keeps its status, so that no stage status changes when `d` is not terminal. When some
stage is closed, the returned overall status is the timed-out status for `d` = Timeout
and the cancelled status for `d` = Aborted. -/
theorem C24_failed_phase (h : StageHelpers) (now : String)
    (stages : List WorkflowExecutionStage)
    (wfStatus currentWfDBstatus wfMessage podStatus : String)
    (hp : ToLower podStatus = ToLower NodeFailed ∨ ToLower podStatus = ToLower NodeError) :
    List.Forall₂
      (fun before after =>
        (closesOnFailure (h.ConvertStatusToDevtronStatus wfStatus wfMessage) before = true →
          after.Status = h.ConvertStatusToDevtronStatus wfStatus wfMessage) ∧
        (closesOnFailure (h.ConvertStatusToDevtronStatus wfStatus wfMessage) before = false →
          after = before))
      stages
      (updateWorkflowStagesToDevtronStatus h now stages wfStatus currentWfDBstatus wfMessage
        podStatus).1 ∧
    (∀ s : WorkflowExecutionStage,
      closesOnFailure (h.ConvertStatusToDevtronStatus wfStatus wfMessage) s = true ↔
        ((h.ConvertStatusToDevtronStatus wfStatus wfMessage).IsTerminal = true ∧
          s.StatusFor = .WORKFLOW ∧
          ((s.StageName = .WORKFLOW_EXECUTION ∧ s.Status = .RUNNING) ∨
            (s.StageName = .WORKFLOW_PREPARATION ∧ s.Status.IsTerminal = false)))) ∧
    ((h.ConvertStatusToDevtronStatus wfStatus wfMessage).IsTerminal = false →
      (updateWorkflowStagesToDevtronStatus h now stages wfStatus currentWfDBstatus wfMessage
        podStatus).1 = stages) ∧
    (stages.any (closesOnFailure (h.ConvertStatusToDevtronStatus wfStatus wfMessage)) = true →
      (h.ConvertStatusToDevtronStatus wfStatus wfMessage = .TIMEOUT →
        (updateWorkflowStagesToDevtronStatus h now stages wfStatus currentWfDBstatus
          wfMessage podStatus).2 = WorkflowTimedOut) ∧
      (h.ConvertStatusToDevtronStatus wfStatus wfMessage = .ABORTED →
        (updateWorkflowStagesToDevtronStatus h now stages wfStatus currentWfDBstatus
          wfMessage podStatus).2 = WorkflowCancel)) := by
  have hb : updateWorkflowStagesToDevtronStatus h now stages wfStatus currentWfDBstatus
      wfMessage podStatus
      = forEachStage (failedBody h now wfStatus wfMessage) stages
          (h.ComputeWorkflowStatus currentWfDBstatus wfStatus WorkflowFailed) := by
    have h1 : (ToLower NodeFailed == ToLower NodePending) = false := by decide
    have h2 : (ToLower NodeFailed == ToLower NodeRunning) = false := by decide
    have h3 : (ToLower NodeFailed == ToLower NodeSucceeded) = false := by decide
    have h4 : (ToLower NodeError == ToLower NodePending) = false := by decide
    have h5 : (ToLower NodeError == ToLower NodeRunning) = false := by decide
    have h6 : (ToLower NodeError == ToLower NodeSucceeded) = false := by decide
    rcases hp with hp | hp <;>
      simp only [updateWorkflowStagesToDevtronStatus, hp, h1, h2, h3, h4, h5, h6,
        beq_self_eq_true, Bool.false_eq_true, if_false, if_true, Bool.true_or, Bool.or_true]
  rw [hb]
  have hloop : List.Forall₂
      (fun before after =>
        (closesOnFailure (h.ConvertStatusToDevtronStatus wfStatus wfMessage) before = true →
          after.Status = h.ConvertStatusToDevtronStatus wfStatus wfMessage) ∧
        (closesOnFailure (h.ConvertStatusToDevtronStatus wfStatus wfMessage) before = false →
          after = before))
      stages
      (forEachStage (failedBody h now wfStatus wfMessage) stages
        (h.ComputeWorkflowStatus currentWfDBstatus wfStatus WorkflowFailed)).1 := by
    apply forEachStage_forall₂
    intro s w
    rw [failedBody_spec]
    constructor
    · intro hc
      simp [hc]
    · intro hc
      simp [hc]
  refine ⟨hloop, ?_, ?_, ?_⟩
  · intro s
    simp [closesOnFailure, and_assoc, and_left_comm, and_comm]
  · intro hd
    have hsame : ∀ l : List WorkflowExecutionStage, ∀ l2 : List WorkflowExecutionStage,
        List.Forall₂
          (fun before after =>
            (closesOnFailure (h.ConvertStatusToDevtronStatus wfStatus wfMessage) before = true →
              after.Status = h.ConvertStatusToDevtronStatus wfStatus wfMessage) ∧
            (closesOnFailure (h.ConvertStatusToDevtronStatus wfStatus wfMessage) before
                = false → after = before))
          l l2 → l2 = l := by
      intro l l2 hf
      induction hf with
      | nil => rfl
      | cons hab _ ih =>
        rw [ih, hab.2 (by simp [closesOnFailure, hd])]
    exact hsame _ _ hloop
  · intro hany
    rw [forEachStage_failed_snd]
    simp only [hany, if_true]
    constructor
    · intro hd
      rw [hd]
      rfl
    · intro hd
      rw [hd]
      rfl

/-- C24 at a concrete input: the execution stage is Running, the phase is Failed and the
derived status is Timeout; the stage is closed as Timeout and the overall status is the
timed-out status. -/
theorem C24_failed_phase_witness :
    (updateWorkflowStagesToDevtronStatus sampleHelpers "2024-01-01T00:00:00Z"
        [workflowStage .WORKFLOW_EXECUTION .RUNNING] "TimedOut" "Running" "" "Failed").2
      = WorkflowTimedOut :=
  ((C24_failed_phase sampleHelpers "2024-01-01T00:00:00Z"
    [workflowStage .WORKFLOW_EXECUTION .RUNNING] "TimedOut" "Running" "" "Failed"
    (Or.inl (by decide))).2.2.2 (by decide)).1 (by decide)

/-- C24 (counterexample): the claim as stated fails. With the preparation stage NotStarted
and the execution stage Running (it had started), the phase Failed with the derived status
Failed closes both stages: the preparation stage becomes Failed as well. -/
theorem C24_counterexample :
    (updateWorkflowStagesToDevtronStatus sampleHelpers "2024-01-01T00:00:00Z"
        [workflowStage .WORKFLOW_PREPARATION .NOT_STARTED,
          workflowStage .WORKFLOW_EXECUTION .RUNNING]
        "Failed" "Running" "" "Failed").1.map (fun s => s.Status)
      = [WorkflowStageStatus.FAILED, WorkflowStageStatus.FAILED] := by
  decide

theorem defaultBody_spec (s : WorkflowExecutionStage) (w : String) :
    defaultBody s w
      = if degradesOnUnknownPhase s = true then
          ({ s with Status := .UNKNOWN }, WorkflowStageStatus.UNKNOWN.ToString)
        else (s, w) := by
  obtain ⟨name, statusFor, status, m, md, st, et⟩ := s
  cases statusFor <;> cases name <;> cases status <;>
    simp [defaultBody, degradesOnUnknownPhase]

theorem forEachStage_default_snd (stages : List WorkflowExecutionStage) (w : String) :
    (forEachStage defaultBody stages w).2
      = if stages.any degradesOnUnknownPhase = true then WorkflowStageStatus.UNKNOWN.ToString
        else w := by
  induction stages generalizing w with
  | nil => rfl
  | cons s rest ih =>
    simp only [forEachStage, ih, defaultBody_spec, List.any_cons]
    by_cases hs : degradesOnUnknownPhase s = true
    · simp only [hs, if_true, Bool.true_or]
      split <;> rfl
    · simp only [Bool.not_eq_true] at hs
      simp only [hs, Bool.false_eq_true, if_false, Bool.false_or]

/-- C26: for every pod phase that is not, in any letter case, Pending, Running, Succeeded,
Failed or Error, `updateWorkflowStagesToDevtronStatus` sets each workflow-level execution
stage that is Running to Unknown and leaves every other stage as it is; when some
execution stage was Running the returned overall status is the Unknown status string,
whatever the recorded run status was, and otherwise it is the recorded run status. -/
theorem C26_unrecognised_phase (h : StageHelpers) (now : String)
    (stages : List WorkflowExecutionStage)
    (wfStatus currentWfDBstatus wfMessage podStatus : String)
    (h1 : ToLower podStatus ≠ ToLower NodePending)
    (h2 : ToLower podStatus ≠ ToLower NodeRunning)
    (h3 : ToLower podStatus ≠ ToLower NodeSucceeded)
    (h4 : ToLower podStatus ≠ ToLower NodeFailed)
    (h5 : ToLower podStatus ≠ ToLower NodeError) :
    List.Forall₂
      (fun before after =>
        (before.StatusFor = .WORKFLOW → before.StageName = .WORKFLOW_EXECUTION →
          before.Status = .RUNNING → after.Status = .UNKNOWN) ∧
        (¬ (before.StatusFor = .WORKFLOW ∧ before.StageName = .WORKFLOW_EXECUTION ∧
            before.Status = .RUNNING) → after = before))
      stages
      (updateWorkflowStagesToDevtronStatus h now stages wfStatus currentWfDBstatus wfMessage
        podStatus).1 ∧
    ((∃ s ∈ stages, s.StatusFor = .WORKFLOW ∧ s.StageName = .WORKFLOW_EXECUTION ∧
        s.Status = .RUNNING) →
      (updateWorkflowStagesToDevtronStatus h now stages wfStatus currentWfDBstatus wfMessage
        podStatus).2 = WorkflowStageStatus.UNKNOWN.ToString) ∧
    ((¬ ∃ s ∈ stages, s.StatusFor = .WORKFLOW ∧ s.StageName = .WORKFLOW_EXECUTION ∧
        s.Status = .RUNNING) →
      (updateWorkflowStagesToDevtronStatus h now stages wfStatus currentWfDBstatus wfMessage
        podStatus).2 = currentWfDBstatus) := by
  have hb : updateWorkflowStagesToDevtronStatus h now stages wfStatus currentWfDBstatus
      wfMessage podStatus = forEachStage defaultBody stages currentWfDBstatus := by
    simp [updateWorkflowStagesToDevtronStatus, h1, h2, h3, h4, h5]
  have hdeg : ∀ s : WorkflowExecutionStage, degradesOnUnknownPhase s = true ↔
      (s.StatusFor = .WORKFLOW ∧ s.StageName = .WORKFLOW_EXECUTION ∧ s.Status = .RUNNING) := by
    intro s
    simp [degradesOnUnknownPhase, and_assoc]
  have hany : stages.any degradesOnUnknownPhase = true ↔
      ∃ s ∈ stages, s.StatusFor = .WORKFLOW ∧ s.StageName = .WORKFLOW_EXECUTION ∧
        s.Status = .RUNNING := by
    rw [List.any_eq_true]
    constructor
    · rintro ⟨s, hs, hd⟩
      exact ⟨s, hs, (hdeg s).mp hd⟩
    · rintro ⟨s, hs, hd⟩
      exact ⟨s, hs, (hdeg s).mpr hd⟩
  rw [hb]
  refine ⟨?_, ?_, ?_⟩
  · apply forEachStage_forall₂
    intro s w
    rw [defaultBody_spec]
    constructor
    · intro k1 k2 k3
      have := (hdeg s).mpr ⟨k1, k2, k3⟩
      simp [this]
    · intro hn
      have : degradesOnUnknownPhase s = false := by
        cases hd : degradesOnUnknownPhase s with
        | false => rfl
        | true => exact absurd ((hdeg s).mp hd) hn
      simp [this]
  · intro hex
    rw [forEachStage_default_snd, if_pos (hany.mpr hex)]
  · intro hex
    rw [forEachStage_default_snd, if_neg (fun k => hex (hany.mp k))]

/-- C26 at a concrete input: the phase `Skipped`, the execution stage Running and the
recorded run status Succeeded; the returned overall status is UNKNOWN. -/
theorem C26_unrecognised_phase_witness :
    (updateWorkflowStagesToDevtronStatus sampleHelpers "2024-01-01T00:00:00Z"
        [workflowStage .WORKFLOW_EXECUTION .RUNNING] "Running" "Succeeded" "" "Skipped").2
      = "UNKNOWN" :=
  (C26_unrecognised_phase sampleHelpers "2024-01-01T00:00:00Z"
    [workflowStage .WORKFLOW_EXECUTION .RUNNING] "Running" "Succeeded" "" "Skipped"
    (by decide) (by decide) (by decide) (by decide) (by decide)).2.1
    ⟨workflowStage .WORKFLOW_EXECUTION .RUNNING, List.mem_singleton.mpr rfl, rfl, rfl, rfl⟩

/-- C29: the two reducers treat the letter case of the pod phase differently.
`updateWorkflowStagesToDevtronStatus` gives the same result for two pod phases that agree
up to letter case; for the phase `running` it applies the Running transitions.
`updatePodStages` compares the phase as it is written: for the phase `running` a
pod-level stage that is NotStarted is set to Unknown, while for `Running` it is set to
Running. -/
theorem C29_letter_case_of_the_phase (h : StageHelpers) (now : String)
    (stages : List WorkflowExecutionStage)
    (wfStatus currentWfDBstatus currentPodStatus message podName : String) :
    (∀ p q : String, ToLower p = ToLower q →
      updateWorkflowStagesToDevtronStatus h now stages wfStatus currentWfDBstatus message p
        = updateWorkflowStagesToDevtronStatus h now stages wfStatus currentWfDBstatus
            message q) ∧
    updateWorkflowStagesToDevtronStatus h now stages wfStatus currentWfDBstatus message
        "running"
      = forEachStage (runningBody h now wfStatus message) stages
          (h.ComputeWorkflowStatus currentWfDBstatus wfStatus Running) ∧
    (∀ stage : WorkflowExecutionStage, stage.StatusFor = .POD → stage.Status = .NOT_STARTED →
      (updatePodStages h now [stage] "running" currentPodStatus message podName).1.map
          (fun s => s.Status) = [WorkflowStageStatus.UNKNOWN] ∧
      (updatePodStages h now [stage] "Running" currentPodStatus message podName).1.map
          (fun s => s.Status) = [WorkflowStageStatus.RUNNING]) := by
  refine ⟨?_, ?_, ?_⟩
  · intro p q hpq
    simp only [updateWorkflowStagesToDevtronStatus, hpq]
  · have h0 : ToLower "running" = ToLower NodeRunning := by decide
    have h1 : (ToLower NodeRunning == ToLower NodePending) = false := by decide
    simp only [updateWorkflowStagesToDevtronStatus, h0, h1, beq_self_eq_true,
      Bool.false_eq_true, if_false, if_true]
  · intro stage hpod hs
    simp only [updatePodStages, List.map, updatePodStage_status, hpod, hs, if_true]
    exact ⟨by decide, by decide⟩

/-- C29 at a concrete input: the pod-readiness stage is NotStarted; the phase `running`
makes it Unknown, the phase `Running` makes it Running. -/
theorem C29_letter_case_of_the_phase_witness :
    (updatePodStages sampleHelpers "2024-01-01T00:00:00Z" [podStage .NOT_STARTED] "running"
        "Pending" "" "pod-1").1.map (fun s => s.Status) = [WorkflowStageStatus.UNKNOWN] ∧
      (updatePodStages sampleHelpers "2024-01-01T00:00:00Z" [podStage .NOT_STARTED] "Running"
        "Pending" "" "pod-1").1.map (fun s => s.Status) = [WorkflowStageStatus.RUNNING] :=
  (C29_letter_case_of_the_phase sampleHelpers "2024-01-01T00:00:00Z" [] "Running" "Running"
    "Pending" "" "pod-1").2.2 (podStage .NOT_STARTED) rfl rfl

/-! ## Chart group installation id: theorems -/

theorem installationBuffer_error_iff (buffer : String) (l : List InstallAppVersionDTO) :
    (∃ e, installationBuffer buffer l = .error e) ↔ ∃ v ∈ l, v.AppId = 0 := by
  induction l generalizing buffer with
  | nil => simp [installationBuffer]
  | cons v rest ih =>
    simp only [installationBuffer]
    by_cases hv : v.AppId = 0
    · simp [hv]
    · simp [hv, ih]

/-- C27 (code bug): `getInstallationId` does not tell app id sequences apart. The decimal
texts of the app ids are written to the buffer with nothing between them, so the
sequences 1, 23 and 12, 3 (all ids non-zero, sequences different) give the same buffer
`123` and therefore the same installation id, whatever the digest function is. The error
part holds: the function fails exactly when some element has app id 0. -/
theorem C27_installation_ids_collide (sha1Hex : String → String) :
    [appVersion 1, appVersion 23].map (fun v => v.AppId)
        ≠ [appVersion 12, appVersion 3].map (fun v => v.AppId) ∧
      getInstallationId sha1Hex [appVersion 1, appVersion 23] = .ok (sha1Hex "123") ∧
      getInstallationId sha1Hex [appVersion 12, appVersion 3] = .ok (sha1Hex "123") ∧
      ∀ l : List InstallAppVersionDTO,
        (∃ e, getInstallationId sha1Hex l = .error e) ↔ ∃ v ∈ l, v.AppId = 0 := by
  refine ⟨by decide, ?_, ?_, ?_⟩
  · have hb : installationBuffer "" [appVersion 1, appVersion 23] = .ok "123" := rfl
    simp only [getInstallationId, hb]
  · have hb : installationBuffer "" [appVersion 12, appVersion 3] = .ok "123" := rfl
    simp only [getInstallationId, hb]
  · intro l
    rw [← installationBuffer_error_iff "" l]
    simp only [getInstallationId]
    cases installationBuffer "" l <;> simp

/-! ## Config map and secret validation: theorems -/

theorem validateKeys_of_all_match (m : List (String × String))
    (hm : ∀ kv ∈ m, reMatchString kv.1 = true) : validateKeys m = (true, none) := by
  induction m with
  | nil => rfl
  | cons kv rest ih =>
    obtain ⟨key, value⟩ := kv
    have hk : reMatchString key = true := hm (key, value) (List.mem_cons_self _ _)
    simp only [validateKeys, hk, Bool.not_true, Bool.false_eq_true, if_false]
    exact ih (fun x hx => hm x (List.mem_cons_of_mem _ hx))

/-- C30 (code bug): `validateConfigData` accepts keys that hold characters outside
`[-._a-zA-Z0-9]`. The pattern is compiled without anchors and tested with `MatchString`,
so a key passes as soon as it holds one character of the class: when the data is a JSON
object of string values in which every key holds at least one such character, the result
is (true, no error), whatever other characters the keys hold. -/
theorem C30_keys_with_other_characters_accepted
    (unmarshal : String → Except GoError (List (String × String))) (data : String)
    (dataMap : List (String × String))
    (hu : unmarshal data = .ok dataMap)
    (hm : ∀ kv ∈ dataMap, kv.1.data.any isKeyChar = true) :
    validateConfigData unmarshal { Data := some data } = (true, none) := by
  simp only [validateConfigData, hu]
  exact validateKeys_of_all_match dataMap hm

/-- C30 at a concrete input: the data is the object with the one key `a b`; the key holds a
blank, which is outside the class, and the data is accepted. -/
theorem C30_keys_with_other_characters_accepted_witness :
    "a b".data.all isKeyChar = false ∧
      validateConfigData sampleUnmarshal { Data := some "\x7b\"a b\":\"x\"\x7d" }
        = (true, none) :=
  ⟨by decide,
    C30_keys_with_other_characters_accepted sampleUnmarshal "\x7b\"a b\":\"x\"\x7d"
      [("a b", "x")] rfl (by decide)⟩

end Devtron
